import Mathlib

/-!
# Emissary: the Following connector, the inbox ingestion loop and responses

A shallow embedding of `service/following_connect.go`, `service/response.go`,
`service/following_rss.go`, `service/activity.go`, `model/actionConfig.go`,
`queries/upgrade.go` and `handler/activitypub_receive_create_any.go`.  The Go
code talks to a remote server, to the storage layer, to a folder service and
to the outbox; here these are the fields of an environment (`Env`,
`ResponseEnv`, `RSSEnv`, `ActivityEnv`, `UpgradeEnv`, `HandlerEnv`), the
stored records are the fields of a world (`World`, `ResponseWorld`,
`ActivityWorld`), and every call that leaves a function is appended to a
trace, so that the order of effects can be stated.  A Go `error` is an
`Option Err` (`none` is `nil`).
-/

namespace Emissary

/-! ## Errors (the part of `github.com/benpate/derp` the connector uses) -/

/-- An error value: either a plain error with a numeric code and a text, or an
error wrapped by `derp.Wrap` with a location and a message. -/
inductive Err where
  | base (code : Nat) (text : String)
  | wrap (inner : Err) (location message : String)
  deriving DecidableEq, Repr

/-- The numeric code of an error; wrapping keeps the code of the inner error. -/
def Err.ErrorCode : Err → Nat
  | .base code _ => code
  | .wrap inner _ _ => inner.ErrorCode

/-- The text of an error, as returned by the Go method `Error()`. -/
def Err.Error : Err → String
  | .base _ text => text
  | .wrap _ location message => location ++ ": " ++ message

/-- The innermost error of a chain of wraps. -/
def Err.rootCause : Err → Err
  | .base code text => .base code text
  | .wrap inner _ _ => inner.rootCause

/-- The relation "outer is inner, or wraps it in one or more layers". -/
def Err.Wraps : Err → Err → Bool
  | .base code text, e => decide (Err.base code text = e)
  | .wrap inner location message, e =>
    decide (Err.wrap inner location message = e) || inner.Wraps e

/-- The function `derp.Wrap`: a nil inner error gives nil, any other error is
wrapped with the location and the message. -/
def derp.Wrap (inner : Option Err) (location message : String) : Option Err :=
  match inner with
  | none => none
  | some e => some (Err.wrap e location message)

/-- The function `derp.NotFound`: the error carries code 404. -/
def derp.NotFound (err : Err) : Bool :=
  err.ErrorCode == 404

/-! ## Data model -/

/-- The lifecycle status of a Following (`model.FollowingStatus...`). -/
inductive FollowingStatus where
  | New
  | Loading
  | Success
  | Failure
  deriving DecidableEq, Repr

/-- A link from a Message back to the Following that produced it. -/
structure OriginLink where
  InternalID : Nat
  Label : String
  URL : String
  ImageURL : String
  deriving DecidableEq, Repr

/-- The record `model.Following`: the fields the connector reads or writes. -/
structure Following where
  FollowingID : Nat
  UserID : Nat
  FolderID : Nat
  URL : String
  Label : String
  ProfileURL : String
  ImageURL : String
  Format : String
  Status : FollowingStatus
  StatusMessage : String
  Links : List String := []
  PurgeDuration : Int := 0
  deriving DecidableEq, Repr

/-- Modelled from the spec: `Following.Origin` is not in the source tree; the
origin of a Message is "a link back to the Following that produced it". -/
def Following.Origin (following : Following) : OriginLink :=
  { InternalID := following.FollowingID, Label := following.Label,
    URL := following.URL, ImageURL := following.ImageURL }

/-- A link to a person (`model.PersonLink`): the author of a Message, or the
local user who acts in a Response (`UserID`, zero for a remote person). -/
structure PersonLink where
  Name : String
  ProfileURL : String
  ImageURL : String
  UserID : Nat := 0
  deriving DecidableEq, Repr

/-- The record `model.Message`, with the two journal dates the connector
depends on: `CreateDate` is zero until the record is first saved, `DeleteDate`
is zero until it is deleted. -/
structure Message where
  MessageID : Nat
  UserID : Nat
  FolderID : Nat
  Origin : OriginLink
  URL : String
  Label : String
  Summary : String
  ImageURL : String
  AttributedTo : List PersonLink
  ContentHTML : String
  PublishDate : Int
  Read : Bool
  CreateDate : Nat
  DeleteDate : Nat
  SocialRole : String := ""
  InReplyTo : String := ""
  deriving DecidableEq, Repr

/-- The constructor `model.NewMessage`: a fresh identifier, every other field
zero. -/
def NewMessage (freshID : Nat) : Message :=
  { MessageID := freshID, UserID := 0, FolderID := 0,
    Origin := { InternalID := 0, Label := "", URL := "", ImageURL := "" },
    URL := "", Label := "", Summary := "", ImageURL := "", AttributedTo := [],
    ContentHTML := "", PublishDate := 0, Read := false, CreateDate := 0, DeleteDate := 0 }

/-- The journal method `IsNew`: the record has never been saved. -/
def Message.IsNew (message : Message) : Bool :=
  message.CreateDate == 0

/-- An ActivityStreams document (`streams.Document`): the empty document, or a
document with its properties and its `object` property. -/
inductive Document where
  | empty
  | node (docType ID Name Summary ImageURL : String) (AttributedTo : List String)
      (Content : String) (Published : Int) (Object : Document)
  deriving DecidableEq, Repr

/-- The property `type` of a document. -/
def Document.docType : Document → String
  | .empty => ""
  | .node t _ _ _ _ _ _ _ _ => t

/-- The property `id` of a document: its canonical URL. -/
def Document.ID : Document → String
  | .empty => ""
  | .node _ id _ _ _ _ _ _ _ => id

/-- The property `name` of a document. -/
def Document.Name : Document → String
  | .empty => ""
  | .node _ _ name _ _ _ _ _ _ => name

/-- The property `summary` of a document. -/
def Document.Summary : Document → String
  | .empty => ""
  | .node _ _ _ summary _ _ _ _ _ => summary

/-- The URL of the property `image` of a document. -/
def Document.ImageURL : Document → String
  | .empty => ""
  | .node _ _ _ _ image _ _ _ _ => image

/-- The property `attributedTo` of a document. -/
def Document.AttributedTo : Document → List String
  | .empty => []
  | .node _ _ _ _ _ attributedTo _ _ _ => attributedTo

/-- The property `content` of a document. -/
def Document.Content : Document → String
  | .empty => ""
  | .node _ _ _ _ _ _ content _ _ => content

/-- The property `published` of a document as Unix seconds; the empty document
has Go's zero time. -/
def Document.PublishedUnix : Document → Int
  | .empty => -62135596800
  | .node _ _ _ _ _ _ _ published _ => published

/-- The property `object` of a document. -/
def Document.Object : Document → Document
  | .empty => .empty
  | .node _ _ _ _ _ _ _ _ object => object

/-- The resolved actor document: the properties `Connect` reads, and the
documents that `collections.Documents` yields from its outbox, in order. -/
structure Actor where
  Name : String
  ID : String
  IconOrImageURL : String
  Format : String
  HubWebSub : String
  Outbox : List Document
  deriving DecidableEq, Repr

/-- An item of a parsed feed (`gofeed.Item`). -/
structure RSSItem where
  Title : String
  Link : String
  deriving DecidableEq, Repr

/-- A parsed feed (`gofeed.Feed`). -/
structure RSSFeed where
  Title : String
  Items : List RSSItem
  deriving DecidableEq, Repr

/-- One call that leaves the connector. -/
inductive Event where
  | saveFollowing (following : Following)
  | loadActor (url : String)
  | document (d : Document)
  | loadByURL (userID : Nat) (url : String)
  | saveMessage (message : Message)
  | report (err : Err)
  | closeDone
  | recalculateUnread (userID folderID : Nat)
  | connectActivityPub
  | connectWebSub (hub : String)
  | saveActivity (following : Following) (item : RSSItem)
  | loadFollowing (userID : Nat) (url : String)
  deriving DecidableEq, Repr

/-- The collaborators of the connector.  The `...Err` fields say which storage
calls fail; `now` is the clock that stamps `CreateDate`, a positive number of
milliseconds since the epoch. -/
structure Env where
  LoadActor : String → Except Err Actor
  Load : Document → Document
  ActivityPubPersonLinks : List String → List PersonLink
  followingSaveErr : Following → Option Err
  messageLoadErr : Nat → String → Option Err
  messageSaveErr : Message → Option Err
  recalcErr : Nat → Nat → Option Err
  connect_ActivityPub : Following → Actor → Bool × Option Err
  connect_WebSub : Following → String → Option Err
  now : Nat
  now_pos : 0 < now

/-- The state outside the connector: the stored messages, the successive
persisted versions of the Following record (latest last), the next fresh
object identifier, and the calls made so far. -/
structure World where
  messages : List Message
  persisted : List Following
  nextID : Nat
  trace : List Event
  deriving DecidableEq, Repr

/-- Append one call to the trace. -/
def World.log (w : World) (e : Event) : World :=
  { w with trace := w.trace ++ [e] }

/-! ## The storage and status helpers the connector calls -/

/-- Modelled from the spec: `Following.SetStatus` and its three shorthands are
not in the source tree.  Following the spec ("transition to Loading; persist
immediately", "transition to Failure, persist the error string") and the call
`SetStatus(following, status, message)` in `following_rss.go`, it writes the
status and the status message into the record and saves the record; the
caller's record is updated through the pointer whether or not the save
succeeds. -/
def SetStatus (env : Env) (w : World) (following : Following) (status : FollowingStatus)
    (statusMessage : String) : Following × Option Err × World :=
  let following1 := { following with Status := status, StatusMessage := statusMessage }
  let w1 := w.log (.saveFollowing following1)
  match env.followingSaveErr following1 with
  | some e => (following1, some e, w1)
  | none => (following1, none, { w1 with persisted := w1.persisted ++ [following1] })

/-- Modelled from the spec: `SetStatusLoading` is not in the source tree. -/
def SetStatusLoading (env : Env) (w : World) (following : Following) :
    Following × Option Err × World :=
  SetStatus env w following .Loading ""

/-- Modelled from the spec: `SetStatusSuccess` is not in the source tree. -/
def SetStatusSuccess (env : Env) (w : World) (following : Following) :
    Following × Option Err × World :=
  SetStatus env w following .Success ""

/-- Modelled from the spec: `SetStatusFailure` is not in the source tree. -/
def SetStatusFailure (env : Env) (w : World) (following : Following) (statusMessage : String) :
    Following × Option Err × World :=
  SetStatus env w following .Failure statusMessage

/-- The criteria of `LoadByURL`, under the `notDeleted` filter of `Load`. -/
def matchesURL (userID : Nat) (url : String) (m : Message) : Bool :=
  m.UserID == userID && m.URL == url && m.DeleteDate == 0

/-- Modelled from the spec: the inbox service is not in the source tree; this
follows `Activity.LoadByURL` and `Activity.Load` of `service/activity.go`: the
first stored record of the user with that URL that is not deleted, a not-found
error (code 404) when there is none, and every error wrapped. -/
def LoadByURL (env : Env) (w : World) (userID : Nat) (url : String) : Except Err Message :=
  match env.messageLoadErr userID url with
  | some e => .error (Err.wrap e "service.Activity" "Error loading Activity")
  | none =>
    match w.messages.find? (matchesURL userID url) with
    | some m => .ok m
    | none => .error (Err.wrap (Err.base 404 "not found") "service.Activity" "Error loading Activity")

/-- Insert or replace a record by its identifier. -/
def upsert : List Message → Message → List Message
  | [], m => [m]
  | x :: xs, m => if x.MessageID = m.MessageID then m :: xs else x :: upsert xs m

/-- The journal stamps a record that is saved for the first time. -/
def stamp (env : Env) (message : Message) : Message :=
  if message.CreateDate = 0 then { message with CreateDate := env.now } else message

/-- Modelled from the spec: the inbox service is not in the source tree; this
follows `Activity.Save` of `service/activity.go`: the record is written under
its identifier, a record saved for the first time gets its `CreateDate`, and a
storage error is wrapped. -/
def Save (env : Env) (w : World) (message : Message) : Option Err × World :=
  match env.messageSaveErr message with
  | some e => (some (Err.wrap e "service.Activity" "Error saving Activity"),
      w.log (.saveMessage message))
  | none => (none,
      { w.log (.saveMessage message) with messages := upsert w.messages (stamp env message) })

/-! ## `service/following_connect.go` -/

/-- The function `getActualDocument`: load the full document, then step into
the object of a `Create` or `Update`. -/
def getActualDocument (env : Env) (document : Document) : Document :=
  let document := env.Load document
  if document.docType = "Create" ∨ document.docType = "Update" then
    document.Object
  else
    document

/-- The block of `saveMessage` that runs for a message that is new: owner,
folder and origin come from the Following, and the message is marked read when
`markRead` is set. -/
def initMessage (following : Following) (markRead : Bool) (message : Message) : Message :=
  let message := { message with UserID := following.UserID, FolderID := following.FolderID,
                                Origin := following.Origin }
  if markRead then { message with Read := true } else message

/-- The block of `saveMessage` that copies the document into the message. -/
def updateMessage (env : Env) (document : Document) (message : Message) : Message :=
  { message with
    URL := document.ID, Label := document.Name, Summary := document.Summary,
    ImageURL := document.ImageURL,
    AttributedTo := env.ActivityPubPersonLinks document.AttributedTo,
    ContentHTML := document.Content, PublishDate := document.PublishedUnix }

/-- The lookup block of `saveMessage`: the stored message, the fresh message
when the lookup reports not-found, or the lookup error. -/
def loadOrNew (env : Env) (w : World) (userID : Nat) (url : String) (message : Message) :
    Except Err Message :=
  match LoadByURL env w userID url with
  | .ok found => .ok found
  | .error err => if !derp.NotFound err then .error err else .ok message

/-- The method `Following.saveMessage`: the result is the pair of `created`
and the error, with the world after the call. -/
def saveMessage (env : Env) (w : World) (following : Following) (document : Document)
    (markRead : Bool) : (Bool × Option Err) × World :=
  match loadOrNew env w following.UserID (getActualDocument env document).ID
      (NewMessage w.nextID) with
  | .error err =>
    ((false, derp.Wrap (some err) "service.Following.saveMessage" "Error loading message"),
     ({ w with nextID := w.nextID + 1 }).log (.document document)
       |>.log (.loadByURL following.UserID (getActualDocument env document).ID))
  | .ok message =>
    match Save env
        (({ w with nextID := w.nextID + 1 }).log (.document document)
          |>.log (.loadByURL following.UserID (getActualDocument env document).ID))
        (updateMessage env (getActualDocument env document)
          (if message.IsNew then initMessage following markRead message else message)) with
    | (some err, w) =>
      ((false, derp.Wrap (some err) "service.Following.saveMessage" "Error saving message"), w)
    | (none, w) => ((message.IsNew, none), w)

/-- The loop of `Connect` over the documents of the outbox, from the given
value of `counter`. -/
def ingest (env : Env) (isNewFollowing : Bool) (following : Following) :
    List Document → Nat → World → World
  | [], _, w => w
  | documentOrLink :: rest, counter, w =>
    let w := w.log (.document documentOrLink)
    let document := getActualDocument env documentOrLink
    let markRead := !isNewFollowing || decide (counter > 6)
    match saveMessage env w following document markRead with
    | ((isNew, err), w) =>
      let w := match derp.Wrap err "service.Following.Connect" "Error saving document" with
        | some e => w.log (.report e)
        | none => w
      if !isNew then
        w.log .closeDone
      else
        ingest env isNewFollowing following rest (counter + 1) w

/-- The method `Following.connect_PushServices`. -/
def connect_PushServices (env : Env) (w : World) (following : Following) (actor : Actor) : World :=
  let viaActivityPub : Bool × World :=
    if actor.Format = "ActivityPub" then
      let w := w.log .connectActivityPub
      match env.connect_ActivityPub following actor with
      | (true, _) => (true, w)
      | (false, some err) =>
        (false, w.log (.report (Err.wrap err "service.Following.connect_PushServices"
          "Error connecting to ActivityPub")))
      | (false, none) => (false, w)
    else (false, w)
  match viaActivityPub with
  | (true, w) => w
  | (false, w) =>
    if actor.HubWebSub ≠ "" then
      let w := w.log (.connectWebSub actor.HubWebSub)
      match env.connect_WebSub following actor.HubWebSub with
      | some err =>
        w.log (.report (Err.wrap err "service.Following.connect_PushServices"
          "Error connecting to WebSub"))
      | none => w
    else w

/-- The method `Following.Connect`: the returned error and the world after the
call. -/
def Connect (env : Env) (w : World) (following : Following) : Option Err × World :=
  let location := "service.Following.Connect"
  let isNewFollowing := decide (following.Status = .New)
  match SetStatusLoading env w following with
  | (_, some err, w) => (derp.Wrap (some err) location "Error updating following status", w)
  | (following, none, w) =>
    let w := w.log (.loadActor following.URL)
    match env.LoadActor following.URL with
    | .error err =>
      match SetStatusFailure env w following err.Error with
      | (_, innerError, w) =>
        -- the guard of the source tests `err`, which is not nil on this path
        (derp.Wrap innerError location "Error updating following status", w)
    | .ok actor =>
      let following := { following with
        Label := actor.Name, ProfileURL := actor.ID, ImageURL := actor.IconOrImageURL,
        Format := actor.Format }
      match SetStatusSuccess env w following with
      | (_, some err, w) => (derp.Wrap (some err) location "Error setting status", w)
      | (following, none, w) =>
        let w := ingest env isNewFollowing following actor.Outbox 0 w
        let w := w.log (.recalculateUnread following.UserID following.FolderID)
        match env.recalcErr following.UserID following.FolderID with
        | some err => (derp.Wrap (some err) location "Error recalculating unread count", w)
        | none =>
          let w := connect_PushServices env w following actor
          (none, w)


/-! ## Vocabulary for the statements -/

/-- The canonical URL under which `Connect` stores a document of the outbox:
`getActualDocument` runs once in the loop and once more in `saveMessage`. -/
def canonicalURL (env : Env) (d : Document) : String :=
  (getActualDocument env (getActualDocument env d)).ID

/-- A message that is not deleted is stored for the user under the URL. -/
def Stored (w : World) (userID : Nat) (url : String) : Bool :=
  w.messages.any (matchesURL userID url)

/-- Every stored record has been stamped by a save, and its identifier is
older than the next fresh identifier. -/
def World.WF (w : World) : Bool :=
  w.messages.all (fun m => m.CreateDate != 0 && decide (m.MessageID < w.nextID))

/-- The record that `Connect` persists first: status Loading. -/
def loadingRecord (following : Following) : Following :=
  { following with Status := .Loading, StatusMessage := "" }

/-- The record that `Connect` persists when the actor cannot be resolved:
status Failure with the text of the error. -/
def failureRecord (following : Following) (err : Err) : Following :=
  { following with Status := .Failure, StatusMessage := err.Error }

/-- The record that `Connect` persists when the actor is resolved: label,
profile URL, image URL and format of the actor, status Success. -/
def successRecord (following : Following) (actor : Actor) : Following :=
  { following with
    Label := actor.Name, ProfileURL := actor.ID, ImageURL := actor.IconOrImageURL,
    Format := actor.Format, Status := .Success, StatusMessage := "" }

/-- The events about one item of the collection. -/
def Event.isItem : Event → Bool
  | .document _ => true
  | .loadByURL _ _ => true
  | .saveMessage _ => true
  | _ => false

/-- The events of the ingestion loop. -/
def Event.isLoop : Event → Bool
  | .document _ => true
  | .loadByURL _ _ => true
  | .saveMessage _ => true
  | .report _ => true
  | .closeDone => true
  | _ => false

/-- The events of the push subscription. -/
def Event.isPush : Event → Bool
  | .connectActivityPub => true
  | .connectWebSub _ => true
  | .report _ => true
  | _ => false

/-- The document of a conversion event. -/
def Event.document? : Event → Option Document
  | .document d => some d
  | _ => none

/-- The key of a lookup event. -/
def Event.lookup? : Event → Option (Nat × String)
  | .loadByURL userID url => some (userID, url)
  | _ => none

/-- The message of a save event. -/
def Event.saved? : Event → Option Message
  | .saveMessage m => some m
  | _ => none

/-- The Following record of a persist event. -/
def Event.following? : Event → Option Following
  | .saveFollowing f => some f
  | _ => none

/-! ## Concrete inputs -/

/-- A note with the given canonical URL. -/
def note (url : String) : Document :=
  .node "Note" url "" "" "" [] "" 0 .empty

/-- Ten notes with distinct URLs, most recent first. -/
def tenNotes : List Document :=
  ["https://remote.example/n/10", "https://remote.example/n/9", "https://remote.example/n/8",
   "https://remote.example/n/7", "https://remote.example/n/6", "https://remote.example/n/5",
   "https://remote.example/n/4", "https://remote.example/n/3", "https://remote.example/n/2",
   "https://remote.example/n/1"].map note

/-- The remote actor of the examples. -/
def exampleActor : Actor :=
  { Name := "Alice"
    ID := "https://remote.example/alice"
    IconOrImageURL := "https://remote.example/alice.png"
    Format := "RSS"
    HubWebSub := ""
    Outbox := tenNotes }

/-- An environment in which the actor resolves and no call fails. -/
def exampleEnv : Env :=
  { LoadActor := fun _ => .ok exampleActor
    Load := fun d => d
    ActivityPubPersonLinks := fun ids => ids.map (fun id => { Name := "", ProfileURL := id, ImageURL := "" })
    followingSaveErr := fun _ => none
    messageLoadErr := fun _ _ => none
    messageSaveErr := fun _ => none
    recalcErr := fun _ _ => none
    connect_ActivityPub := fun _ _ => (false, none)
    connect_WebSub := fun _ _ => none
    now := 1700000000000
    now_pos := by decide }

/-- A Following that has never been connected. -/
def exampleFollowing : Following :=
  { FollowingID := 7, UserID := 1, FolderID := 2, URL := "https://remote.example/alice",
    Label := "", ProfileURL := "", ImageURL := "", Format := "", Status := .New,
    StatusMessage := "" }

/-- A world with an empty inbox. -/
def emptyWorld : World :=
  { messages := [], persisted := [], nextID := 100, trace := [] }

/-- A Following that has been connected before. -/
def connectedFollowing : Following :=
  { exampleFollowing with Status := .Success }

/-- A world in which the fifth of the ten notes is already in the inbox of
user 1. -/
def worldWithFifth : World :=
  { messages := [{ NewMessage 40 with
      UserID := 1, FolderID := 2, URL := "https://remote.example/n/6", Read := true,
      CreateDate := 1600000000000 }]
    persisted := [], nextID := 100, trace := [] }

/-- An environment in which the remote server cannot be reached. -/
def unreachableEnv : Env :=
  { exampleEnv with
    LoadActor := fun _ => .error (Err.base 500 "dial tcp: connection refused") }

/-- An environment in which every write of a message fails. -/
def diskFullEnv : Env :=
  { exampleEnv with messageSaveErr := fun _ => some (Err.base 500 "disk full") }

/-- An environment in which the Following record cannot be written. -/
def readOnlyEnv : Env :=
  { exampleEnv with followingSaveErr := fun _ => some (Err.base 500 "read-only storage") }

/-- An environment in which writing the Following record fails once its
status is Success. -/
def successFailsEnv : Env :=
  { exampleEnv with
    followingSaveErr := fun f =>
      if f.Status = .Success then some (Err.base 500 "write conflict") else none }

/-- An environment in which the write of the first of the ten notes fails and
every other write succeeds. -/
def firstItemFailsEnv : Env :=
  { exampleEnv with
    messageSaveErr := fun m =>
      if m.URL = "https://remote.example/n/10" then some (Err.base 500 "disk full") else none }

/-- An environment in which the unread recount fails. -/
def recountFailsEnv : Env :=
  { exampleEnv with recalcErr := fun _ _ => some (Err.base 500 "folder not found") }

/-! ## `service/response.go` -/

/-- A link to a message (`model.DocumentLink`). -/
structure DocumentLink where
  ID : Nat
  URL : String
  Label : String
  deriving DecidableEq, Repr

/-- The record `model.Response`: the reaction of a local user to a message.
The Go field `Type` is `ResponseType` here; `DeleteDate` is the journal date
that the `notDeleted` filter reads. -/
structure Response where
  ResponseID : Nat
  ResponseType : String
  Value : String
  Actor : PersonLink
  Message : DocumentLink
  DeleteDate : Nat
  deriving DecidableEq, Repr

/-- Modelled from the spec: `model.NewResponse` is not in the source tree; like
the other constructors of the model it gives a fresh identifier and leaves
every other field zero. -/
def NewResponse (freshID : Nat) : Response :=
  { ResponseID := freshID, ResponseType := "", Value := "",
    Actor := { Name := "", ProfileURL := "", ImageURL := "", UserID := 0 },
    Message := { ID := 0, URL := "", Label := "" }, DeleteDate := 0 }

/-- An activity handed to the outbox: the JSON-LD form of a Response, or an
`Undo` around an activity. -/
inductive JSONLD where
  | response (r : Response)
  | undo (object : JSONLD)
  deriving DecidableEq, Repr

/-- Modelled from the spec: `Response.GetJSONLD` is not in the source tree; the
JSON-LD representation of a Response is kept as a value that the Response
determines. -/
def Response.GetJSONLD (response : Response) : JSONLD :=
  .response response

/-- The function `pub.Undo`: an Undo activity whose object is the activity. -/
def pub.Undo (activity : JSONLD) : JSONLD :=
  .undo activity

/-- The property `object` of an activity. -/
def JSONLD.object? : JSONLD → Option JSONLD
  | .response _ => none
  | .undo object => some object

/-- One call that leaves the Response service. -/
inductive ResponseEvent where
  | load (userID messageID : Nat)
  | setResponse (userID messageID : Nat) (responseType : String)
  | save (response : Response)
  | hardDelete (responseID : Nat)
  | publish (kind : String) (responseID userID : Nat) (activity : JSONLD)
  | unPublish (userID responseID : Nat) (activity : JSONLD)
  deriving DecidableEq, Repr

/-- The collaborators of the Response service: each field says which call of
the storage, of the inbox service or of the outbox service fails. -/
structure ResponseEnv where
  loadErr : Nat → Nat → Option Err
  cleanErr : Response → Option Err
  markerErr : Nat → Nat → String → Option Err
  saveErr : Response → Option Err
  deleteErr : Nat → Option Err
  publishErr : Nat → Nat → Option Err
  unPublishErr : Nat → Nat → Option Err

/-- The state outside the Response service: the stored responses, the cached
"my response" marker of each (user, message), the next fresh object
identifier, and the calls made so far. -/
structure ResponseWorld where
  responses : List Response
  markers : Nat → Nat → String
  nextID : Nat
  trace : List ResponseEvent

/-- Append one call to the trace. -/
def ResponseWorld.log (w : ResponseWorld) (e : ResponseEvent) : ResponseWorld :=
  { w with trace := w.trace ++ [e] }

/-- The criteria of `LoadByMessageID`, under the `notDeleted` filter of `Load`. -/
def matchesMessage (userID messageID : Nat) (r : Response) : Bool :=
  r.Message.ID == messageID && r.Actor.UserID == userID && r.DeleteDate == 0

/-- The method `Response.LoadByMessageID` over `Response.Load`: the first stored
response of the user for the message that is not deleted, a not-found error
(code 404) when there is none; every error is wrapped by both methods. -/
def Response.LoadByMessageID (env : ResponseEnv) (w : ResponseWorld) (userID objectID : Nat) :
    Except Err Response :=
  match env.loadErr userID objectID with
  | some e =>
    .error (Err.wrap (Err.wrap e "service.Response.Load" "Error loading Response")
      "service.Response.LoadByID" "Error loading Response")
  | none =>
    match w.responses.find? (matchesMessage userID objectID) with
    | some r => .ok r
    | none =>
      .error (Err.wrap (Err.wrap (Err.base 404 "not found")
        "service.Response.Load" "Error loading Response")
        "service.Response.LoadByID" "Error loading Response")

/-- Modelled from the spec: the method `SetResponse` of the inbox service is not
in the source tree; it writes the cached "my response" marker of the message
of the user. -/
def Inbox.SetResponse (env : ResponseEnv) (w : ResponseWorld) (userID messageID : Nat)
    (responseType : String) : Option Err × ResponseWorld :=
  match env.markerErr userID messageID responseType with
  | some e => (some e, w.log (.setResponse userID messageID responseType))
  | none =>
    (none,
     { w.log (.setResponse userID messageID responseType) with
       markers := fun u m =>
         if u = userID ∧ m = messageID then responseType else w.markers u m })

/-- Insert or replace a response by its identifier (`collection.Save`). -/
def upsertResponse : List Response → Response → List Response
  | [], r => [r]
  | x :: xs, r => if x.ResponseID = r.ResponseID then r :: xs else x :: upsertResponse xs r

/-- The method `Response.Save`: clean, write the marker, store, publish. -/
def Response.Save (env : ResponseEnv) (w : ResponseWorld) (response : Response) :
    Option Err × ResponseWorld :=
  match env.cleanErr response with
  | some err => (derp.Wrap (some err) "service.Response.Save" "Error cleaning Response", w)
  | none =>
    match Inbox.SetResponse env w response.Actor.UserID response.Message.ID
        response.ResponseType with
    | (some err, w) =>
      (derp.Wrap (some err) "service.Response.Save" "Error updating original message", w)
    | (none, w) =>
      match env.saveErr response with
      | some err =>
        (derp.Wrap (some err) "service.Response.Save" "Error saving Response",
         w.log (.save response))
      | none =>
        match env.publishErr response.ResponseID response.Actor.UserID with
        | some err =>
          (derp.Wrap (some err) "service.Response.Save" "Error publishing Response",
           ({ w with responses := upsertResponse w.responses response }).log (.save response)
             |>.log (.publish "RESPONSE" response.ResponseID response.Actor.UserID
                  response.GetJSONLD))
        | none =>
          (none,
           ({ w with responses := upsertResponse w.responses response }).log (.save response)
             |>.log (.publish "RESPONSE" response.ResponseID response.Actor.UserID
                  response.GetJSONLD))

/-- The method `Response.Delete`: clear the marker, hard-delete the record by
its identifier, send the Undo. -/
def Response.Delete (env : ResponseEnv) (w : ResponseWorld) (response : Response) :
    Option Err × ResponseWorld :=
  match Inbox.SetResponse env w response.Actor.UserID response.Message.ID "" with
  | (some err, w) =>
    (derp.Wrap (some err) "service.Response.Delete" "Error updating original message", w)
  | (none, w) =>
    match env.deleteErr response.ResponseID with
    | some err =>
      (derp.Wrap (some err) "service.Response.Delete" "Error deleting Response",
       w.log (.hardDelete response.ResponseID))
    | none =>
      match env.unPublishErr response.Actor.UserID response.ResponseID with
      | some err =>
        (derp.Wrap (some err) "service.Response.Delete" "Error publishing Response",
         ({ w with
            responses := w.responses.filter (fun r => r.ResponseID != response.ResponseID) }).log
            (.hardDelete response.ResponseID)
           |>.log (.unPublish response.Actor.UserID response.ResponseID
                (pub.Undo response.GetJSONLD)))
      | none =>
        (none,
         ({ w with
            responses := w.responses.filter (fun r => r.ResponseID != response.ResponseID) }).log
            (.hardDelete response.ResponseID)
           |>.log (.unPublish response.Actor.UserID response.ResponseID
                (pub.Undo response.GetJSONLD)))

/-- The new Response that `SetResponse` fills in from its arguments. -/
def requestedResponse (freshID : Nat) (actor : PersonLink) (message : DocumentLink)
    (responseType value : String) : Response :=
  { NewResponse freshID with
    ResponseType := responseType, Value := value, Actor := actor, Message := message }

/-- The tail of `SetResponse`: nothing for an empty type, otherwise a new
Response with the requested type, value, actor and message is saved. -/
def createResponse (env : ResponseEnv) (w : ResponseWorld) (actor : PersonLink)
    (message : DocumentLink) (responseType value : String) : Option Err × ResponseWorld :=
  if responseType = "" then (none, w)
  else
    match Response.Save env { w with nextID := w.nextID + 1 }
        (requestedResponse w.nextID actor message responseType value) with
    | (some err, w) =>
      (derp.Wrap (some err) "service.Response.SetResponse" "Error saving response", w)
    | (none, w) => (none, w)

/-- The method `Response.SetResponse`. -/
def Response.SetResponse (env : ResponseEnv) (w : ResponseWorld) (actor : PersonLink)
    (message : DocumentLink) (responseType value : String) : Option Err × ResponseWorld :=
  match Response.LoadByMessageID env w actor.UserID message.ID with
  | .ok oldResponse =>
    if oldResponse.ResponseType = responseType ∧ oldResponse.Value = value then
      (none, ({ w with nextID := w.nextID + 1 }).log (.load actor.UserID message.ID))
    else
      match Response.Delete env
          (({ w with nextID := w.nextID + 1 }).log (.load actor.UserID message.ID))
          oldResponse with
      | (some err, w) =>
        (derp.Wrap (some err) "service.Response.SetResponse" "Error deleting old response", w)
      | (none, w) => createResponse env w actor message responseType value
  | .error _ =>
    createResponse env (({ w with nextID := w.nextID + 1 }).log (.load actor.UserID message.ID))
      actor message responseType value

/-- The stored responses of the user for the message that are not deleted. -/
def responsesFor (w : ResponseWorld) (userID messageID : Nat) : List Response :=
  w.responses.filter (matchesMessage userID messageID)

/-- Every stored response has an identifier older than the next fresh one. -/
def ResponseWorld.WF (w : ResponseWorld) : Bool :=
  w.responses.all (fun r => decide (r.ResponseID < w.nextID))

/-- The local user of the examples. -/
def alice : PersonLink :=
  { Name := "Alice", ProfileURL := "https://local.example/@alice", ImageURL := "", UserID := 1 }

/-- The message of the examples. -/
def someMessage : DocumentLink :=
  { ID := 50, URL := "https://remote.example/n/1", Label := "" }

/-- An environment of the Response service in which no call fails. -/
def responseEnv : ResponseEnv :=
  { loadErr := fun _ _ => none
    cleanErr := fun _ => none
    markerErr := fun _ _ _ => none
    saveErr := fun _ => none
    deleteErr := fun _ => none
    publishErr := fun _ _ => none
    unPublishErr := fun _ _ => none }

/-- An environment in which the lookup of a response fails with a storage
error and every other call succeeds. -/
def lookupFailsEnv : ResponseEnv :=
  { responseEnv with loadErr := fun _ _ => some (Err.base 500 "storage timeout") }

/-- An environment in which the delivery of a retraction fails. -/
def retractionFailsEnv : ResponseEnv :=
  { responseEnv with unPublishErr := fun _ _ => some (Err.base 500 "no route to host") }

/-- An environment in which the hard delete of a response fails. -/
def deleteFailsEnv : ResponseEnv :=
  { responseEnv with deleteErr := fun _ => some (Err.base 500 "storage timeout") }

/-- No call of the Response service other than the lookup fails. -/
def ResponseEnv.noWriteFault (env : ResponseEnv) : Prop :=
  (∀ r, env.cleanErr r = none) ∧ (∀ u m t, env.markerErr u m t = none)
  ∧ (∀ r, env.saveErr r = none) ∧ (∀ id, env.deleteErr id = none)
  ∧ (∀ id u, env.publishErr id u = none) ∧ (∀ u id, env.unPublishErr u id = none)

/-- A store with no response and no marker. -/
def noResponses : ResponseWorld :=
  { responses := [], markers := fun _ _ => "", nextID := 200, trace := [] }

/-- The Like of the examples. -/
def aliceLike : Response :=
  { ResponseID := 150, ResponseType := "Like", Value := "", Actor := alice,
    Message := someMessage, DeleteDate := 0 }

/-- A store in which the user has liked the message, with the marker set. -/
def likedWorld : ResponseWorld :=
  { responses := [aliceLike]
    markers := fun u m => if u = 1 ∧ m = 50 then "Like" else ""
    nextID := 200
    trace := [] }

/-- The store after a `Response.Delete` of the Like whose hard delete failed:
the marker is cleared and the Like is still stored. -/
def staleWorld : ResponseWorld :=
  (Response.Delete deleteFailsEnv likedWorld aliceLike).2

/-! ## `service/following_rss.go` -/

/-- The collaborators of the RSS import: the feed parser, the discovery of
links in the response, and the outcome of `saveActivity` on the activity that
`convert.RSSToActivity` makes of an item. -/
structure RSSEnv where
  ParseString : String → Except Err RSSFeed
  discoverLinks_RSS : String → List String
  saveActivityErr : Following → RSSItem → Option Err

/-- The method `Following.saveError`: persist status Failure with the text of
the error and return the error; when that persist fails, return the error
wrapped. -/
def saveError (env : Env) (w : World) (following : Following) (err : Err) :
    Option Err × World :=
  match SetStatus env w following .Failure err.Error with
  | (_, some _, w) =>
    (derp.Wrap (some err) "service.Following.saveError" "Error updating following status", w)
  | (_, none, w) => (some err, w)

/-- The loop of `import_RSS` over the items of the feed and the statements
behind it: the first item that cannot be saved ends the import through
`saveError`; after the last item the status Success is persisted. -/
def importItems (env : Env) (rss : RSSEnv) (following : Following) :
    List RSSItem → World → Option Err × World
  | [], w =>
    match SetStatus env w following .Success "" with
    | (_, some err, w) =>
      (derp.Wrap (some err) "service.Following.importRSS" "Error updating following status", w)
    | (_, none, w) => (none, w)
  | rssItem :: rest, w =>
    match rss.saveActivityErr following rssItem with
    | some err =>
      saveError env (w.log (.saveActivity following rssItem)) following
        (Err.wrap err "service.Following.importRSS" "Error updating local activity")
    | none => importItems env rss following rest (w.log (.saveActivity following rssItem))

/-- The method `Following.import_RSS` on the body of the response. -/
def import_RSS (env : Env) (rss : RSSEnv) (w : World) (following : Following)
    (body : String) : Option Err × World :=
  match rss.ParseString body with
  | .error err =>
    (derp.Wrap (some err) "service.Following.importRSS" "Error parsing RSS feed", w)
  | .ok rssFeed =>
    importItems env rss
      { following with Label := rssFeed.Title, Links := rss.discoverLinks_RSS body }
      rssFeed.Items w

/-- A feed with three items. -/
def exampleFeed : RSSFeed :=
  { Title := "Alice's blog"
    Items := [{ Title := "Third", Link := "https://remote.example/p/3" },
              { Title := "Second", Link := "https://remote.example/p/2" },
              { Title := "First", Link := "https://remote.example/p/1" }] }

/-- An RSS environment in which the activity of the second item cannot be
saved. -/
def secondItemFailsRSS : RSSEnv :=
  { ParseString := fun _ => .ok exampleFeed
    discoverLinks_RSS := fun _ => []
    saveActivityErr := fun _ item =>
      if item.Link = "https://remote.example/p/2" then some (Err.base 500 "disk full")
      else none }

/-- A world in which the Following of the examples was persisted with status
Loading. -/
def loadingWorld : World :=
  { messages := [], persisted := [loadingRecord exampleFollowing], nextID := 100, trace := [] }

/-! ## Vocabulary and inputs for the push subscription and the wrappers -/

/-- The reports of errors. -/
def Event.isReport : Event → Bool
  | .report _ => true
  | _ => false

/-- A `Create` activity around a document. -/
def createOf (object : Document) : Document :=
  .node "Create" "https://remote.example/activities/1" "wrapper name" "wrapper summary"
    "https://remote.example/wrapper.png" [] "wrapper content" 1 object

/-- An article with a name, a summary, a content and a publish date. -/
def article : Document :=
  .node "Article" "https://remote.example/articles/1" "On proofs" "A short summary"
    "https://remote.example/article.png" ["https://remote.example/alice"]
    "<p>Body</p>" 1667000000 .empty

/-- An ActivityPub actor that also announces a WebSub hub. -/
def hubActor : Actor :=
  { Name := "Alice"
    ID := "https://remote.example/alice"
    IconOrImageURL := ""
    Format := "ActivityPub"
    HubWebSub := "https://hub.example/"
    Outbox := [] }

/-- An environment in which the ActivityPub subscription fails and the WebSub
subscription fails too. -/
def pushFailsEnv : Env :=
  { exampleEnv with
    LoadActor := fun _ => .ok hubActor
    connect_ActivityPub := fun _ _ => (false, some (Err.base 500 "inbox refused"))
    connect_WebSub := fun _ _ => some (Err.base 500 "hub refused") }

/-! ## `model/actionConfig.go` -/

/-- The record `model.ActionConfig` (the commands play no part in `UserCan`). -/
structure ActionConfig where
  ActionID : String
  Method : String
  States : List String
  Roles : List String
  deriving DecidableEq, Repr

/-- The fields of `model.Stream` that `UserCan` reads. -/
structure Stream where
  StreamID : Nat
  StateID : String
  deriving DecidableEq, Repr

/-- The function `matchOne`: the value equals one of the values of the slice. -/
def matchOne : List String → String → Bool
  | [], _ => false
  | x :: slice, value => if x = value then true else matchOne slice value

/-- The inner loop of `matchAny`: one value of the first slice against the
second slice. -/
def matchAnyInner (value : String) : List String → Bool
  | [] => false
  | y :: slice2 => if value = y then true else matchAnyInner value slice2

/-- The function `matchAny`: a value of the first slice equals a value of the
second. -/
def matchAny : List String → List String → Bool
  | [], _ => false
  | x :: slice1, slice2 => if matchAnyInner x slice2 then true else matchAny slice1 slice2

/-- The method `ActionConfig.UserCan`; `roles` is the method `Stream.Roles`,
which is not in the source tree: the roles that the authorization holds on the
stream. -/
def ActionConfig.UserCan {Authorization : Type} (roles : Stream → Authorization → List String)
    (actionConfig : ActionConfig) (stream : Stream) (authorization : Authorization) : Bool :=
  if actionConfig.States.length > 0 ∧ (!matchOne actionConfig.States stream.StateID) = true then
    false
  else if actionConfig.Roles.length > 0
      ∧ (!matchAny (roles stream authorization) actionConfig.Roles) = true then
    false
  else
    true

/-! ## `queries/upgrade.go` -/

/-- One call of `UpgradeMongoDB` to the database. -/
inductive UpgradeEvent where
  | newClient
  | connect
  | version (k : Nat)
  | recordVersion (v : Nat)
  deriving DecidableEq, Repr

/-- The outcomes of the calls of `UpgradeMongoDB`: creating the client,
connecting, the upgrade step `upgrades.VersionK` for each K, and the update of
the domain record. -/
structure UpgradeEnv where
  newClientErr : Option Err
  connectErr : Option Err
  Version : Nat → Option Err
  updateErr : Option Err

/-- One guarded upgrade step: `if domain.DatabaseVersion < k` run the step and
return its wrapped error, otherwise go on. -/
def upgradeStep (env : UpgradeEnv) (databaseVersion : Int) (k : Nat) (message : String)
    (t : List UpgradeEvent) (next : List UpgradeEvent → Option Err × List UpgradeEvent) :
    Option Err × List UpgradeEvent :=
  if databaseVersion < k then
    match env.Version k with
    | some err => (derp.Wrap (some err) "queries.UpgradeMongoDB" message, t ++ [.version k])
    | none => next (t ++ [.version k])
  else
    next t

/-- The function `UpgradeMongoDB`: the returned error and the calls made. -/
def UpgradeMongoDB (env : UpgradeEnv) (databaseVersion : Int) :
    Option Err × List UpgradeEvent :=
  if databaseVersion = 3 then (none, [])
  else
    match env.newClientErr with
    | some err =>
      (derp.Wrap (some err) "data.mongodb.New" "Error creating mongodb client", [.newClient])
    | none =>
      match env.connectErr with
      | some err =>
        (derp.Wrap (some err) "data.mongodb.New" "Error connecting to mongodb Server",
         [.newClient, .connect])
      | none =>
        upgradeStep env databaseVersion 1 "Error upgrading database to version 1"
          [.newClient, .connect] fun t =>
        upgradeStep env databaseVersion 2 "Error upgrading database to version 2" t fun t =>
        upgradeStep env databaseVersion 3 "Error upgrading database to version 3" t fun t =>
        match env.updateErr with
        | some err =>
          (derp.Wrap (some err) "queries.UpgradeMongoDB" "Error updating domain record",
           t ++ [.recordVersion 3])
        | none => (none, t ++ [.recordVersion 3])

/-- The upgrade steps that the claim names for a domain at version `v`: the K
with v < K <= 3, in ascending order. -/
def stepsFrom (v : Int) : List Nat :=
  [1, 2, 3].filter (fun k => decide (v < (k : Int)))

/-- Run steps in order up to the first one that fails: the steps run, and the
failing step with its error. -/
def runUntilFailure (outcome : Nat → Option Err) : List Nat → List Nat × Option (Nat × Err)
  | [] => ([], none)
  | k :: ks =>
    match outcome k with
    | some e => ([k], some (k, e))
    | none => (k :: (runUntilFailure outcome ks).1, (runUntilFailure outcome ks).2)

/-- The message that `UpgradeMongoDB` wraps around the error of step K. -/
def versionMessage : Nat → String
  | 1 => "Error upgrading database to version 1"
  | 2 => "Error upgrading database to version 2"
  | 3 => "Error upgrading database to version 3"
  | _ => ""

/-- An upgrade environment in which step 2 fails. -/
def secondStepFails : UpgradeEnv :=
  { newClientErr := none
    connectErr := none
    Version := fun k => if k = 2 then some (Err.base 500 "index build failed") else none
    updateErr := none }

/-! ## `service/activity.go` -/

/-- The box of an Activity (`model.ActivityPlace`). -/
inductive ActivityPlace where
  | Inbox
  | Outbox
  deriving DecidableEq, Repr

/-- The record `model.Activity` as the criteria of the service address it: the
owner is `userId` (`OwnerID` in the model file), the box is `place`, the read
date is `readDate`; `DeleteDate` is the journal date of the `notDeleted`
filter. -/
structure Activity where
  ActivityID : Nat
  UserID : Nat
  Place : ActivityPlace
  FolderID : Nat
  Origin : OriginLink
  Document : DocumentLink
  ContentHTML : String
  PublishDate : Int
  ReadDate : Int
  DeleteDate : Nat
  deriving DecidableEq, Repr

/-- One call of the Activity service to the storage. -/
inductive ActivityEvent where
  | load (userID activityID : Nat)
  | save (activity : Activity)
  | query
  deriving DecidableEq, Repr

/-- The collaborators of the Activity service: the storage calls that fail,
the schema cleaning that fails, and the clock in nanoseconds since the
epoch. -/
structure ActivityEnv where
  loadErr : Nat → Nat → Option Err
  cleanErr : Activity → Option Err
  saveErr : Activity → Option Err
  queryErr : Option Err
  nowNano : Int

/-- The stored activities and the calls made so far. -/
structure ActivityWorld where
  activities : List Activity
  trace : List ActivityEvent
  deriving DecidableEq, Repr

/-- Append one call to the trace. -/
def ActivityWorld.log (w : ActivityWorld) (e : ActivityEvent) : ActivityWorld :=
  { w with trace := w.trace ++ [e] }

/-- The value of a hexadecimal digit, by character code. -/
def hexDigit (c : Char) : Option Nat :=
  if 48 ≤ c.toNat ∧ c.toNat ≤ 57 then some (c.toNat - 48)
  else if 97 ≤ c.toNat ∧ c.toNat ≤ 102 then some (c.toNat - 87)
  else if 65 ≤ c.toNat ∧ c.toNat ≤ 70 then some (c.toNat - 55)
  else none

/-- The value of a string of hexadecimal digits. -/
def hexValue : List Char → Nat → Option Nat
  | [], acc => some acc
  | c :: cs, acc =>
    match hexDigit c with
    | some d => hexValue cs (acc * 16 + d)
    | none => none

/-- The function `primitive.ObjectIDFromHex`: a string of exactly 24
hexadecimal digits is an ObjectID, any other string is an error. -/
def ObjectIDFromHex (token : String) : Except Err Nat :=
  if token.length ≠ 24 then
    .error (Err.base 500 "the provided hex string is not a valid ObjectID")
  else
    match hexValue token.toList 0 with
    | some id => .ok id
    | none => .error (Err.base 500 "encoding/hex: invalid byte")

/-- The criteria of `LoadByID`, under the `notDeleted` filter of `Load`. -/
def matchesActivity (userID : Nat) (place : ActivityPlace) (activityID : Nat)
    (a : Activity) : Bool :=
  a.UserID == userID && a.Place == place && a.ActivityID == activityID && a.DeleteDate == 0

/-- The method `Activity.LoadFromInbox` over `LoadByID` and `Load`. -/
def Activity.LoadFromInbox (env : ActivityEnv) (w : ActivityWorld) (userID activityID : Nat) :
    Except Err Activity :=
  match env.loadErr userID activityID with
  | some e => .error (Err.wrap e "service.Activity" "Error loading Activity")
  | none =>
    match w.activities.find? (matchesActivity userID .Inbox activityID) with
    | some a => .ok a
    | none =>
      .error (Err.wrap (Err.base 404 "not found") "service.Activity" "Error loading Activity")

/-- Insert or replace an activity by its identifier (`collection.Save`). -/
def upsertActivity : List Activity → Activity → List Activity
  | [], a => [a]
  | x :: xs, a => if x.ActivityID = a.ActivityID then a :: xs else x :: upsertActivity xs a

/-- The method `Activity.Save`: clean, then write. -/
def Activity.Save (env : ActivityEnv) (w : ActivityWorld) (activity : Activity) :
    Option Err × ActivityWorld :=
  match env.cleanErr activity with
  | some err => (derp.Wrap (some err) "service.Activity.Save" "Error cleaning Activity", w)
  | none =>
    match env.saveErr activity with
    | some err =>
      (derp.Wrap (some err) "service.Activity" "Error saving Activity", w.log (.save activity))
    | none =>
      (none,
       { w.log (.save activity) with activities := upsertActivity w.activities activity })

/-- The method `Activity.SetReadDate`. -/
def Activity.SetReadDate (env : ActivityEnv) (w : ActivityWorld) (userID : Nat)
    (token : String) (readDate : Int) : Option Err × ActivityWorld :=
  match ObjectIDFromHex token with
  | .error err =>
    (derp.Wrap (some err) "service.Activity.SetReadDate" "Cannot parse activityID", w)
  | .ok activityID =>
    match Activity.LoadFromInbox env w userID activityID with
    | .error err =>
      (derp.Wrap (some err) "service.Activity.SetReadDate" "Cannot load Activity",
       w.log (.load userID activityID))
    | .ok activity =>
      if activity.ReadDate > 0 then
        (none, w.log (.load userID activityID))
      else
        match Activity.Save env (w.log (.load userID activityID))
            { activity with ReadDate := readDate } with
        | (some err, w) =>
          (derp.Wrap (some err) "service.Activity.SetReadDate" "Cannot save Activity", w)
        | (none, w) => (none, w)

/-- Wrap an integer into the range of a signed 64-bit integer. -/
def toInt64 (x : Int) : Int :=
  (x + 9223372036854775808) % 18446744073709551616 - 9223372036854775808

/-- The purge date of `QueryPurgeable` in Unix seconds: the clock moved back by
`PurgeDuration` days, the duration being a 64-bit count of nanoseconds. -/
def purgeDate (env : ActivityEnv) (following : Following) : Int :=
  (env.nowNano + toInt64 (0 - toInt64 (following.PurgeDuration * 24 * 3600000000000)))
    / 1000000000

/-- The criteria of `QueryPurgeable`, under the `notDeleted` filter of `Query`. -/
def purgeable (purgeDate : Int) (a : Activity) : Bool :=
  a.Place == .Inbox && decide (a.ReadDate > 0) && decide (a.ReadDate < purgeDate)
    && a.DeleteDate == 0

/-- The method `Activity.QueryPurgeable`: the activities that match the
criteria, and the error of the query. -/
def Activity.QueryPurgeable (env : ActivityEnv) (w : ActivityWorld) (following : Following) :
    (List Activity × Option Err) × ActivityWorld :=
  match env.queryErr with
  | some err => (([], some err), w.log .query)
  | none => ((w.activities.filter (purgeable (purgeDate env following)), none), w.log .query)

/-- An environment of the Activity service in which no call fails; the clock
stands at 1 700 000 000 seconds. -/
def activityEnv : ActivityEnv :=
  { loadErr := fun _ _ => none
    cleanErr := fun _ => none
    saveErr := fun _ => none
    queryErr := none
    nowNano := 1700000000000000000 }

/-- A Following of user 1 that purges after 30 days. -/
def purgingFollowing : Following :=
  { exampleFollowing with Status := .Success, PurgeDuration := 30 }

/-- An inbox activity of user 1 from the Following of the examples, read long
ago. -/
def ownActivity : Activity :=
  { ActivityID := 1, UserID := 1, Place := .Inbox, FolderID := 2,
    Origin := purgingFollowing.Origin,
    Document := { ID := 0, URL := "https://remote.example/n/1", Label := "" },
    ContentHTML := "", PublishDate := 1600000000, ReadDate := 1600000100, DeleteDate := 0 }

/-- An inbox activity of user 2 from another Following (identifier 8), read
long ago. -/
def foreignActivity : Activity :=
  { ActivityID := 2, UserID := 2, Place := .Inbox, FolderID := 5,
    Origin := { InternalID := 8, Label := "Bob", URL := "https://other.example/bob",
                ImageURL := "" },
    Document := { ID := 0, URL := "https://other.example/n/1", Label := "" },
    ContentHTML := "", PublishDate := 1600000000, ReadDate := 1600000200, DeleteDate := 0 }

/-- An unread inbox activity of user 1 whose identifier is the ObjectID
`000000000000000000000003`. -/
def unreadActivity : Activity :=
  { ActivityID := 3, UserID := 1, Place := .Inbox, FolderID := 2,
    Origin := purgingFollowing.Origin,
    Document := { ID := 0, URL := "https://remote.example/n/2", Label := "" },
    ContentHTML := "", PublishDate := 1690000000, ReadDate := 0, DeleteDate := 0 }

/-- A store with the three activities. -/
def activityWorld : ActivityWorld :=
  { activities := [ownActivity, foreignActivity, unreadActivity], trace := [] }

/-! ## `handler/activitypub_receive_create_any.go` -/

/-- A loaded author document: the properties `collectPersonLink` reads. -/
structure Author where
  Name : String
  ID : String
  IconOrImageURL : String
  deriving DecidableEq, Repr

/-- The collaborators of the inbox handler besides the message storage of
`Env`: the properties of a pushed document that the `Document` model does not
carry (the id of its actor, the id of what the object replies to, the update
date of the object), the loader of an author reference, the stored Followings
with the faults of their lookup, and the clock in Unix seconds. -/
structure HandlerEnv where
  ActorID : Document → String
  InReplyToID : Document → String
  UpdatedUnix : Document → Int
  LoadAuthor : String → Option Author
  followings : List Following
  followingLoadErr : Nat → String → Option Err
  nowUnix : Int

/-- The object types that the handler ignores. -/
def ignoredObjectType (objectType : String) : Bool :=
  objectType = "Relationship" ∨ objectType = "Profile" ∨ objectType = "Place"
    ∨ objectType = "Event" ∨ objectType = "Tombstone"

/-- Modelled from the spec: the method `LoadByURL` of the Following service is
not in the source tree; a Following is keyed by (user, remote URL), and a
lookup that finds none returns a not-found error. -/
def Following.LoadByURL (henv : HandlerEnv) (userID : Nat) (url : String) :
    Except Err Following :=
  match henv.followingLoadErr userID url with
  | some e => .error (Err.wrap e "service.Following" "Error loading Following")
  | none =>
    match henv.followings.find? (fun f => f.UserID == userID && f.URL == url) with
    | some f => .ok f
    | none =>
      .error (Err.wrap (Err.base 404 "not found") "service.Following" "Error loading Following")

/-- The function `collectPersonLink`: the link of the first author reference of
the object that can be loaded, or the empty link. -/
def collectPersonLink (henv : HandlerEnv) (document : Document) : PersonLink :=
  match document.Object.AttributedTo.findSome? henv.LoadAuthor with
  | some author =>
    { Name := author.Name, ProfileURL := author.ID, ImageURL := author.IconOrImageURL }
  | none => { Name := "", ProfileURL := "", ImageURL := "" }

/-- The block of the handler that converts the pushed document into the
message; the handler file takes `AttributedTo` as one link, kept here as the
list of that link. -/
def convertPushed (henv : HandlerEnv) (following : Following) (document : Document)
    (message : Message) : Message :=
  { message with
    UserID := following.UserID
    Origin := following.Origin
    SocialRole := document.Object.docType
    URL := document.Object.ID
    Label := document.Object.Name
    Summary := document.Object.Summary
    ImageURL := document.Object.ImageURL
    AttributedTo := [collectPersonLink henv document]
    ContentHTML := document.Object.Content
    FolderID := following.FolderID
    InReplyTo := henv.InReplyToID document.Object
    PublishDate :=
      if document.Object.PublishedUnix > 0 then document.Object.PublishedUnix
      else if henv.UpdatedUnix document.Object > 0 then henv.UpdatedUnix document.Object
      else henv.nowUnix }

/-- The handler `activityPub_CreateOrUpdate`; `LoadOrCreate` of the inbox
service, which is not in the source tree, is the lookup of `saveMessage`
(`loadOrNew`). -/
def activityPub_CreateOrUpdate (env : Env) (henv : HandlerEnv) (w : World) (userID : Nat)
    (document : Document) : Option Err × World :=
  if ignoredObjectType document.Object.docType then (none, w)
  else
    match Following.LoadByURL henv userID (henv.ActorID document) with
    | .error err =>
      (derp.Wrap (some err) "handler.activitypub_receive_create"
         "Error loading following record",
       ({ w with nextID := w.nextID + 1 }).log (.loadFollowing userID (henv.ActorID document)))
    | .ok following =>
      match loadOrNew env w userID document.Object.ID (NewMessage (w.nextID + 1)) with
      | .error err =>
        (derp.Wrap (some err) "handler.activitypub_receive_create" "Error loading message",
         ({ w with nextID := w.nextID + 2 }).log (.loadFollowing userID (henv.ActorID document))
           |>.log (.loadByURL userID document.Object.ID))
      | .ok message =>
        match Save env
            (({ w with nextID := w.nextID + 2 }).log
                (.loadFollowing userID (henv.ActorID document))
              |>.log (.loadByURL userID document.Object.ID))
            (convertPushed henv following document message) with
        | (some err, w) =>
          (derp.Wrap (some err) "handler.activitypub_receive_create" "Error saving message", w)
        | (none, w) => (none, w)

/-- A handler environment in which user 1 follows the actor of the examples and
nobody else. -/
def handlerEnv : HandlerEnv :=
  { ActorID := fun d => d.AttributedTo.headD ""
    InReplyToID := fun _ => ""
    UpdatedUnix := fun _ => 0
    LoadAuthor := fun _ => none
    followings := [{ exampleFollowing with Status := .Success }]
    followingLoadErr := fun _ _ => none
    nowUnix := 1700000000 }

/-- A pushed `Create` of a note by an actor that user 1 does not follow. -/
def strangerCreate : Document :=
  .node "Create" "https://stranger.example/activities/9" "" "" ""
    ["https://stranger.example/mallory"] "" 0
    (.node "Note" "https://stranger.example/n/9" "" "" "" [] "hello" 1690000000 .empty)

/-- A pushed `Update` of a profile by the stranger. -/
def profileUpdate : Document :=
  .node "Update" "https://stranger.example/activities/10" "" "" ""
    ["https://stranger.example/mallory"] "" 0
    (.node "Profile" "https://stranger.example/mallory" "" "" "" [] "" 0 .empty)

end Emissary

namespace Emissary

/-! ## Lemmas about the helpers -/

theorem upsert_fresh (xs : List Message) (m : Message)
    (h : ∀ x ∈ xs, x.MessageID ≠ m.MessageID) : upsert xs m = xs ++ [m] := by
  induction xs with
  | nil => rfl
  | cons x xs ih =>
    have hx : x.MessageID ≠ m.MessageID := h x (List.mem_cons_self _ _)
    have hxs : ∀ y ∈ xs, y.MessageID ≠ m.MessageID := fun y hy => h y (List.mem_cons_of_mem _ hy)
    simp [upsert, hx, ih hxs]

theorem upsert_last (xs : List Message) (m m2 : Message)
    (h : ∀ x ∈ xs, x.MessageID ≠ m.MessageID) (hid : m2.MessageID = m.MessageID) :
    upsert (xs ++ [m]) m2 = xs ++ [m2] := by
  induction xs with
  | nil => simp [upsert, hid]
  | cons x xs ih =>
    have hx : x.MessageID ≠ m2.MessageID := by
      rw [hid]; exact h x (List.mem_cons_self _ _)
    have hxs : ∀ y ∈ xs, y.MessageID ≠ m.MessageID := fun y hy => h y (List.mem_cons_of_mem _ hy)
    simp [upsert, hx, ih hxs]

theorem loadOrNew_absent (env : Env) (w : World) (userID : Nat) (url : String) (message : Message)
    (hload : env.messageLoadErr userID url = none)
    (hnone : w.messages.find? (matchesURL userID url) = none) :
    loadOrNew env w userID url message = .ok message := by
  simp [loadOrNew, LoadByURL, hload, hnone, derp.NotFound, Err.ErrorCode]

theorem loadOrNew_found (env : Env) (w : World) (userID : Nat) (url : String)
    (message found : Message)
    (hload : env.messageLoadErr userID url = none)
    (hfound : w.messages.find? (matchesURL userID url) = some found) :
    loadOrNew env w userID url message = .ok found := by
  simp [loadOrNew, LoadByURL, hload, hfound]

theorem Save_ok (env : Env) (w : World) (message : Message)
    (hsave : env.messageSaveErr message = none) :
    Save env w message = (none,
      { w.log (.saveMessage message) with messages := upsert w.messages (stamp env message) }) := by
  simp [Save, hsave]

/-- A document that is not stored and meets no storage fault is created. -/
theorem saveMessage_created (env : Env) (w : World) (following : Following)
    (document : Document) (markRead : Bool)
    (hload : env.messageLoadErr following.UserID (getActualDocument env document).ID = none)
    (hnone : w.messages.find? (matchesURL following.UserID (getActualDocument env document).ID) = none)
    (hsave : env.messageSaveErr (updateMessage env (getActualDocument env document)
      (initMessage following markRead (NewMessage w.nextID))) = none) :
    saveMessage env w following document markRead =
      ((true, none),
       { messages := upsert w.messages
           (stamp env (updateMessage env (getActualDocument env document)
               (initMessage following markRead (NewMessage w.nextID))))
         persisted := w.persisted
         nextID := w.nextID + 1
         trace := w.trace ++ [.document document,
           .loadByURL following.UserID (getActualDocument env document).ID,
           .saveMessage (updateMessage env (getActualDocument env document)
             (initMessage following markRead (NewMessage w.nextID)))] }) := by
  have hnew : (NewMessage w.nextID).IsNew = true := rfl
  simp only [saveMessage, loadOrNew_absent env w _ _ _ hload hnone, hnew, if_true]
  rw [Save_ok _ _ _ hsave]
  simp [World.log]

end Emissary

namespace Emissary

theorem stamp_of_stamped (env : Env) (m : Message) (h : m.CreateDate ≠ 0) : stamp env m = m := by
  simp [stamp, h]

/-- A document that is stored and meets no storage fault is updated in place. -/
theorem saveMessage_found (env : Env) (w : World) (following : Following)
    (document : Document) (markRead : Bool) (found : Message)
    (hload : env.messageLoadErr following.UserID (getActualDocument env document).ID = none)
    (hfound : w.messages.find? (matchesURL following.UserID (getActualDocument env document).ID)
      = some found)
    (hstamped : found.CreateDate ≠ 0)
    (hsave : env.messageSaveErr (updateMessage env (getActualDocument env document) found) = none) :
    saveMessage env w following document markRead =
      ((false, none),
       { messages := upsert w.messages (updateMessage env (getActualDocument env document) found)
         persisted := w.persisted
         nextID := w.nextID + 1
         trace := w.trace ++ [.document document,
           .loadByURL following.UserID (getActualDocument env document).ID,
           .saveMessage (updateMessage env (getActualDocument env document) found)] }) := by
  have hnew : found.IsNew = false := by simp [Message.IsNew, hstamped]
  have hst : stamp env (updateMessage env (getActualDocument env document) found)
      = updateMessage env (getActualDocument env document) found :=
    stamp_of_stamped _ _ hstamped
  simp only [saveMessage, loadOrNew_found env w _ _ _ found hload hfound, hnew]
  simp only [Bool.false_eq_true, if_false]
  rw [Save_ok _ _ _ hsave, hst]
  simp [World.log]

/-- A call of `saveMessage` that returns an error returns `created = false`. -/
theorem saveMessage_error_not_created (env : Env) (w : World) (following : Following)
    (document : Document) (markRead : Bool)
    (h : (saveMessage env w following document markRead).1.2 ≠ none) :
    (saveMessage env w following document markRead).1.1 = false := by
  unfold saveMessage at h ⊢
  split
  · rfl
  · rename_i message hm
    rw [hm] at h
    simp only at h
    split
    · rfl
    · rename_i w2 hs
      rw [hs] at h
      simp at h

end Emissary

namespace Emissary

/-! ## Lemmas about the ingestion loop -/

/-- When `saveMessage` returns `created = false` on the first item, the loop
ends there whatever follows. -/
theorem ingest_cons_stop (env : Env) (isNewFollowing : Bool) (following : Following)
    (d : Document) (rest rest2 : List Document) (counter : Nat) (w : World)
    (h : (saveMessage env (w.log (.document d)) following (getActualDocument env d)
      (!isNewFollowing || decide (counter > 6))).1.1 = false) :
    ingest env isNewFollowing following (d :: rest) counter w
      = ingest env isNewFollowing following (d :: rest2) counter w := by
  simp only [ingest]
  generalize saveMessage env (w.log (.document d)) following (getActualDocument env d)
      (!isNewFollowing || decide (counter > 6)) = r at h
  obtain ⟨⟨isNew, err⟩, w2⟩ := r
  simp only at h
  subst h
  simp

/-- An item on which `saveMessage` returns `created = false` ends the loop:
the items behind it do not matter. -/
theorem ingest_truncate (env : Env) (isNewFollowing : Bool) (following : Following)
    (d : Document) (rest : List Document) :
    ∀ (pre : List Document) (counter : Nat) (w : World),
    (saveMessage env ((ingest env isNewFollowing following pre counter w).log (.document d))
      following (getActualDocument env d)
      (!isNewFollowing || decide (counter + pre.length > 6))).1.1 = false →
    ingest env isNewFollowing following (pre ++ d :: rest) counter w
      = ingest env isNewFollowing following (pre ++ [d]) counter w := by
  intro pre
  induction pre with
  | nil =>
    intro counter w h
    exact ingest_cons_stop env isNewFollowing following d rest [] counter w (by simpa [ingest] using h)
  | cons p pre ih =>
    intro counter w h
    simp only [List.cons_append, ingest] at h ⊢
    generalize saveMessage env (w.log (.document p)) following (getActualDocument env p)
      (!isNewFollowing || decide (counter > 6)) = r at h ⊢
    obtain ⟨⟨isNew, err⟩, w2⟩ := r
    cases isNew with
    | false => simp
    | true =>
      simp only [Bool.not_true, Bool.false_eq_true, if_false] at h ⊢
      apply ih
      have hlen : counter + 1 + pre.length = counter + (pre.length + 1) := by omega
      rw [hlen]
      simpa using h

end Emissary

namespace Emissary

theorem find_none_of_not_stored (w : World) (userID : Nat) (url : String)
    (h : Stored w userID url = false) :
    w.messages.find? (matchesURL userID url) = none := by
  rw [List.find?_eq_none]
  intro m hm
  simp only [Stored, List.any_eq_false] at h
  exact h m hm

theorem find_some_of_stored (w : World) (userID : Nat) (url : String)
    (h : Stored w userID url = true) :
    ∃ found, w.messages.find? (matchesURL userID url) = some found ∧ found ∈ w.messages := by
  cases hf : w.messages.find? (matchesURL userID url) with
  | none =>
    rw [List.find?_eq_none] at hf
    simp only [Stored, List.any_eq_true] at h
    obtain ⟨m, hm, hmm⟩ := h
    exact absurd hmm (hf m hm)
  | some found => exact ⟨found, rfl, List.mem_of_find?_eq_some hf⟩

theorem WF_stamped (w : World) (h : w.WF = true) (m : Message) (hm : m ∈ w.messages) :
    m.CreateDate ≠ 0 := by
  simp only [World.WF, List.all_eq_true] at h
  have := h m hm
  simp at this
  exact this.1

theorem WF_fresh (w : World) (h : w.WF = true) (m : Message) (hm : m ∈ w.messages) :
    m.MessageID < w.nextID := by
  simp only [World.WF, List.all_eq_true] at h
  have := h m hm
  simp at this
  exact this.2

/-- The message that `saveMessage` builds for a document that is not stored. -/
theorem created_fields (env : Env) (following : Following) (document : Document)
    (markRead : Bool) (n : Nat) :
    (stamp env (updateMessage env document (initMessage following markRead (NewMessage n))))
      = { updateMessage env document (initMessage following markRead (NewMessage n)) with
          CreateDate := env.now } := by
  cases markRead <;> rfl

end Emissary

namespace Emissary

theorem created_matches (env : Env) (following : Following) (document : Document)
    (markRead : Bool) (n : Nat) (userID : Nat) (url : String) :
    matchesURL userID url
      (stamp env (updateMessage env document (initMessage following markRead (NewMessage n))))
      = (following.UserID == userID && document.ID == url) := by
  rw [created_fields]
  cases markRead <;> simp [matchesURL, updateMessage, initMessage, NewMessage]

theorem created_id (env : Env) (following : Following) (document : Document)
    (markRead : Bool) (n : Nat) :
    (stamp env (updateMessage env document (initMessage following markRead (NewMessage n)))).MessageID
      = n := by
  rw [created_fields]
  cases markRead <;> rfl

theorem created_stamped (env : Env) (following : Following) (document : Document)
    (markRead : Bool) (n : Nat) :
    (stamp env (updateMessage env document (initMessage following markRead (NewMessage n)))).CreateDate
      ≠ 0 := by
  rw [created_fields]
  exact Nat.pos_iff_ne_zero.mp env.now_pos

/-- The loop over documents that are new up to the first document that is
known: it runs `saveMessage` on each of them in order, closes the done signal,
and touches nothing behind the known document. -/
theorem ingest_new_then_known (env : Env) (isNewFollowing : Bool) (following : Following)
    (hload : ∀ u url, env.messageLoadErr u url = none)
    (hsave : ∀ m, env.messageSaveErr m = none)
    (d : Document) (rest : List Document) :
    ∀ (pre : List Document) (counter : Nat) (w : World),
      w.WF = true →
      (pre.map (canonicalURL env)).Nodup →
      (∀ p ∈ pre, Stored w following.UserID (canonicalURL env p) = false) →
      (Stored w following.UserID (canonicalURL env d) = true
        ∨ canonicalURL env d ∈ pre.map (canonicalURL env)) →
      ∃ t, (ingest env isNewFollowing following (pre ++ d :: rest) counter w).trace
            = w.trace ++ t ++ [Event.closeDone]
        ∧ t.all Event.isItem = true
        ∧ t.filterMap Event.document?
            = (pre ++ [d]).flatMap (fun x => [x, getActualDocument env x])
        ∧ t.filterMap Event.lookup?
            = (pre ++ [d]).map (fun x => (following.UserID, canonicalURL env x))
        ∧ (t.filterMap Event.saved?).map (fun m => m.URL)
            = (pre ++ [d]).map (canonicalURL env) := by
  intro pre
  induction pre with
  | nil =>
    intro counter w hwf _ _ hd
    have hst : Stored (w.log (.document d)) following.UserID (canonicalURL env d) = true := by
      rcases hd with h | h
      · exact h
      · simp at h
    obtain ⟨found, hfound, hmem⟩ := find_some_of_stored _ _ _ hst
    have key := saveMessage_found env (w.log (.document d)) following (getActualDocument env d)
      (!isNewFollowing || decide (counter > 6)) found (hload _ _) hfound
      (WF_stamped w hwf found hmem) (hsave _)
    refine ⟨[.document d, .document (getActualDocument env d),
      .loadByURL following.UserID (canonicalURL env d),
      .saveMessage (updateMessage env (getActualDocument env (getActualDocument env d)) found)],
      ?_, ?_, ?_, ?_, ?_⟩
    · simp only [List.nil_append, ingest, key]
      simp [World.log, derp.Wrap, canonicalURL]
    · rfl
    · rfl
    · rfl
    · simp [Event.saved?, updateMessage, canonicalURL]
  | cons p pre ih =>
    intro counter w hwf hnd hns hd
    have hp : Stored (w.log (.document p)) following.UserID (canonicalURL env p) = false :=
      hns p (List.mem_cons_self _ _)
    have key := saveMessage_created env (w.log (.document p)) following (getActualDocument env p)
      (!isNewFollowing || decide (counter > 6)) (hload _ _)
      (find_none_of_not_stored _ _ _ hp) (hsave _)
    have hfresh : ∀ x ∈ w.messages, x.MessageID ≠
        (stamp env (updateMessage env (getActualDocument env (getActualDocument env p))
          (initMessage following (!isNewFollowing || decide (counter > 6))
            (NewMessage w.nextID)))).MessageID := by
      intro x hx
      rw [created_id]
      exact Nat.ne_of_lt (WF_fresh w hwf x hx)
    have hups := upsert_fresh w.messages _ hfresh
    simp only [List.map_cons, List.nodup_cons] at hnd
    obtain ⟨t, ht, hall, hdoc, hlook, hsaved⟩ := ih (counter + 1)
      { messages := w.messages ++ [stamp env
          (updateMessage env (getActualDocument env (getActualDocument env p))
            (initMessage following (!isNewFollowing || decide (counter > 6))
              (NewMessage w.nextID)))]
        persisted := w.persisted
        nextID := w.nextID + 1
        trace := w.trace ++ [.document p] ++ [.document (getActualDocument env p),
          .loadByURL following.UserID (canonicalURL env p),
          .saveMessage (updateMessage env (getActualDocument env (getActualDocument env p))
            (initMessage following (!isNewFollowing || decide (counter > 6))
              (NewMessage w.nextID)))] }
      (by
        simp only [World.WF, List.all_append, List.all_cons, List.all_nil, Bool.and_true,
          Bool.and_eq_true, List.all_eq_true, decide_eq_true_eq, bne_iff_ne, ne_eq]
        refine ⟨fun x hx => ⟨WF_stamped w hwf x hx, Nat.lt_succ_of_lt (WF_fresh w hwf x hx)⟩, ?_, ?_⟩
        · exact created_stamped _ _ _ _ _
        · rw [created_id]; exact Nat.lt_succ_self _)
      hnd.2
      (by
        intro q hq
        have hq0 : Stored w following.UserID (canonicalURL env q) = false :=
          hns q (List.mem_cons_of_mem _ hq)
        have hne : canonicalURL env p ≠ canonicalURL env q := by
          intro heq
          exact hnd.1 (heq ▸ List.mem_map_of_mem _ hq)
        simp only [Stored, List.any_append, List.any_cons, List.any_nil, Bool.or_false,
          created_matches]
        simp only [Stored] at hq0
        rw [hq0]
        simpa [canonicalURL] using hne)
      (by
        rcases hd with h | h
        · left
          simp only [Stored, List.any_append] at h ⊢
          rw [h]; rfl
        · simp only [List.map_cons, List.mem_cons] at h
          rcases h with h | h
          · left
            simp only [Stored, List.any_append, List.any_cons, List.any_nil, Bool.or_false,
              created_matches]
            simp [canonicalURL] at h ⊢
            right; exact h.symm
          · right; exact h)
    refine ⟨[.document p, .document (getActualDocument env p),
      .loadByURL following.UserID (canonicalURL env p),
      .saveMessage (updateMessage env (getActualDocument env (getActualDocument env p))
        (initMessage following (!isNewFollowing || decide (counter > 6))
          (NewMessage w.nextID)))] ++ t, ?_, ?_, ?_, ?_, ?_⟩
    · simp only [List.cons_append, ingest, key]
      simp only [derp.Wrap, Bool.not_true, Bool.false_eq_true, if_false]
      simp only [World.log] at hups ⊢
      rw [hups]
      simp only [canonicalURL, List.append_assoc, List.cons_append, List.nil_append,
        List.singleton_append] at ht ⊢
      exact ht
    · simp [Event.isItem, hall]
    · simp [Event.document?, hdoc]
    · simp [Event.lookup?, hlook]
    · simp [Event.saved?, hsaved, updateMessage, canonicalURL]

end Emissary

namespace Emissary

/-! ## What one call of `saveMessage` and the loop append to the trace -/

/-- The calls made by one `saveMessage`: the conversion, the lookup and, unless
the lookup failed, one save of the message built from the document. -/
theorem saveMessage_trace (env : Env) (w : World) (following : Following)
    (document : Document) (markRead : Bool) :
    (saveMessage env w following document markRead).2.trace
      = w.trace ++ [.document document,
          .loadByURL following.UserID (getActualDocument env document).ID]
        ++ (match loadOrNew env w following.UserID (getActualDocument env document).ID
              (NewMessage w.nextID) with
            | .error _ => []
            | .ok message => [.saveMessage (updateMessage env (getActualDocument env document)
                (if message.IsNew then initMessage following markRead message else message))]) := by
  unfold saveMessage
  cases loadOrNew env w following.UserID (getActualDocument env document).ID
      (NewMessage w.nextID) with
  | error err => simp [World.log]
  | ok message =>
    simp only [Save]
    cases env.messageSaveErr (updateMessage env (getActualDocument env document)
      (if message.IsNew then initMessage following markRead message else message)) <;>
      simp [World.log]

theorem saveMessage_persisted (env : Env) (w : World) (following : Following)
    (document : Document) (markRead : Bool) :
    (saveMessage env w following document markRead).2.persisted = w.persisted := by
  unfold saveMessage
  cases loadOrNew env w following.UserID (getActualDocument env document).ID
      (NewMessage w.nextID) with
  | error err => simp [World.log]
  | ok message =>
    simp only [Save]
    cases env.messageSaveErr (updateMessage env (getActualDocument env document)
      (if message.IsNew then initMessage following markRead message else message)) <;>
      simp [World.log]

/-- Every event that the loop appends satisfies a property that holds of
conversions, lookups, reports, the done signal and the saves of messages built
by `saveMessage` with the flag of the loop. -/
theorem ingest_events (env : Env) (isNewFollowing : Bool) (following : Following)
    (Q : Event → Prop)
    (hdoc : ∀ d, Q (.document d)) (hlook : ∀ u url, Q (.loadByURL u url))
    (hrep : ∀ e, Q (.report e)) (hclose : Q .closeDone)
    (hsave : ∀ (document : Document) (message : Message) (counter : Nat),
      Q (.saveMessage (updateMessage env document
        (if message.IsNew
          then initMessage following (!isNewFollowing || decide (counter > 6)) message
          else message)))) :
    ∀ (docs : List Document) (counter : Nat) (w : World),
      ∃ t, (ingest env isNewFollowing following docs counter w).trace = w.trace ++ t
        ∧ ∀ e ∈ t, Q e := by
  intro docs
  induction docs with
  | nil => intro counter w; exact ⟨[], by simp [ingest], by simp⟩
  | cons d docs ih =>
    intro counter w
    have hr := saveMessage_trace env (w.log (.document d)) following (getActualDocument env d)
      (!isNewFollowing || decide (counter > 6))
    have hq : ∀ e ∈ (match loadOrNew env (w.log (.document d)) following.UserID
          (getActualDocument env (getActualDocument env d)).ID
          (NewMessage (w.log (.document d)).nextID) with
        | .error _ => ([] : List Event)
        | .ok message => [.saveMessage (updateMessage env
            (getActualDocument env (getActualDocument env d))
            (if message.IsNew
              then initMessage following (!isNewFollowing || decide (counter > 6)) message
              else message))]), Q e := by
      intro e he
      split at he
      · simp at he
      · simp only [List.mem_singleton] at he
        subst he
        exact hsave _ _ _
    revert hq hr
    generalize (match loadOrNew env (w.log (.document d)) following.UserID
          (getActualDocument env (getActualDocument env d)).ID
          (NewMessage (w.log (.document d)).nextID) with
        | .error _ => ([] : List Event)
        | .ok message => [.saveMessage (updateMessage env
            (getActualDocument env (getActualDocument env d))
            (if message.IsNew
              then initMessage following (!isNewFollowing || decide (counter > 6)) message
              else message))]) = ts
    intro hr hq
    simp only [ingest]
    revert hr
    generalize saveMessage env (w.log (.document d)) following (getActualDocument env d)
      (!isNewFollowing || decide (counter > 6)) = r
    obtain ⟨⟨isNew, err⟩, w2⟩ := r
    intro hr
    simp only [World.log] at hr
    cases err with
    | none =>
      cases isNew with
      | false =>
        refine ⟨[.document d, .document (getActualDocument env d),
          .loadByURL following.UserID (getActualDocument env (getActualDocument env d)).ID]
          ++ ts ++ [.closeDone], ?_, ?_⟩
        · simp [derp.Wrap, World.log, hr]
        · intro e he
          simp only [List.mem_append, List.mem_cons, List.mem_singleton, List.not_mem_nil,
            or_false] at he
          rcases he with ((h | h | h) | h) | h
          · subst h; exact hdoc _
          · subst h; exact hdoc _
          · subst h; exact hlook _ _
          · exact hq e h
          · subst h; exact hclose
      | true =>
        obtain ⟨t, ht, hall⟩ := ih (counter + 1) w2
        refine ⟨[.document d, .document (getActualDocument env d),
          .loadByURL following.UserID (getActualDocument env (getActualDocument env d)).ID]
          ++ ts ++ t, ?_, ?_⟩
        · simp [derp.Wrap, ht, hr]
        · intro e he
          simp only [List.mem_append, List.mem_cons, List.mem_singleton, List.not_mem_nil,
            or_false] at he
          rcases he with ((h | h | h) | h) | h
          · subst h; exact hdoc _
          · subst h; exact hdoc _
          · subst h; exact hlook _ _
          · exact hq e h
          · exact hall e h
    | some err =>
      cases isNew with
      | false =>
        refine ⟨[.document d, .document (getActualDocument env d),
          .loadByURL following.UserID (getActualDocument env (getActualDocument env d)).ID]
          ++ ts ++ [.report (Err.wrap err "service.Following.Connect" "Error saving document"),
            .closeDone], ?_, ?_⟩
        · simp [derp.Wrap, World.log, hr]
        · intro e he
          simp only [List.mem_append, List.mem_cons, List.mem_singleton, List.not_mem_nil,
            or_false] at he
          rcases he with ((h | h | h) | h) | h | h
          · subst h; exact hdoc _
          · subst h; exact hdoc _
          · subst h; exact hlook _ _
          · exact hq e h
          · subst h; exact hrep _
          · subst h; exact hclose
      | true =>
        obtain ⟨t, ht, hall⟩ := ih (counter + 1)
          (w2.log (.report (Err.wrap err "service.Following.Connect" "Error saving document")))
        refine ⟨[.document d, .document (getActualDocument env d),
          .loadByURL following.UserID (getActualDocument env (getActualDocument env d)).ID]
          ++ ts ++ [.report (Err.wrap err "service.Following.Connect" "Error saving document")]
          ++ t, ?_, ?_⟩
        · simp only [derp.Wrap, Bool.not_true, Bool.false_eq_true, if_false]
          rw [ht]
          simp [World.log, hr]
        · intro e he
          simp only [List.mem_append, List.mem_cons, List.mem_singleton, List.not_mem_nil,
            or_false] at he
          rcases he with (((h | h | h) | h) | h) | h
          · subst h; exact hdoc _
          · subst h; exact hdoc _
          · subst h; exact hlook _ _
          · exact hq e h
          · subst h; exact hrep _
          · exact hall e h

theorem ingest_persisted (env : Env) (isNewFollowing : Bool) (following : Following) :
    ∀ (docs : List Document) (counter : Nat) (w : World),
      (ingest env isNewFollowing following docs counter w).persisted = w.persisted := by
  intro docs
  induction docs with
  | nil => intro counter w; rfl
  | cons d docs ih =>
    intro counter w
    have hr := saveMessage_persisted env (w.log (.document d)) following
      (getActualDocument env d) (!isNewFollowing || decide (counter > 6))
    simp only [ingest]
    revert hr
    generalize saveMessage env (w.log (.document d)) following (getActualDocument env d)
      (!isNewFollowing || decide (counter > 6)) = r
    obtain ⟨⟨isNew, err⟩, w2⟩ := r
    intro hr
    simp only [World.log] at hr
    cases err <;> cases isNew <;> simp [derp.Wrap, World.log, hr, ih]

end Emissary

namespace Emissary

/-! ## Push subscription and the three paths of `Connect` -/

/-- Every event that `connect_PushServices` appends is a subscription attempt
or a report, and it leaves the stored records alone. -/
theorem connect_PushServices_events (env : Env) (w : World) (following : Following)
    (actor : Actor) (Q : Event → Prop)
    (hap : Q .connectActivityPub) (hws : ∀ hub, Q (.connectWebSub hub))
    (hrep : ∀ e, Q (.report e)) :
    ∃ b, (connect_PushServices env w following actor).trace = w.trace ++ b
      ∧ (∀ e ∈ b, Q e)
      ∧ (connect_PushServices env w following actor).messages = w.messages
      ∧ (connect_PushServices env w following actor).persisted = w.persisted := by
  unfold connect_PushServices
  by_cases hf : actor.Format = "ActivityPub"
  · rcases hc : env.connect_ActivityPub following actor with ⟨ok, err⟩
    cases ok with
    | true =>
      refine ⟨[.connectActivityPub], ?_, ?_, ?_, ?_⟩ <;> simp [hf, hc, World.log, hap]
    | false =>
      cases err with
      | none =>
        by_cases hh : actor.HubWebSub = ""
        · refine ⟨[.connectActivityPub], ?_, ?_, ?_, ?_⟩ <;> simp [hf, hc, hh, World.log, hap]
        · cases hw : env.connect_WebSub following actor.HubWebSub with
          | none =>
            refine ⟨[.connectActivityPub, .connectWebSub actor.HubWebSub], ?_, ?_, ?_, ?_⟩ <;>
              simp [hf, hc, hh, hw, World.log, hap, hws]
          | some e =>
            refine ⟨[.connectActivityPub, .connectWebSub actor.HubWebSub,
              .report (Err.wrap e "service.Following.connect_PushServices"
                "Error connecting to WebSub")], ?_, ?_, ?_, ?_⟩ <;>
              simp [hf, hc, hh, hw, World.log, hap, hws, hrep]
      | some e0 =>
        by_cases hh : actor.HubWebSub = ""
        · refine ⟨[.connectActivityPub,
            .report (Err.wrap e0 "service.Following.connect_PushServices"
              "Error connecting to ActivityPub")], ?_, ?_, ?_, ?_⟩ <;>
            simp [hf, hc, hh, World.log, hap, hrep]
        · cases hw : env.connect_WebSub following actor.HubWebSub with
          | none =>
            refine ⟨[.connectActivityPub,
              .report (Err.wrap e0 "service.Following.connect_PushServices"
                "Error connecting to ActivityPub"),
              .connectWebSub actor.HubWebSub], ?_, ?_, ?_, ?_⟩ <;>
              simp [hf, hc, hh, hw, World.log, hap, hws, hrep]
          | some e =>
            refine ⟨[.connectActivityPub,
              .report (Err.wrap e0 "service.Following.connect_PushServices"
                "Error connecting to ActivityPub"),
              .connectWebSub actor.HubWebSub,
              .report (Err.wrap e "service.Following.connect_PushServices"
                "Error connecting to WebSub")], ?_, ?_, ?_, ?_⟩ <;>
              simp [hf, hc, hh, hw, World.log, hap, hws, hrep]
  · by_cases hh : actor.HubWebSub = ""
    · refine ⟨[], ?_, ?_, ?_, ?_⟩ <;> simp [hf, hh]
    · cases hw : env.connect_WebSub following actor.HubWebSub with
      | none =>
        refine ⟨[.connectWebSub actor.HubWebSub], ?_, ?_, ?_, ?_⟩ <;>
          simp [hf, hh, hw, World.log, hws]
      | some e =>
        refine ⟨[.connectWebSub actor.HubWebSub,
          .report (Err.wrap e "service.Following.connect_PushServices"
            "Error connecting to WebSub")], ?_, ?_, ?_, ?_⟩ <;>
          simp [hf, hh, hw, World.log, hws, hrep]

/-- The path of `Connect` on which the Loading status cannot be persisted. -/
theorem Connect_loading_fails (env : Env) (w : World) (following : Following) (e : Err)
    (hL : env.followingSaveErr (loadingRecord following) = some e) :
    Connect env w following
      = (some (Err.wrap e "service.Following.Connect" "Error updating following status"),
         w.log (.saveFollowing (loadingRecord following))) := by
  simp only [loadingRecord] at hL
  simp [Connect, SetStatusLoading, SetStatus, hL, derp.Wrap, loadingRecord]

/-- The path of `Connect` on which the actor cannot be resolved. -/
theorem Connect_unresolved (env : Env) (w : World) (following : Following) (e : Err)
    (hL : env.followingSaveErr (loadingRecord following) = none)
    (hA : env.LoadActor following.URL = .error e) :
    Connect env w following
      = (derp.Wrap (env.followingSaveErr (failureRecord following e))
            "service.Following.Connect" "Error updating following status",
         match env.followingSaveErr (failureRecord following e) with
         | some _ =>
           { w with
             trace := w.trace ++ [.saveFollowing (loadingRecord following),
               .loadActor following.URL, .saveFollowing (failureRecord following e)]
             persisted := w.persisted ++ [loadingRecord following] }
         | none =>
           { w with
             trace := w.trace ++ [.saveFollowing (loadingRecord following),
               .loadActor following.URL, .saveFollowing (failureRecord following e)]
             persisted := w.persisted ++ [loadingRecord following, failureRecord following e] }) := by
  simp only [loadingRecord] at hL
  simp only [failureRecord]
  cases hF : env.followingSaveErr
    { following with Status := .Failure, StatusMessage := e.Error } <;>
    simp [Connect, SetStatusLoading, SetStatusFailure, SetStatus, hL, hA, hF, derp.Wrap,
      World.log, loadingRecord]

/-- The path of `Connect` on which the actor is resolved but the Success status
cannot be persisted. -/
theorem Connect_success_fails (env : Env) (w : World) (following : Following) (actor : Actor)
    (e : Err)
    (hL : env.followingSaveErr (loadingRecord following) = none)
    (hA : env.LoadActor following.URL = .ok actor)
    (hS : env.followingSaveErr (successRecord following actor) = some e) :
    Connect env w following
      = (some (Err.wrap e "service.Following.Connect" "Error setting status"),
         { w with
           trace := w.trace ++ [.saveFollowing (loadingRecord following),
             .loadActor following.URL, .saveFollowing (successRecord following actor)]
           persisted := w.persisted ++ [loadingRecord following] }) := by
  simp only [loadingRecord] at hL
  simp only [successRecord] at hS
  simp [Connect, SetStatusLoading, SetStatusSuccess, SetStatus, hL, hA, hS, derp.Wrap,
    World.log, loadingRecord, successRecord]

/-- The path of `Connect` on which the actor is resolved and the Success status
is persisted: the loop, the recount, then the push subscription. -/
theorem Connect_resolved (env : Env) (w : World) (following : Following) (actor : Actor)
    (hL : env.followingSaveErr (loadingRecord following) = none)
    (hA : env.LoadActor following.URL = .ok actor)
    (hS : env.followingSaveErr (successRecord following actor) = none) :
    Connect env w following
      = match env.recalcErr following.UserID following.FolderID with
        | some err =>
          (some (Err.wrap err "service.Following.Connect" "Error recalculating unread count"),
           (ingest env (decide (following.Status = .New)) (successRecord following actor)
              actor.Outbox 0
              { w with
                trace := w.trace ++ [.saveFollowing (loadingRecord following),
                  .loadActor following.URL, .saveFollowing (successRecord following actor)]
                persisted := w.persisted ++ [loadingRecord following,
                  successRecord following actor] }).log
             (.recalculateUnread following.UserID following.FolderID))
        | none =>
          (none,
           connect_PushServices env
            ((ingest env (decide (following.Status = .New)) (successRecord following actor)
              actor.Outbox 0
              { w with
                trace := w.trace ++ [.saveFollowing (loadingRecord following),
                  .loadActor following.URL, .saveFollowing (successRecord following actor)]
                persisted := w.persisted ++ [loadingRecord following,
                  successRecord following actor] }).log
             (.recalculateUnread following.UserID following.FolderID))
            (successRecord following actor) actor) := by
  simp only [loadingRecord] at hL
  simp only [successRecord] at hS
  cases hR : env.recalcErr following.UserID following.FolderID <;>
    simp [Connect, SetStatusLoading, SetStatusSuccess, SetStatus, hL, hA, hS, hR, derp.Wrap,
      World.log, loadingRecord, successRecord]

end Emissary

namespace Emissary

/-- Every event that `Connect` appends satisfies a property that holds of the
events of each of its steps. -/
theorem Connect_events (env : Env) (w : World) (following : Following) (Q : Event → Prop)
    (hfol : ∀ f, Q (.saveFollowing f)) (hact : ∀ url, Q (.loadActor url))
    (hdoc : ∀ d, Q (.document d)) (hlook : ∀ u url, Q (.loadByURL u url))
    (hrep : ∀ e, Q (.report e)) (hclose : Q .closeDone)
    (hrec : ∀ u f, Q (.recalculateUnread u f))
    (hap : Q .connectActivityPub) (hws : ∀ hub, Q (.connectWebSub hub))
    (hsave : ∀ (actor : Actor) (document : Document) (message : Message) (counter : Nat),
      Q (.saveMessage (updateMessage env document
        (if message.IsNew
          then initMessage (successRecord following actor)
            (!decide (following.Status = .New) || decide (counter > 6)) message
          else message)))) :
    ∃ t, (Connect env w following).2.trace = w.trace ++ t ∧ ∀ e ∈ t, Q e := by
  cases hL : env.followingSaveErr (loadingRecord following) with
  | some e =>
    rw [Connect_loading_fails env w following e hL]
    exact ⟨[.saveFollowing (loadingRecord following)], rfl, by simp [hfol]⟩
  | none =>
    cases hA : env.LoadActor following.URL with
    | error e =>
      rw [Connect_unresolved env w following e hL hA]
      refine ⟨[.saveFollowing (loadingRecord following), .loadActor following.URL,
        .saveFollowing (failureRecord following e)], ?_, by simp [hfol, hact]⟩
      cases env.followingSaveErr (failureRecord following e) <;> rfl
    | ok actor =>
      cases hS : env.followingSaveErr (successRecord following actor) with
      | some e =>
        rw [Connect_success_fails env w following actor e hL hA hS]
        exact ⟨[.saveFollowing (loadingRecord following), .loadActor following.URL,
          .saveFollowing (successRecord following actor)], rfl, by simp [hfol, hact]⟩
      | none =>
        rw [Connect_resolved env w following actor hL hA hS]
        obtain ⟨t, ht, hall⟩ := ingest_events env (decide (following.Status = .New))
          (successRecord following actor) Q hdoc hlook hrep hclose (hsave actor) actor.Outbox 0
          { w with
            trace := w.trace ++ [.saveFollowing (loadingRecord following),
              .loadActor following.URL, .saveFollowing (successRecord following actor)]
            persisted := w.persisted ++ [loadingRecord following,
              successRecord following actor] }
        cases env.recalcErr following.UserID following.FolderID with
        | some err =>
          refine ⟨[.saveFollowing (loadingRecord following), .loadActor following.URL,
            .saveFollowing (successRecord following actor)] ++ t
            ++ [.recalculateUnread following.UserID following.FolderID], ?_, ?_⟩
          · simp [World.log, ht]
          · intro e he
            simp only [List.mem_append, List.mem_cons, List.mem_singleton, List.not_mem_nil,
              or_false] at he
            rcases he with ((h | h | h) | h) | h
            · subst h; exact hfol _
            · subst h; exact hact _
            · subst h; exact hfol _
            · exact hall e h
            · subst h; exact hrec _ _
        | none =>
          obtain ⟨b, hb, hball, _, _⟩ := connect_PushServices_events env
            ((ingest env (decide (following.Status = .New)) (successRecord following actor)
              actor.Outbox 0
              { w with
                trace := w.trace ++ [.saveFollowing (loadingRecord following),
                  .loadActor following.URL, .saveFollowing (successRecord following actor)]
                persisted := w.persisted ++ [loadingRecord following,
                  successRecord following actor] }).log
             (.recalculateUnread following.UserID following.FolderID))
            (successRecord following actor) actor Q hap hws hrep
          refine ⟨[.saveFollowing (loadingRecord following), .loadActor following.URL,
            .saveFollowing (successRecord following actor)] ++ t
            ++ [.recalculateUnread following.UserID following.FolderID] ++ b, ?_, ?_⟩
          · simp only [hb]
            simp [World.log, ht]
          · intro e he
            simp only [List.mem_append, List.mem_cons, List.mem_singleton, List.not_mem_nil,
              or_false] at he
            rcases he with (((h | h | h) | h) | h) | h
            · subst h; exact hfol _
            · subst h; exact hact _
            · subst h; exact hfol _
            · exact hall e h
            · subst h; exact hrec _ _
            · exact hball e h

end Emissary

namespace Emissary

/-- A storage fault on the lookup or on the write of a document makes
`saveMessage` return `created = false`, in every world. -/
theorem saveMessage_fault_not_created (env : Env) (w : World) (following : Following)
    (document : Document) (markRead : Bool)
    (hfail : (∃ x, env.messageLoadErr following.UserID (getActualDocument env document).ID
        = some x ∧ derp.NotFound x = false)
      ∨ (∀ m, m.URL = (getActualDocument env document).ID → env.messageSaveErr m ≠ none)) :
    (saveMessage env w following document markRead).1.1 = false := by
  unfold saveMessage
  rcases hfail with ⟨x, hx, hnf⟩ | hsave
  · have hl : loadOrNew env w following.UserID (getActualDocument env document).ID
        (NewMessage w.nextID)
        = .error (Err.wrap x "service.Activity" "Error loading Activity") := by
      simp only [derp.NotFound] at hnf
      simp [loadOrNew, LoadByURL, hx, derp.NotFound, Err.ErrorCode, hnf]
    rw [hl]
  · cases loadOrNew env w following.UserID (getActualDocument env document).ID
        (NewMessage w.nextID) with
    | error err => rfl
    | ok message =>
      simp only [Save]
      cases hs : env.messageSaveErr (updateMessage env (getActualDocument env document)
        (if message.IsNew then initMessage following markRead message else message)) with
      | none => exact absurd hs (hsave _ rfl)
      | some e => rfl

end Emissary

namespace Emissary

/-! ## What the loop can add to the inbox -/

theorem upsert_mem (xs : List Message) (m x : Message) (h : x ∈ upsert xs m) :
    x ∈ xs ∨ x = m := by
  induction xs with
  | nil =>
    simp only [upsert, List.mem_singleton] at h
    exact Or.inr h
  | cons y ys ih =>
    simp only [upsert] at h
    by_cases hy : y.MessageID = m.MessageID
    · simp only [hy, if_true, List.mem_cons] at h
      rcases h with h | h
      · exact Or.inr h
      · exact Or.inl (List.mem_cons_of_mem _ h)
    · simp only [hy, if_false, List.mem_cons] at h
      rcases h with h | h
      · exact Or.inl (h ▸ List.mem_cons_self _ _)
      · rcases ih h with h2 | h2
        · exact Or.inl (List.mem_cons_of_mem _ h2)
        · exact Or.inr h2

theorem stamp_URL (env : Env) (m : Message) : (stamp env m).URL = m.URL := by
  unfold stamp
  split <;> rfl

/-- A URL that is stored after `saveMessage` was stored before, or is the
canonical URL of the document. -/
theorem saveMessage_stored (env : Env) (w : World) (following : Following)
    (document : Document) (markRead : Bool) (userID : Nat) (url : String)
    (h : Stored (saveMessage env w following document markRead).2 userID url = true) :
    Stored w userID url = true ∨ url = (getActualDocument env document).ID := by
  unfold saveMessage at h
  cases hl : loadOrNew env w following.UserID (getActualDocument env document).ID
      (NewMessage w.nextID) with
  | error err =>
    rw [hl] at h
    exact Or.inl h
  | ok message =>
    rw [hl] at h
    simp only [Save] at h
    cases hs : env.messageSaveErr (updateMessage env (getActualDocument env document)
      (if message.IsNew then initMessage following markRead message else message)) with
    | some e =>
      rw [hs] at h
      exact Or.inl h
    | none =>
      rw [hs] at h
      simp only [Stored, World.log, List.any_eq_true] at h ⊢
      obtain ⟨x, hx, hmx⟩ := h
      rcases upsert_mem _ _ _ hx with hx | hx
      · exact Or.inl ⟨x, hx, hmx⟩
      · right
        subst hx
        simp only [matchesURL, Bool.and_eq_true, beq_iff_eq] at hmx
        rw [← hmx.1.2, stamp_URL]
        rfl

/-- A URL that is stored after the loop was stored before, or is the canonical
URL of one of the documents. -/
theorem ingest_stored (env : Env) (isNewFollowing : Bool) (following : Following)
    (userID : Nat) (url : String) :
    ∀ (docs : List Document) (counter : Nat) (w : World),
      Stored (ingest env isNewFollowing following docs counter w) userID url = true →
      Stored w userID url = true ∨ url ∈ docs.map (canonicalURL env) := by
  intro docs
  induction docs with
  | nil => intro counter w h; exact Or.inl h
  | cons d docs ih =>
    intro counter w h
    have hr := saveMessage_stored env (w.log (.document d)) following
      (getActualDocument env d) (!isNewFollowing || decide (counter > 6)) userID url
    simp only [ingest] at h
    revert hr h
    generalize saveMessage env (w.log (.document d)) following (getActualDocument env d)
      (!isNewFollowing || decide (counter > 6)) = r
    obtain ⟨⟨isNew, err⟩, w2⟩ := r
    intro h hr
    have hstep : Stored w2 userID url = true → Stored w userID url = true
        ∨ url ∈ (d :: docs).map (canonicalURL env) := by
      intro h2
      rcases hr h2 with h3 | h3
      · exact Or.inl h3
      · right
        simp only [List.map_cons, List.mem_cons]
        exact Or.inl h3
    cases err <;> cases isNew <;>
      simp only [derp.Wrap, Bool.not_true, Bool.not_false, Bool.false_eq_true, if_true,
        if_false] at h
    · exact hstep h
    · rcases ih _ _ h with h2 | h2
      · exact hstep h2
      · right
        simp only [List.map_cons, List.mem_cons]
        exact Or.inr h2
    · exact hstep h
    · rcases ih _ _ h with h2 | h2
      · exact hstep h2
      · right
        simp only [List.map_cons, List.mem_cons]
        exact Or.inr h2

end Emissary

namespace Emissary

/-! ## Lemmas about the Response service -/

theorem LoadByMessageID_found (env : ResponseEnv) (w : ResponseWorld) (userID objectID : Nat)
    (old : Response) (hload : env.loadErr userID objectID = none)
    (hfound : w.responses.find? (matchesMessage userID objectID) = some old) :
    Response.LoadByMessageID env w userID objectID = .ok old := by
  simp [Response.LoadByMessageID, hload, hfound]

theorem found_matches (w : ResponseWorld) (userID objectID : Nat) (old : Response)
    (hfound : w.responses.find? (matchesMessage userID objectID) = some old) :
    old.Actor.UserID = userID ∧ old.Message.ID = objectID ∧ old.DeleteDate = 0 := by
  have h := List.find?_some hfound
  simp only [matchesMessage, Bool.and_eq_true, beq_iff_eq] at h
  exact ⟨h.1.2, h.1.1, h.2⟩

/-- The run of `Response.Delete` in which the marker write and the hard delete
succeed. -/
theorem Response_Delete_run (env : ResponseEnv) (w : ResponseWorld) (response : Response)
    (hmark : env.markerErr response.Actor.UserID response.Message.ID "" = none)
    (hdel : env.deleteErr response.ResponseID = none) :
    Response.Delete env w response
      = (derp.Wrap (env.unPublishErr response.Actor.UserID response.ResponseID)
            "service.Response.Delete" "Error publishing Response",
         { responses := w.responses.filter (fun r => r.ResponseID != response.ResponseID)
           markers := fun u m =>
             if u = response.Actor.UserID ∧ m = response.Message.ID then "" else w.markers u m
           nextID := w.nextID
           trace := w.trace ++ [.setResponse response.Actor.UserID response.Message.ID "",
             .hardDelete response.ResponseID,
             .unPublish response.Actor.UserID response.ResponseID
               (pub.Undo response.GetJSONLD)] }) := by
  cases hu : env.unPublishErr response.Actor.UserID response.ResponseID <;>
    simp [Response.Delete, Inbox.SetResponse, hmark, hdel, hu, derp.Wrap, ResponseWorld.log]

/-- The run of `Response.Save` in which cleaning, the marker write and the
storage write succeed. -/
theorem Response_Save_run (env : ResponseEnv) (w : ResponseWorld) (response : Response)
    (hclean : env.cleanErr response = none)
    (hmark : env.markerErr response.Actor.UserID response.Message.ID response.ResponseType
      = none)
    (hsave : env.saveErr response = none) :
    Response.Save env w response
      = (derp.Wrap (env.publishErr response.ResponseID response.Actor.UserID)
            "service.Response.Save" "Error publishing Response",
         { responses := upsertResponse w.responses response
           markers := fun u m =>
             if u = response.Actor.UserID ∧ m = response.Message.ID
             then response.ResponseType else w.markers u m
           nextID := w.nextID
           trace := w.trace ++ [.setResponse response.Actor.UserID response.Message.ID
               response.ResponseType,
             .save response,
             .publish "RESPONSE" response.ResponseID response.Actor.UserID
               response.GetJSONLD] }) := by
  cases hp : env.publishErr response.ResponseID response.Actor.UserID <;>
    simp [Response.Save, Inbox.SetResponse, hclean, hmark, hsave, hp, derp.Wrap,
      ResponseWorld.log]

theorem upsertResponse_fresh (xs : List Response) (r : Response)
    (h : ∀ x ∈ xs, x.ResponseID ≠ r.ResponseID) : upsertResponse xs r = xs ++ [r] := by
  induction xs with
  | nil => rfl
  | cons x xs ih =>
    have hx : x.ResponseID ≠ r.ResponseID := h x (List.mem_cons_self _ _)
    have hxs : ∀ y ∈ xs, y.ResponseID ≠ r.ResponseID :=
      fun y hy => h y (List.mem_cons_of_mem _ hy)
    simp [upsertResponse, hx, ih hxs]

end Emissary

namespace Emissary

theorem find_of_filter_singleton {α : Type} (p : α → Bool) (a : α) :
    ∀ (xs : List α), xs.filter p = [a] → xs.find? p = some a := by
  intro xs
  induction xs with
  | nil => intro h; simp at h
  | cons x xs ih =>
    intro h
    by_cases hp : p x = true
    · rw [List.filter_cons_of_pos hp] at h
      have hx : x = a := (List.cons.inj h).1
      subst hx
      simp [List.find?, hp]
    · have hp2 : p x = false := by simpa using hp
      rw [List.filter_cons_of_neg hp] at h
      simp only [List.find?, hp2]
      exact ih h

/-- The one stored response of a pair is what remains of the pair when a fresh
response for it is stored after the old one was hard-deleted. -/
theorem responsesFor_after_replace (xs : List Response) (userID messageID : Nat)
    (old new : Response)
    (hone : xs.filter (matchesMessage userID messageID) = [old])
    (hfresh : ∀ x ∈ xs, x.ResponseID ≠ new.ResponseID)
    (hnew : matchesMessage userID messageID new = true) :
    (upsertResponse (xs.filter (fun r => r.ResponseID != old.ResponseID)) new).filter
        (matchesMessage userID messageID) = [new] := by
  have hfresh2 : ∀ x ∈ xs.filter (fun r => r.ResponseID != old.ResponseID),
      x.ResponseID ≠ new.ResponseID := fun x hx => hfresh x (List.mem_filter.mp hx).1
  rw [upsertResponse_fresh _ _ hfresh2, List.filter_append]
  have h1 : (xs.filter (fun r => r.ResponseID != old.ResponseID)).filter
      (matchesMessage userID messageID) = [] := by
    rw [List.filter_filter]
    have h2 : xs.filter (fun a => matchesMessage userID messageID a
          && (a.ResponseID != old.ResponseID))
        = (xs.filter (matchesMessage userID messageID)).filter
            (fun a => a.ResponseID != old.ResponseID) := by
      rw [List.filter_filter]
      congr 1
      funext a
      exact Bool.and_comm _ _
    rw [h2, hone]
    simp [List.filter]
  rw [h1, List.filter_cons_of_pos hnew]
  rfl

end Emissary

namespace Emissary

/-! ## Lemmas about the RSS import -/

/-- The import up to the first item that cannot be saved: the items before it
are saved, then `saveError` runs on the wrapped error. -/
theorem importItems_failing_item (env : Env) (rss : RSSEnv) (following : Following)
    (item : RSSItem) (rest : List RSSItem) (e : Err)
    (hitem : rss.saveActivityErr following item = some e) :
    ∀ (pre : List RSSItem) (w : World),
      (∀ p ∈ pre, rss.saveActivityErr following p = none) →
      importItems env rss following (pre ++ item :: rest) w
        = saveError env
            { w with trace := w.trace ++ (pre ++ [item]).map (Event.saveActivity following) }
            following
            (Err.wrap e "service.Following.importRSS" "Error updating local activity") := by
  intro pre
  induction pre with
  | nil =>
    intro w _
    simp [importItems, hitem, World.log]
  | cons p pre ih =>
    intro w hpre
    have hp : rss.saveActivityErr following p = none := hpre p (List.mem_cons_self _ _)
    have hrest : ∀ q ∈ pre, rss.saveActivityErr following q = none :=
      fun q hq => hpre q (List.mem_cons_of_mem _ hq)
    simp only [List.cons_append, importItems, hp]
    refine (ih (w.log (.saveActivity following p)) hrest).trans ?_
    simp [World.log]

end Emissary

namespace Emissary

/-! ## Lemmas about `matchOne` and `matchAny` -/

theorem matchOne_iff (slice : List String) (value : String) :
    matchOne slice value = true ↔ value ∈ slice := by
  induction slice with
  | nil => simp [matchOne]
  | cons x xs ih =>
    by_cases h : x = value
    · simp [matchOne, h]
    · have h2 : ¬ value = x := fun h3 => h h3.symm
      simp [matchOne, h, h2, ih]

theorem matchAnyInner_iff (value : String) (slice2 : List String) :
    matchAnyInner value slice2 = true ↔ value ∈ slice2 := by
  induction slice2 with
  | nil => simp [matchAnyInner]
  | cons y ys ih =>
    by_cases h : value = y
    · simp [matchAnyInner, h]
    · simp [matchAnyInner, h, ih]

theorem matchAny_iff (slice1 slice2 : List String) :
    matchAny slice1 slice2 = true ↔ ∃ x ∈ slice1, x ∈ slice2 := by
  induction slice1 with
  | nil => simp [matchAny]
  | cons x xs ih =>
    by_cases h : matchAnyInner x slice2 = true
    · have hx := (matchAnyInner_iff x slice2).mp h
      simp [matchAny, h, hx]
    · have hx : ¬ x ∈ slice2 := fun h2 => h ((matchAnyInner_iff x slice2).mpr h2)
      simp [matchAny, h, hx, ih]

end Emissary

namespace Emissary

/-! ## The claims about `Connect` and `saveMessage` -/

/-- C1 (the code at the input of the claim): on the first connect of a
Following in status New, with ten documents of which none is stored, `Connect`
stores the messages of the 1st to 7th document unread and those of the 8th to
10th read.  The message of the 7th document, which the unread policy of the
first six wants read, is stored unread. -/
theorem C1_first_connect_seventh_unread :
    exampleFollowing.Status = .New ∧ emptyWorld.messages = [] ∧
    (Connect exampleEnv emptyWorld exampleFollowing).2.messages.map (fun m => m.URL)
      = tenNotes.map Document.ID ∧
    (Connect exampleEnv emptyWorld exampleFollowing).2.messages.map (fun m => m.Read)
      = [false, false, false, false, false, false, false, true, true, true] := by
  refine ⟨rfl, rfl, ?_, ?_⟩ <;> decide

/-- C2 (counterexample): for a Following in status Success and an empty inbox,
the ten messages that `Connect` creates are all stored read, so it is false
that every message it creates is stored unread. -/
theorem C2_counterexample :
    connectedFollowing.Status ≠ .New ∧ emptyWorld.messages = [] ∧
    (Connect exampleEnv emptyWorld connectedFollowing).2.messages.map (fun m => m.Read)
      = [true, true, true, true, true, true, true, true, true, true] ∧
    ¬ (∀ m ∈ (Connect exampleEnv emptyWorld connectedFollowing).2.messages, m.Read = false) := by
  refine ⟨by decide, rfl, ?_, ?_⟩ <;> decide

/-- C2 (amended): for every Following whose status is not New when `Connect`
starts, every message that `Connect` creates (a message that is new when it is
handed to the save) is saved read, whatever its position in the sequence. -/
theorem C2_not_new_created_read (env : Env) (w : World) (following : Following)
    (h : following.Status ≠ .New) :
    ∃ t, (Connect env w following).2.trace = w.trace ++ t
      ∧ ∀ m, Event.saveMessage m ∈ t → m.IsNew = true → m.Read = true := by
  obtain ⟨t, ht, hall⟩ := Connect_events env w following
    (fun e => ∀ m, e = Event.saveMessage m → m.IsNew = true → m.Read = true)
    (by intro f m hm; cases hm) (by intro u m hm; cases hm) (by intro d m hm; cases hm)
    (by intro u url m hm; cases hm) (by intro e m hm; cases hm) (by intro m hm; cases hm)
    (by intro u f m hm; cases hm) (by intro m hm; cases hm) (by intro hub m hm; cases hm)
    (by
      intro actor document message counter m hm hnew
      cases hm
      have hnew2 : message.IsNew = true := by
        by_cases hc : message.IsNew = true
        · exact hc
        · simp only [hc] at hnew
          exact absurd hnew hc
      simp [hnew2, h, initMessage, updateMessage])
  exact ⟨t, ht, fun m hm => hall _ hm m rfl⟩

/-- C2 (witness): the amended statement at the Following in status Success. -/
theorem C2_not_new_created_read_witness :
    connectedFollowing.Status ≠ .New ∧
    ∃ t, (Connect exampleEnv emptyWorld connectedFollowing).2.trace = emptyWorld.trace ++ t
      ∧ ∀ m, Event.saveMessage m ∈ t → m.IsNew = true → m.Read = true :=
  ⟨by decide, C2_not_new_created_read exampleEnv emptyWorld connectedFollowing (by decide)⟩

end Emissary

namespace Emissary

/-- C3: when the documents before the k-th are new (their canonical URLs are
pairwise different and not stored for the user) and the k-th is the first one
whose canonical URL is already stored when it is reached, and no storage call
fails, the item events of `Connect` are exactly the conversions, lookups and
saves of documents 1..k in the order yielded, the done signal is closed right
after them, and no item event follows: nothing is looked up, converted or
saved for a document behind the k-th. -/
theorem C3_pagination_stop (env : Env) (w : World) (following : Following) (actor : Actor)
    (pre : List Document) (d : Document) (rest : List Document)
    (hF : ∀ f, env.followingSaveErr f = none)
    (hA : env.LoadActor following.URL = .ok actor)
    (hout : actor.Outbox = pre ++ d :: rest)
    (hload : ∀ u url, env.messageLoadErr u url = none)
    (hsave : ∀ m, env.messageSaveErr m = none)
    (hwf : w.WF = true)
    (hnd : (pre.map (canonicalURL env)).Nodup)
    (hns : ∀ p ∈ pre, Stored w following.UserID (canonicalURL env p) = false)
    (hd : Stored w following.UserID (canonicalURL env d) = true
      ∨ canonicalURL env d ∈ pre.map (canonicalURL env)) :
    ∃ t b, (Connect env w following).2.trace
        = w.trace ++ [.saveFollowing (loadingRecord following), .loadActor following.URL,
            .saveFollowing (successRecord following actor)] ++ t ++ [.closeDone] ++ b
      ∧ t.all Event.isItem = true
      ∧ t.filterMap Event.document?
          = (pre ++ [d]).flatMap (fun x => [x, getActualDocument env x])
      ∧ t.filterMap Event.lookup?
          = (pre ++ [d]).map (fun x => (following.UserID, canonicalURL env x))
      ∧ (t.filterMap Event.saved?).map (fun m => m.URL) = (pre ++ [d]).map (canonicalURL env)
      ∧ b.all (fun e => !e.isItem) = true := by
  obtain ⟨t, ht, hall, hdoc, hlook, hsaved⟩ := ingest_new_then_known env
    (decide (following.Status = .New)) (successRecord following actor) hload hsave d rest pre 0
    { w with
      trace := w.trace ++ [.saveFollowing (loadingRecord following),
        .loadActor following.URL, .saveFollowing (successRecord following actor)]
      persisted := w.persisted ++ [loadingRecord following, successRecord following actor] }
    hwf hnd hns hd
  rw [Connect_resolved env w following actor (hF _) hA (hF _), hout]
  cases env.recalcErr following.UserID following.FolderID with
  | some err =>
    refine ⟨t, [.recalculateUnread following.UserID following.FolderID], ?_, hall, hdoc, hlook,
      hsaved, rfl⟩
    simp only [World.log, ht]
  | none =>
    obtain ⟨b, hb, hball, _, _⟩ := connect_PushServices_events env
      ((ingest env (decide (following.Status = .New)) (successRecord following actor)
        (pre ++ d :: rest) 0
        { w with
          trace := w.trace ++ [.saveFollowing (loadingRecord following),
            .loadActor following.URL, .saveFollowing (successRecord following actor)]
          persisted := w.persisted ++ [loadingRecord following,
            successRecord following actor] }).log
       (.recalculateUnread following.UserID following.FolderID))
      (successRecord following actor) actor (fun e => e.isItem = false) rfl (fun _ => rfl)
      (fun _ => rfl)
    refine ⟨t, .recalculateUnread following.UserID following.FolderID :: b, ?_, hall, hdoc,
      hlook, hsaved, ?_⟩
    · rw [hb]
      simp [World.log, ht]
    · simp only [List.all_cons, List.all_eq_true, Bool.and_eq_true, Bool.not_eq_true']
      exact ⟨rfl, hball⟩

/-- C3 (witness): ten notes of which the fifth is already in the inbox, k = 5. -/
theorem C3_pagination_stop_witness :
    exampleEnv.LoadActor exampleFollowing.URL = .ok exampleActor ∧
    exampleActor.Outbox = tenNotes.take 4 ++ note "https://remote.example/n/6" :: tenNotes.drop 5 ∧
    worldWithFifth.WF = true ∧
    ((tenNotes.take 4).map (canonicalURL exampleEnv)).Nodup ∧
    (∀ p ∈ tenNotes.take 4,
      Stored worldWithFifth exampleFollowing.UserID (canonicalURL exampleEnv p) = false) ∧
    Stored worldWithFifth exampleFollowing.UserID
      (canonicalURL exampleEnv (note "https://remote.example/n/6")) = true ∧
    ∃ t b, (Connect exampleEnv worldWithFifth exampleFollowing).2.trace
        = worldWithFifth.trace ++ [.saveFollowing (loadingRecord exampleFollowing),
            .loadActor exampleFollowing.URL,
            .saveFollowing (successRecord exampleFollowing exampleActor)] ++ t ++ [.closeDone] ++ b
      ∧ t.all Event.isItem = true
      ∧ t.filterMap Event.document?
          = (tenNotes.take 4 ++ [note "https://remote.example/n/6"]).flatMap
              (fun x => [x, getActualDocument exampleEnv x])
      ∧ t.filterMap Event.lookup?
          = (tenNotes.take 4 ++ [note "https://remote.example/n/6"]).map
              (fun x => (exampleFollowing.UserID, canonicalURL exampleEnv x))
      ∧ (t.filterMap Event.saved?).map (fun m => m.URL)
          = (tenNotes.take 4 ++ [note "https://remote.example/n/6"]).map (canonicalURL exampleEnv)
      ∧ b.all (fun e => !e.isItem) = true :=
  ⟨rfl, by decide, by decide, by decide, by decide, by decide,
   C3_pagination_stop exampleEnv worldWithFifth exampleFollowing exampleActor
     (tenNotes.take 4) (note "https://remote.example/n/6") (tenNotes.drop 5)
     (fun _ => rfl) rfl (by decide) (fun _ _ => rfl) (fun _ => rfl) (by decide) (by decide)
     (by decide) (Or.inl (by decide))⟩

end Emissary

namespace Emissary

/-- C4: starting from a store with no message for (user, canonical URL) and
with no storage fault, two calls of `saveMessage` for the same Following with
documents of the same canonical URL leave exactly one stored message for
(user, canonical URL); the first call returns `created = true` and the second
returns `created = false`. -/
theorem C4_idempotent_ingestion (env : Env) (w : World) (following : Following)
    (d1 d2 : Document) (markRead1 markRead2 : Bool)
    (hurl : (getActualDocument env d2).ID = (getActualDocument env d1).ID)
    (hload : env.messageLoadErr following.UserID (getActualDocument env d1).ID = none)
    (hsave : ∀ m, env.messageSaveErr m = none)
    (hwf : w.WF = true)
    (hnone : ∀ m ∈ w.messages,
      ¬ (m.UserID = following.UserID ∧ m.URL = (getActualDocument env d1).ID)) :
    (saveMessage env w following d1 markRead1).1 = (true, none)
    ∧ (saveMessage env (saveMessage env w following d1 markRead1).2 following d2 markRead2).1
        = (false, none)
    ∧ ((saveMessage env w following d1 markRead1).2.messages.filter
        (fun m => m.UserID == following.UserID && m.URL == (getActualDocument env d1).ID)).length
        = 1
    ∧ ((saveMessage env (saveMessage env w following d1 markRead1).2 following d2
        markRead2).2.messages.filter
        (fun m => m.UserID == following.UserID && m.URL == (getActualDocument env d1).ID)).length
        = 1 := by
  have hfilter : w.messages.filter
      (fun m => m.UserID == following.UserID && m.URL == (getActualDocument env d1).ID) = [] := by
    rw [List.filter_eq_nil_iff]
    intro m hm
    have := hnone m hm
    simpa using this
  have hfind : w.messages.find?
      (matchesURL following.UserID (getActualDocument env d1).ID) = none := by
    rw [List.find?_eq_none]
    intro m hm hmm
    simp only [matchesURL, Bool.and_eq_true, beq_iff_eq] at hmm
    exact hnone m hm ⟨hmm.1.1, hmm.1.2⟩
  have key1 := saveMessage_created env w following d1 markRead1 hload hfind (hsave _)
  have hfresh : ∀ x ∈ w.messages, x.MessageID ≠
      (stamp env (updateMessage env (getActualDocument env d1)
        (initMessage following markRead1 (NewMessage w.nextID)))).MessageID := by
    intro x hx
    rw [created_id]
    exact Nat.ne_of_lt (WF_fresh w hwf x hx)
  rw [upsert_fresh w.messages _ hfresh] at key1
  have hmatch : matchesURL following.UserID (getActualDocument env d1).ID
      (stamp env (updateMessage env (getActualDocument env d1)
        (initMessage following markRead1 (NewMessage w.nextID)))) = true := by
    rw [created_matches]; simp
  have hfind2 : (w.messages ++ [stamp env (updateMessage env (getActualDocument env d1)
        (initMessage following markRead1 (NewMessage w.nextID)))]).find?
      (matchesURL following.UserID (getActualDocument env d2).ID)
      = some (stamp env (updateMessage env (getActualDocument env d1)
        (initMessage following markRead1 (NewMessage w.nextID)))) := by
    rw [hurl, List.find?_append, hfind]
    simp [List.find?, hmatch]
  have hload2 : env.messageLoadErr following.UserID (getActualDocument env d2).ID = none := by
    rw [hurl]; exact hload
  rw [key1]
  have key2 := saveMessage_found env
    { messages := w.messages ++ [stamp env (updateMessage env (getActualDocument env d1)
        (initMessage following markRead1 (NewMessage w.nextID)))]
      persisted := w.persisted
      nextID := w.nextID + 1
      trace := w.trace ++ [.document d1,
        .loadByURL following.UserID (getActualDocument env d1).ID,
        .saveMessage (updateMessage env (getActualDocument env d1)
          (initMessage following markRead1 (NewMessage w.nextID)))] }
    following d2 markRead2 _ hload2 hfind2 (created_stamped _ _ _ _ _) (hsave _)
  rw [key2]
  rw [upsert_last w.messages _ (updateMessage env (getActualDocument env d2)
    (stamp env (updateMessage env (getActualDocument env d1)
      (initMessage following markRead1 (NewMessage w.nextID))))) hfresh rfl]
  have hu : (stamp env (updateMessage env (getActualDocument env d1)
      (initMessage following markRead1 (NewMessage w.nextID)))).UserID = following.UserID := by
    rw [created_fields]; cases markRead1 <;> rfl
  have hurl1 : (stamp env (updateMessage env (getActualDocument env d1)
      (initMessage following markRead1 (NewMessage w.nextID)))).URL
      = (getActualDocument env d1).ID := by
    rw [created_fields]; cases markRead1 <;> rfl
  have hu2 : (updateMessage env (getActualDocument env d2)
      (stamp env (updateMessage env (getActualDocument env d1)
        (initMessage following markRead1 (NewMessage w.nextID))))).UserID = following.UserID := hu
  have hurl2 : (updateMessage env (getActualDocument env d2)
      (stamp env (updateMessage env (getActualDocument env d1)
        (initMessage following markRead1 (NewMessage w.nextID))))).URL
      = (getActualDocument env d1).ID := hurl
  refine ⟨rfl, rfl, ?_, ?_⟩
  · simp only [List.filter_append, hfilter, List.nil_append]
    rw [List.filter_cons_of_pos (by rw [hu, hurl1]; simp)]
    rfl
  · simp only [List.filter_append, hfilter, List.nil_append]
    rw [List.filter_cons_of_pos (by rw [hu2, hurl2]; simp)]
    rfl

/-- C4 (witness): the same note saved twice into the empty inbox. -/
theorem C4_idempotent_ingestion_witness :
    emptyWorld.WF = true ∧
    (saveMessage exampleEnv emptyWorld exampleFollowing (note "https://remote.example/n/1")
      false).1 = (true, none)
    ∧ (saveMessage exampleEnv (saveMessage exampleEnv emptyWorld exampleFollowing
        (note "https://remote.example/n/1") false).2 exampleFollowing
        (note "https://remote.example/n/1") true).1 = (false, none)
    ∧ ((saveMessage exampleEnv emptyWorld exampleFollowing (note "https://remote.example/n/1")
        false).2.messages.filter
        (fun m => m.UserID == exampleFollowing.UserID
          && m.URL == (getActualDocument exampleEnv (note "https://remote.example/n/1")).ID)).length
        = 1
    ∧ ((saveMessage exampleEnv (saveMessage exampleEnv emptyWorld exampleFollowing
        (note "https://remote.example/n/1") false).2 exampleFollowing
        (note "https://remote.example/n/1") true).2.messages.filter
        (fun m => m.UserID == exampleFollowing.UserID
          && m.URL == (getActualDocument exampleEnv (note "https://remote.example/n/1")).ID)).length
        = 1 :=
  ⟨by decide, C4_idempotent_ingestion exampleEnv emptyWorld exampleFollowing
    (note "https://remote.example/n/1") (note "https://remote.example/n/1") false true
    rfl rfl (fun _ => rfl) (by decide) (by simp [emptyWorld])⟩

/-- C5: when `saveMessage` finds a stored message for (user, canonical URL),
the message it saves has URL, Label, Summary, ImageURL, AttributedTo,
ContentHTML and PublishDate taken from the new document, and UserID, FolderID,
Origin and Read unchanged from the stored message, for either value of
`markRead`; it is the only message saved, and it replaces the stored one when
the write succeeds. -/
theorem C5_reingestion_updates_mutable_fields (env : Env) (w : World) (following : Following)
    (document : Document) (markRead : Bool) (found : Message)
    (hwf : w.WF = true)
    (hload : env.messageLoadErr following.UserID (getActualDocument env document).ID = none)
    (hfound : w.messages.find? (matchesURL following.UserID (getActualDocument env document).ID)
      = some found) :
    ∃ m, (saveMessage env w following document markRead).2.trace
        = w.trace ++ [.document document,
            .loadByURL following.UserID (getActualDocument env document).ID, .saveMessage m]
      ∧ (saveMessage env w following document markRead).2.messages
        = (match env.messageSaveErr m with
           | none => upsert w.messages m
           | some _ => w.messages)
      ∧ m.URL = (getActualDocument env document).ID
      ∧ m.Label = (getActualDocument env document).Name
      ∧ m.Summary = (getActualDocument env document).Summary
      ∧ m.ImageURL = (getActualDocument env document).ImageURL
      ∧ m.AttributedTo
          = env.ActivityPubPersonLinks (getActualDocument env document).AttributedTo
      ∧ m.ContentHTML = (getActualDocument env document).Content
      ∧ m.PublishDate = (getActualDocument env document).PublishedUnix
      ∧ m.MessageID = found.MessageID
      ∧ m.UserID = found.UserID
      ∧ m.FolderID = found.FolderID
      ∧ m.Origin = found.Origin
      ∧ m.Read = found.Read := by
  have hst : found.CreateDate ≠ 0 := WF_stamped w hwf found (List.mem_of_find?_eq_some hfound)
  have hnew : found.IsNew = false := by simp [Message.IsNew, hst]
  refine ⟨updateMessage env (getActualDocument env document) found, ?_, ?_, rfl, rfl, rfl, rfl,
    rfl, rfl, rfl, rfl, rfl, rfl, rfl, rfl⟩
  · rw [saveMessage_trace, loadOrNew_found env w _ _ _ found hload hfound]
    simp [hnew]
  · have hstamp :=
      stamp_of_stamped env (updateMessage env (getActualDocument env document) found) hst
    simp only [saveMessage, loadOrNew_found env w _ _ _ found hload hfound, hnew, Save,
      Bool.false_eq_true, if_false, hstamp, World.log]
    cases hs : env.messageSaveErr (updateMessage env (getActualDocument env document) found) <;>
      simp

/-- C5 (witness): the fifth note re-ingested into the inbox that holds it. -/
theorem C5_reingestion_updates_mutable_fields_witness :
    worldWithFifth.WF = true ∧
    ∃ m, (saveMessage exampleEnv worldWithFifth exampleFollowing
          (note "https://remote.example/n/6") false).2.trace
        = worldWithFifth.trace ++ [.document (note "https://remote.example/n/6"),
            .loadByURL exampleFollowing.UserID
              (getActualDocument exampleEnv (note "https://remote.example/n/6")).ID,
            .saveMessage m]
      ∧ (saveMessage exampleEnv worldWithFifth exampleFollowing
          (note "https://remote.example/n/6") false).2.messages
        = (match exampleEnv.messageSaveErr m with
           | none => upsert worldWithFifth.messages m
           | some _ => worldWithFifth.messages)
      ∧ m.URL = (getActualDocument exampleEnv (note "https://remote.example/n/6")).ID
      ∧ m.Label = (getActualDocument exampleEnv (note "https://remote.example/n/6")).Name
      ∧ m.Summary = (getActualDocument exampleEnv (note "https://remote.example/n/6")).Summary
      ∧ m.ImageURL = (getActualDocument exampleEnv (note "https://remote.example/n/6")).ImageURL
      ∧ m.AttributedTo = exampleEnv.ActivityPubPersonLinks
          (getActualDocument exampleEnv (note "https://remote.example/n/6")).AttributedTo
      ∧ m.ContentHTML = (getActualDocument exampleEnv (note "https://remote.example/n/6")).Content
      ∧ m.PublishDate
          = (getActualDocument exampleEnv (note "https://remote.example/n/6")).PublishedUnix
      ∧ m.MessageID = (NewMessage 40).MessageID
      ∧ m.UserID = 1
      ∧ m.FolderID = 2
      ∧ m.Origin = (NewMessage 40).Origin
      ∧ m.Read = true :=
  ⟨by decide, C5_reingestion_updates_mutable_fields exampleEnv worldWithFifth exampleFollowing
    (note "https://remote.example/n/6") false
    { NewMessage 40 with
      UserID := 1, FolderID := 2, URL := "https://remote.example/n/6", Read := true,
      CreateDate := 1600000000000 }
    (by decide) rfl (by decide)⟩

end Emissary

namespace Emissary

/-- C6: if the Loading status is persisted and `LoadActor` returns an error,
and the storage accepts the Failure record, then the records persisted by
`Connect` are Loading and then Failure, the Failure record carries the text of
the error as its status message, and the only calls `Connect` makes are the two
persists and `LoadActor`: no message is created or saved, the unread count is
not recomputed and no push subscription is attempted. -/
theorem C6_connect_failure_path (env : Env) (w : World) (following : Following) (e : Err)
    (hL : env.followingSaveErr (loadingRecord following) = none)
    (hA : env.LoadActor following.URL = .error e)
    (hF : env.followingSaveErr (failureRecord following e) = none) :
    (Connect env w following).2.persisted
        = w.persisted ++ [loadingRecord following, failureRecord following e]
    ∧ (loadingRecord following).Status = .Loading
    ∧ (failureRecord following e).Status = .Failure
    ∧ (failureRecord following e).StatusMessage = e.Error
    ∧ (Connect env w following).2.trace
        = w.trace ++ [.saveFollowing (loadingRecord following), .loadActor following.URL,
            .saveFollowing (failureRecord following e)]
    ∧ (Connect env w following).2.messages = w.messages := by
  rw [Connect_unresolved env w following e hL hA, hF]
  exact ⟨rfl, rfl, rfl, rfl, rfl, rfl⟩

/-- C6 (witness): the New Following against a server that cannot be reached. -/
theorem C6_connect_failure_path_witness :
    exampleFollowing.Status = .New ∧
    (Connect unreachableEnv emptyWorld exampleFollowing).2.persisted
        = emptyWorld.persisted ++ [loadingRecord exampleFollowing,
            failureRecord exampleFollowing (Err.base 500 "dial tcp: connection refused")]
    ∧ (loadingRecord exampleFollowing).Status = .Loading
    ∧ (failureRecord exampleFollowing (Err.base 500 "dial tcp: connection refused")).Status
        = .Failure
    ∧ (failureRecord exampleFollowing
        (Err.base 500 "dial tcp: connection refused")).StatusMessage
        = (Err.base 500 "dial tcp: connection refused").Error
    ∧ (Connect unreachableEnv emptyWorld exampleFollowing).2.trace
        = emptyWorld.trace ++ [.saveFollowing (loadingRecord exampleFollowing),
            .loadActor exampleFollowing.URL,
            .saveFollowing (failureRecord exampleFollowing
              (Err.base 500 "dial tcp: connection refused"))]
    ∧ (Connect unreachableEnv emptyWorld exampleFollowing).2.messages = emptyWorld.messages :=
  ⟨rfl, C6_connect_failure_path unreachableEnv emptyWorld exampleFollowing
    (Err.base 500 "dial tcp: connection refused") rfl rfl rfl⟩

/-- C7 (the code at the failing input): `LoadActor` returns an error and the
Failure status is persisted, and `Connect` returns nil: the guard around the
persist tests the error of `LoadActor`, so the function returns the wrap of the
nil error of the persist and never reaches the statement that returns the
error of `LoadActor`. -/
theorem C7_resolution_error_not_returned :
    unreachableEnv.LoadActor exampleFollowing.URL
        = .error (Err.base 500 "dial tcp: connection refused")
    ∧ unreachableEnv.followingSaveErr
        (failureRecord exampleFollowing (Err.base 500 "dial tcp: connection refused")) = none
    ∧ (Connect unreachableEnv emptyWorld exampleFollowing).1 = none
    ∧ (Connect unreachableEnv emptyWorld exampleFollowing).1
        ≠ some (Err.base 500 "dial tcp: connection refused") := by
  refine ⟨rfl, rfl, ?_, ?_⟩ <;> decide

/-- C8: whatever the status of the Following, the first call of `Connect` is
the persist of the record with status Loading.  If that persist fails,
`Connect` returns the wrapped error and has made no other call: `LoadActor` is
not invoked and no message is touched.  If it succeeds, the Loading record is
persisted and `LoadActor` is the next call. -/
theorem C8_loading_first (env : Env) (w : World) (following : Following) :
    (loadingRecord following).Status = .Loading ∧
    match env.followingSaveErr (loadingRecord following) with
    | some e =>
      (Connect env w following).1
          = some (Err.wrap e "service.Following.Connect" "Error updating following status")
        ∧ (Connect env w following).2.trace
          = w.trace ++ [.saveFollowing (loadingRecord following)]
        ∧ (Connect env w following).2.messages = w.messages
        ∧ (Connect env w following).2.persisted = w.persisted
    | none =>
      ∃ rest ps, (Connect env w following).2.trace
          = w.trace ++ .saveFollowing (loadingRecord following)
              :: .loadActor following.URL :: rest
        ∧ (Connect env w following).2.persisted
          = w.persisted ++ loadingRecord following :: ps := by
  refine ⟨rfl, ?_⟩
  cases hL : env.followingSaveErr (loadingRecord following) with
  | some e =>
    simp only
    rw [Connect_loading_fails env w following e hL]
    exact ⟨rfl, rfl, rfl, rfl⟩
  | none =>
    simp only
    cases hA : env.LoadActor following.URL with
    | error e =>
      rw [Connect_unresolved env w following e hL hA]
      cases env.followingSaveErr (failureRecord following e) with
      | some _ => exact ⟨[.saveFollowing (failureRecord following e)], [], rfl, rfl⟩
      | none =>
        exact ⟨[.saveFollowing (failureRecord following e)], [failureRecord following e],
          rfl, rfl⟩
    | ok actor =>
      cases hS : env.followingSaveErr (successRecord following actor) with
      | some e =>
        rw [Connect_success_fails env w following actor e hL hA hS]
        exact ⟨[.saveFollowing (successRecord following actor)], [], rfl, rfl⟩
      | none =>
        rw [Connect_resolved env w following actor hL hA hS]
        obtain ⟨t, ht, _⟩ := ingest_events env (decide (following.Status = .New))
          (successRecord following actor) (fun _ => True) (fun _ => trivial)
          (fun _ _ => trivial) (fun _ => trivial) trivial (fun _ _ _ => trivial) actor.Outbox 0
          { w with
            trace := w.trace ++ [.saveFollowing (loadingRecord following),
              .loadActor following.URL, .saveFollowing (successRecord following actor)]
            persisted := w.persisted ++ [loadingRecord following,
              successRecord following actor] }
        have hp := ingest_persisted env (decide (following.Status = .New))
          (successRecord following actor) actor.Outbox 0
          { w with
            trace := w.trace ++ [.saveFollowing (loadingRecord following),
              .loadActor following.URL, .saveFollowing (successRecord following actor)]
            persisted := w.persisted ++ [loadingRecord following,
              successRecord following actor] }
        cases env.recalcErr following.UserID following.FolderID with
        | some err =>
          refine ⟨.saveFollowing (successRecord following actor) :: t
            ++ [.recalculateUnread following.UserID following.FolderID],
            [successRecord following actor], ?_, ?_⟩
          · simp [World.log, ht]
          · simp [World.log, hp]
        | none =>
          obtain ⟨b, hb, _, _, hbp⟩ := connect_PushServices_events env
            ((ingest env (decide (following.Status = .New)) (successRecord following actor)
              actor.Outbox 0
              { w with
                trace := w.trace ++ [.saveFollowing (loadingRecord following),
                  .loadActor following.URL, .saveFollowing (successRecord following actor)]
                persisted := w.persisted ++ [loadingRecord following,
                  successRecord following actor] }).log
             (.recalculateUnread following.UserID following.FolderID))
            (successRecord following actor) actor (fun _ => True) trivial (fun _ => trivial)
            (fun _ => trivial)
          refine ⟨.saveFollowing (successRecord following actor) :: t
            ++ [.recalculateUnread following.UserID following.FolderID] ++ b,
            [successRecord following actor], ?_, ?_⟩
          · rw [hb]; simp [World.log, ht]
          · rw [hbp]; simp [World.log, hp]

end Emissary

namespace Emissary

/-- C9: when the Loading status is persisted and the actor is resolved, the
record that `Connect` persists next has the actor's name, id, icon-or-image
URL and format as its Label, ProfileURL, ImageURL and Format and has status
Success, and this persist precedes every call about a message.  If it fails,
`Connect` returns that error (wrapped with the location of `Connect`) and has
made no call about a message; if it succeeds, the record is persisted and
stays the last persisted record. -/
theorem C9_success_before_ingest (env : Env) (w : World) (following : Following)
    (actor : Actor)
    (hL : env.followingSaveErr (loadingRecord following) = none)
    (hA : env.LoadActor following.URL = .ok actor) :
    (successRecord following actor).Label = actor.Name
    ∧ (successRecord following actor).ProfileURL = actor.ID
    ∧ (successRecord following actor).ImageURL = actor.IconOrImageURL
    ∧ (successRecord following actor).Format = actor.Format
    ∧ (successRecord following actor).Status = .Success
    ∧ match env.followingSaveErr (successRecord following actor) with
      | some e =>
        (Connect env w following).1
            = some (Err.wrap e "service.Following.Connect" "Error setting status")
          ∧ (Connect env w following).2.trace
            = w.trace ++ [.saveFollowing (loadingRecord following), .loadActor following.URL,
                .saveFollowing (successRecord following actor)]
          ∧ (Connect env w following).2.messages = w.messages
          ∧ (Connect env w following).2.persisted = w.persisted ++ [loadingRecord following]
      | none =>
        ∃ rest, (Connect env w following).2.trace
            = w.trace ++ [.saveFollowing (loadingRecord following), .loadActor following.URL,
                .saveFollowing (successRecord following actor)] ++ rest
          ∧ rest.filterMap Event.following? = []
          ∧ (Connect env w following).2.persisted
            = w.persisted ++ [loadingRecord following, successRecord following actor] := by
  refine ⟨rfl, rfl, rfl, rfl, rfl, ?_⟩
  cases hS : env.followingSaveErr (successRecord following actor) with
  | some e =>
    simp only
    rw [Connect_success_fails env w following actor e hL hA hS]
    exact ⟨rfl, rfl, rfl, rfl⟩
  | none =>
    simp only
    rw [Connect_resolved env w following actor hL hA hS]
    obtain ⟨t, ht, hall⟩ := ingest_events env (decide (following.Status = .New))
      (successRecord following actor) (fun e => e.following? = none) (fun _ => rfl)
      (fun _ _ => rfl) (fun _ => rfl) rfl (fun _ _ _ => rfl) actor.Outbox 0
      { w with
        trace := w.trace ++ [.saveFollowing (loadingRecord following),
          .loadActor following.URL, .saveFollowing (successRecord following actor)]
        persisted := w.persisted ++ [loadingRecord following,
          successRecord following actor] }
    have hp := ingest_persisted env (decide (following.Status = .New))
      (successRecord following actor) actor.Outbox 0
      { w with
        trace := w.trace ++ [.saveFollowing (loadingRecord following),
          .loadActor following.URL, .saveFollowing (successRecord following actor)]
        persisted := w.persisted ++ [loadingRecord following,
          successRecord following actor] }
    have hnil : ∀ (l : List Event), (∀ e ∈ l, e.following? = none)
        → l.filterMap Event.following? = [] := by
      intro l hl
      rw [List.filterMap_eq_nil_iff]
      exact hl
    cases env.recalcErr following.UserID following.FolderID with
    | some err =>
      refine ⟨t ++ [.recalculateUnread following.UserID following.FolderID], ?_, ?_, ?_⟩
      · simp [World.log, ht]
      · apply hnil
        intro e he
        simp only [List.mem_append, List.mem_singleton] at he
        rcases he with h | h
        · exact hall e h
        · subst h; rfl
      · simp [World.log, hp]
    | none =>
      obtain ⟨b, hb, hball, _, hbp⟩ := connect_PushServices_events env
        ((ingest env (decide (following.Status = .New)) (successRecord following actor)
          actor.Outbox 0
          { w with
            trace := w.trace ++ [.saveFollowing (loadingRecord following),
              .loadActor following.URL, .saveFollowing (successRecord following actor)]
            persisted := w.persisted ++ [loadingRecord following,
              successRecord following actor] }).log
         (.recalculateUnread following.UserID following.FolderID))
        (successRecord following actor) actor (fun e => e.following? = none) rfl (fun _ => rfl)
        (fun _ => rfl)
      refine ⟨t ++ [.recalculateUnread following.UserID following.FolderID] ++ b, ?_, ?_, ?_⟩
      · rw [hb]; simp [World.log, ht]
      · apply hnil
        intro e he
        simp only [List.mem_append, List.mem_singleton] at he
        rcases he with (h | h) | h
        · exact hall e h
        · subst h; rfl
        · exact hball e h
      · rw [hbp]; simp [World.log, hp]

/-- C9 (witness): the storage refuses the Success record of the New Following. -/
theorem C9_success_before_ingest_witness :
    successFailsEnv.followingSaveErr (successRecord exampleFollowing exampleActor)
      = some (Err.base 500 "write conflict")
    ∧ (successRecord exampleFollowing exampleActor).Label = exampleActor.Name
    ∧ (successRecord exampleFollowing exampleActor).ProfileURL = exampleActor.ID
    ∧ (successRecord exampleFollowing exampleActor).ImageURL = exampleActor.IconOrImageURL
    ∧ (successRecord exampleFollowing exampleActor).Format = exampleActor.Format
    ∧ (successRecord exampleFollowing exampleActor).Status = .Success
    ∧ match successFailsEnv.followingSaveErr (successRecord exampleFollowing exampleActor) with
      | some e =>
        (Connect successFailsEnv emptyWorld exampleFollowing).1
            = some (Err.wrap e "service.Following.Connect" "Error setting status")
          ∧ (Connect successFailsEnv emptyWorld exampleFollowing).2.trace
            = emptyWorld.trace ++ [.saveFollowing (loadingRecord exampleFollowing),
                .loadActor exampleFollowing.URL,
                .saveFollowing (successRecord exampleFollowing exampleActor)]
          ∧ (Connect successFailsEnv emptyWorld exampleFollowing).2.messages
            = emptyWorld.messages
          ∧ (Connect successFailsEnv emptyWorld exampleFollowing).2.persisted
            = emptyWorld.persisted ++ [loadingRecord exampleFollowing]
      | none =>
        ∃ rest, (Connect successFailsEnv emptyWorld exampleFollowing).2.trace
            = emptyWorld.trace ++ [.saveFollowing (loadingRecord exampleFollowing),
                .loadActor exampleFollowing.URL,
                .saveFollowing (successRecord exampleFollowing exampleActor)] ++ rest
          ∧ rest.filterMap Event.following? = []
          ∧ (Connect successFailsEnv emptyWorld exampleFollowing).2.persisted
            = emptyWorld.persisted ++ [loadingRecord exampleFollowing,
                successRecord exampleFollowing exampleActor] :=
  ⟨by decide, C9_success_before_ingest successFailsEnv emptyWorld exampleFollowing exampleActor
    (by decide) rfl⟩

/-- C10 (counterexample): every write of a message fails, `saveMessage` fails
on the first document with an error that wraps the storage error, `Connect`
reports that error, and `Connect` returns nil. -/
theorem C10_counterexample :
    (saveMessage diskFullEnv emptyWorld exampleFollowing (note "https://remote.example/n/10")
      false).1
      = (false, some (Err.wrap (Err.wrap (Err.base 500 "disk full")
          "service.Activity" "Error saving Activity")
          "service.Following.saveMessage" "Error saving message"))
    ∧ Event.report (Err.wrap (Err.wrap (Err.wrap (Err.base 500 "disk full")
          "service.Activity" "Error saving Activity")
          "service.Following.saveMessage" "Error saving message")
          "service.Following.Connect" "Error saving document")
        ∈ (Connect diskFullEnv emptyWorld exampleFollowing).2.trace
    ∧ (Connect diskFullEnv emptyWorld exampleFollowing).1 = none := by
  refine ⟨?_, ?_, ?_⟩ <;> decide

/-- C10 (amended): when the lookup or the write of the message of some document
of the outbox fails, `Connect` processes no document behind it (its loop runs
as on the outbox that ends with that document), and it does not return that
error: it goes on to the unread recount and returns nil, or the wrapped error
of the recount when the recount fails. -/
theorem C10_storage_error_stops_ingest (env : Env) (w : World) (following : Following)
    (actor : Actor) (pre : List Document) (d : Document) (rest : List Document)
    (hL : env.followingSaveErr (loadingRecord following) = none)
    (hA : env.LoadActor following.URL = .ok actor)
    (hS : env.followingSaveErr (successRecord following actor) = none)
    (hout : actor.Outbox = pre ++ d :: rest)
    (hfail : (∃ x, env.messageLoadErr following.UserID (canonicalURL env d) = some x
        ∧ derp.NotFound x = false)
      ∨ (∀ m, m.URL = canonicalURL env d → env.messageSaveErr m ≠ none)) :
    (Connect env w following).1
        = derp.Wrap (env.recalcErr following.UserID following.FolderID)
            "service.Following.Connect" "Error recalculating unread count"
    ∧ Connect env w following
        = match env.recalcErr following.UserID following.FolderID with
          | some err =>
            (some (Err.wrap err "service.Following.Connect" "Error recalculating unread count"),
             (ingest env (decide (following.Status = .New)) (successRecord following actor)
                (pre ++ [d]) 0
                { w with
                  trace := w.trace ++ [.saveFollowing (loadingRecord following),
                    .loadActor following.URL, .saveFollowing (successRecord following actor)]
                  persisted := w.persisted ++ [loadingRecord following,
                    successRecord following actor] }).log
               (.recalculateUnread following.UserID following.FolderID))
          | none =>
            (none,
             connect_PushServices env
              ((ingest env (decide (following.Status = .New)) (successRecord following actor)
                (pre ++ [d]) 0
                { w with
                  trace := w.trace ++ [.saveFollowing (loadingRecord following),
                    .loadActor following.URL, .saveFollowing (successRecord following actor)]
                  persisted := w.persisted ++ [loadingRecord following,
                    successRecord following actor] }).log
               (.recalculateUnread following.UserID following.FolderID))
              (successRecord following actor) actor) := by
  have htr := ingest_truncate env (decide (following.Status = .New))
    (successRecord following actor) d rest pre 0
    { w with
      trace := w.trace ++ [.saveFollowing (loadingRecord following),
        .loadActor following.URL, .saveFollowing (successRecord following actor)]
      persisted := w.persisted ++ [loadingRecord following, successRecord following actor] }
    (saveMessage_fault_not_created env _ (successRecord following actor)
      (getActualDocument env d) _ hfail)
  constructor
  · rw [Connect_resolved env w following actor hL hA hS]
    cases env.recalcErr following.UserID following.FolderID <;> rfl
  · rw [Connect_resolved env w following actor hL hA hS, hout, htr]

/-- C10 (witness): the write of every message fails and the outbox holds the
ten notes. -/
theorem C10_storage_error_stops_ingest_witness :
    (∀ m : Message, m.URL = canonicalURL diskFullEnv (note "https://remote.example/n/10")
      → diskFullEnv.messageSaveErr m ≠ none)
    ∧ (Connect diskFullEnv emptyWorld exampleFollowing).1 = none
    ∧ (Connect diskFullEnv emptyWorld exampleFollowing).2.trace.filterMap Event.lookup?
        = [(1, "https://remote.example/n/10")] :=
  ⟨fun _ _ => by simp [diskFullEnv],
   (C10_storage_error_stops_ingest diskFullEnv emptyWorld exampleFollowing exampleActor []
    (note "https://remote.example/n/10") (tenNotes.drop 1) rfl rfl rfl (by decide)
    (Or.inr (fun _ _ => by simp [diskFullEnv]))).1.trans rfl,
   by decide⟩

end Emissary

namespace Emissary

/-- C11 (counterexample): the write of the first of ten new notes fails and
every other write would succeed; `Connect` reports the error and then stops:
it looks up no other note and stores none, so the second note, which is not
stored and could be saved, is not saved. -/
theorem C11_counterexample :
    Event.report (Err.wrap (Err.wrap (Err.wrap (Err.base 500 "disk full")
          "service.Activity" "Error saving Activity")
          "service.Following.saveMessage" "Error saving message")
          "service.Following.Connect" "Error saving document")
        ∈ (Connect firstItemFailsEnv emptyWorld exampleFollowing).2.trace
    ∧ (∀ m : Message, m.URL = "https://remote.example/n/9"
        → firstItemFailsEnv.messageSaveErr m = none)
    ∧ Stored emptyWorld 1 "https://remote.example/n/9" = false
    ∧ (Connect firstItemFailsEnv emptyWorld exampleFollowing).2.trace.filterMap Event.lookup?
        = [(1, "https://remote.example/n/10")]
    ∧ Stored (Connect firstItemFailsEnv emptyWorld exampleFollowing).2 1
        "https://remote.example/n/9" = false := by
  refine ⟨by decide, ?_, by decide, by decide, by decide⟩
  intro m hm
  simp [firstItemFailsEnv, hm]

/-- C11 (amended): an error of `saveMessage` on one document ends the loop: when
the lookup or the write of the message of a document fails, no document behind
it is processed, so a later document that is not stored (and whose canonical
URL is not that of a document up to the failing one) is still not stored when
`Connect` returns. -/
theorem C11_error_ends_loop (env : Env) (w : World) (following : Following)
    (actor : Actor) (pre : List Document) (d : Document) (rest : List Document)
    (hL : env.followingSaveErr (loadingRecord following) = none)
    (hA : env.LoadActor following.URL = .ok actor)
    (hS : env.followingSaveErr (successRecord following actor) = none)
    (hout : actor.Outbox = pre ++ d :: rest)
    (hfail : (∃ x, env.messageLoadErr following.UserID (canonicalURL env d) = some x
        ∧ derp.NotFound x = false)
      ∨ (∀ m, m.URL = canonicalURL env d → env.messageSaveErr m ≠ none)) :
    ∀ x ∈ rest, Stored w following.UserID (canonicalURL env x) = false →
      canonicalURL env x ∉ (pre ++ [d]).map (canonicalURL env) →
      Stored (Connect env w following).2 following.UserID (canonicalURL env x) = false := by
  intro x _ hns hnot
  have htr := ingest_truncate env (decide (following.Status = .New))
    (successRecord following actor) d rest pre 0
    { w with
      trace := w.trace ++ [.saveFollowing (loadingRecord following),
        .loadActor following.URL, .saveFollowing (successRecord following actor)]
      persisted := w.persisted ++ [loadingRecord following, successRecord following actor] }
    (saveMessage_fault_not_created env _ (successRecord following actor)
      (getActualDocument env d) _ hfail)
  have hst := ingest_stored env (decide (following.Status = .New))
    (successRecord following actor) following.UserID (canonicalURL env x) (pre ++ [d]) 0
    { w with
      trace := w.trace ++ [.saveFollowing (loadingRecord following),
        .loadActor following.URL, .saveFollowing (successRecord following actor)]
      persisted := w.persisted ++ [loadingRecord following, successRecord following actor] }
  have hmsg : (Connect env w following).2.messages
      = (ingest env (decide (following.Status = .New)) (successRecord following actor)
          (pre ++ [d]) 0
          { w with
            trace := w.trace ++ [.saveFollowing (loadingRecord following),
              .loadActor following.URL, .saveFollowing (successRecord following actor)]
            persisted := w.persisted ++ [loadingRecord following,
              successRecord following actor] }).messages := by
    rw [Connect_resolved env w following actor hL hA hS, hout, htr]
    cases env.recalcErr following.UserID following.FolderID with
    | some err => rfl
    | none =>
      obtain ⟨_, _, _, hm, _⟩ := connect_PushServices_events env
        ((ingest env (decide (following.Status = .New)) (successRecord following actor)
          (pre ++ [d]) 0
          { w with
            trace := w.trace ++ [.saveFollowing (loadingRecord following),
              .loadActor following.URL, .saveFollowing (successRecord following actor)]
            persisted := w.persisted ++ [loadingRecord following,
              successRecord following actor] }).log
         (.recalculateUnread following.UserID following.FolderID))
        (successRecord following actor) actor (fun _ => True) trivial (fun _ => trivial)
        (fun _ => trivial)
      exact hm
  cases hc : Stored (Connect env w following).2 following.UserID (canonicalURL env x) with
  | false => rfl
  | true =>
    have h2 : Stored (ingest env (decide (following.Status = .New))
        (successRecord following actor) (pre ++ [d]) 0
        { w with
          trace := w.trace ++ [.saveFollowing (loadingRecord following),
            .loadActor following.URL, .saveFollowing (successRecord following actor)]
          persisted := w.persisted ++ [loadingRecord following,
            successRecord following actor] }) following.UserID (canonicalURL env x) = true := by
      simp only [Stored] at hc ⊢
      rw [← hmsg]
      exact hc
    rcases hst h2 with h3 | h3
    · have h4 : Stored w following.UserID (canonicalURL env x) = true := h3
      rw [hns] at h4
      exact absurd h4 (by decide)
    · exact absurd h3 hnot

/-- C11 (witness): the write of the first note fails; the second note stays
out of the inbox. -/
theorem C11_error_ends_loop_witness :
    (∀ m : Message, m.URL = canonicalURL firstItemFailsEnv (note "https://remote.example/n/10")
      → firstItemFailsEnv.messageSaveErr m ≠ none)
    ∧ Stored (Connect firstItemFailsEnv emptyWorld exampleFollowing).2 exampleFollowing.UserID
        (canonicalURL firstItemFailsEnv (note "https://remote.example/n/9")) = false :=
  ⟨fun m hm => by
      have hm2 : m.URL = "https://remote.example/n/10" := hm
      simp [firstItemFailsEnv, hm2],
   C11_error_ends_loop firstItemFailsEnv emptyWorld exampleFollowing exampleActor []
    (note "https://remote.example/n/10") (tenNotes.drop 1) rfl rfl rfl (by decide)
    (Or.inr (fun m hm => by
      have hm2 : m.URL = "https://remote.example/n/10" := hm
      simp [firstItemFailsEnv, hm2]))
    (note "https://remote.example/n/9") (by decide) (by decide) (by decide)⟩

/-- C12: once the Loading persist, the resolution and the Success persist have
succeeded, `Connect` calls the unread recount exactly once, with the UserID and
FolderID of the Following, after every event of the ingestion loop (whether the
loop ran through the outbox or stopped early) and before every event of the
push subscription; its result is nil when the recount succeeds and the wrapped
error of the recount when it fails, and in that case no push subscription is
attempted. -/
theorem C12_recount_once_after_loop (env : Env) (w : World) (following : Following)
    (actor : Actor)
    (hL : env.followingSaveErr (loadingRecord following) = none)
    (hA : env.LoadActor following.URL = .ok actor)
    (hS : env.followingSaveErr (successRecord following actor) = none) :
    ∃ t b, (Connect env w following).2.trace
        = w.trace ++ [.saveFollowing (loadingRecord following), .loadActor following.URL,
            .saveFollowing (successRecord following actor)] ++ t
          ++ [.recalculateUnread following.UserID following.FolderID] ++ b
      ∧ t.all Event.isLoop = true
      ∧ b.all Event.isPush = true
      ∧ (Connect env w following).1
          = derp.Wrap (env.recalcErr following.UserID following.FolderID)
              "service.Following.Connect" "Error recalculating unread count"
      ∧ (match env.recalcErr following.UserID following.FolderID with
         | some _ => b = []
         | none => True) := by
  rw [Connect_resolved env w following actor hL hA hS]
  obtain ⟨t, ht, hall⟩ := ingest_events env (decide (following.Status = .New))
    (successRecord following actor) (fun e => e.isLoop = true) (fun _ => rfl)
    (fun _ _ => rfl) (fun _ => rfl) rfl (fun _ _ _ => rfl) actor.Outbox 0
    { w with
      trace := w.trace ++ [.saveFollowing (loadingRecord following),
        .loadActor following.URL, .saveFollowing (successRecord following actor)]
      persisted := w.persisted ++ [loadingRecord following, successRecord following actor] }
  have hallt : t.all Event.isLoop = true := by
    rw [List.all_eq_true]; exact hall
  cases env.recalcErr following.UserID following.FolderID with
  | some err =>
    refine ⟨t, [], ?_, hallt, rfl, rfl, rfl⟩
    simp [World.log, ht]
  | none =>
    obtain ⟨b, hb, hball, _, _⟩ := connect_PushServices_events env
      ((ingest env (decide (following.Status = .New)) (successRecord following actor)
        actor.Outbox 0
        { w with
          trace := w.trace ++ [.saveFollowing (loadingRecord following),
            .loadActor following.URL, .saveFollowing (successRecord following actor)]
          persisted := w.persisted ++ [loadingRecord following,
            successRecord following actor] }).log
       (.recalculateUnread following.UserID following.FolderID))
      (successRecord following actor) actor (fun e => e.isPush = true) rfl (fun _ => rfl)
      (fun _ => rfl)
    refine ⟨t, b, ?_, hallt, ?_, rfl, trivial⟩
    · rw [hb]; simp [World.log, ht]
    · rw [List.all_eq_true]; exact hball

/-- C12 (witness): the recount fails after the ten notes were ingested. -/
theorem C12_recount_once_after_loop_witness :
    recountFailsEnv.recalcErr exampleFollowing.UserID exampleFollowing.FolderID
      = some (Err.base 500 "folder not found")
    ∧ ∃ t b, (Connect recountFailsEnv emptyWorld exampleFollowing).2.trace
        = emptyWorld.trace ++ [.saveFollowing (loadingRecord exampleFollowing),
            .loadActor exampleFollowing.URL,
            .saveFollowing (successRecord exampleFollowing exampleActor)] ++ t
          ++ [.recalculateUnread exampleFollowing.UserID exampleFollowing.FolderID] ++ b
      ∧ t.all Event.isLoop = true
      ∧ b.all Event.isPush = true
      ∧ (Connect recountFailsEnv emptyWorld exampleFollowing).1
          = derp.Wrap (recountFailsEnv.recalcErr exampleFollowing.UserID
              exampleFollowing.FolderID)
              "service.Following.Connect" "Error recalculating unread count"
      ∧ (match recountFailsEnv.recalcErr exampleFollowing.UserID exampleFollowing.FolderID with
         | some _ => b = []
         | none => True) :=
  ⟨rfl, C12_recount_once_after_loop recountFailsEnv emptyWorld exampleFollowing exampleActor
    rfl rfl rfl⟩

end Emissary

namespace Emissary

/-! ## The claims about the Response service -/

/-- C13: when the lookup finds a Response for (actor, message) with the
requested type and the requested value, `SetResponse` returns success and its
only call is the lookup: no delete, no save, no marker update, no Publish and
no UnPublish; the stored responses and the markers are unchanged. -/
theorem C13_identical_response_is_noop (env : ResponseEnv) (w : ResponseWorld)
    (actor : PersonLink) (message : DocumentLink) (responseType value : String)
    (old : Response)
    (hload : env.loadErr actor.UserID message.ID = none)
    (hfound : w.responses.find? (matchesMessage actor.UserID message.ID) = some old)
    (htype : old.ResponseType = responseType) (hvalue : old.Value = value) :
    (Response.SetResponse env w actor message responseType value).1 = none
    ∧ (Response.SetResponse env w actor message responseType value).2.trace
        = w.trace ++ [.load actor.UserID message.ID]
    ∧ (Response.SetResponse env w actor message responseType value).2.responses = w.responses
    ∧ (Response.SetResponse env w actor message responseType value).2.markers = w.markers := by
  have key : Response.SetResponse env w actor message responseType value
      = (none, ({ w with nextID := w.nextID + 1 }).log (.load actor.UserID message.ID)) := by
    simp only [Response.SetResponse, LoadByMessageID_found env w _ _ old hload hfound, htype,
      hvalue, and_self, if_true]
  rw [key]
  exact ⟨rfl, rfl, rfl, rfl⟩

/-- C13 (witness): `SetResponse(A, M, "Like", "")` called twice; the second call
only looks the Response up. -/
theorem C13_identical_response_is_noop_witness :
    (Response.SetResponse responseEnv
        (Response.SetResponse responseEnv noResponses alice someMessage "Like" "").2
        alice someMessage "Like" "").1 = none
    ∧ (Response.SetResponse responseEnv
        (Response.SetResponse responseEnv noResponses alice someMessage "Like" "").2
        alice someMessage "Like" "").2.trace
        = (Response.SetResponse responseEnv noResponses alice someMessage "Like" "").2.trace
          ++ [.load alice.UserID someMessage.ID]
    ∧ (Response.SetResponse responseEnv
        (Response.SetResponse responseEnv noResponses alice someMessage "Like" "").2
        alice someMessage "Like" "").2.responses
        = (Response.SetResponse responseEnv noResponses alice someMessage "Like" "").2.responses
    ∧ (Response.SetResponse responseEnv
        (Response.SetResponse responseEnv noResponses alice someMessage "Like" "").2
        alice someMessage "Like" "").2.markers
        = (Response.SetResponse responseEnv noResponses alice someMessage "Like" "").2.markers :=
  C13_identical_response_is_noop responseEnv
    (Response.SetResponse responseEnv noResponses alice someMessage "Like" "").2
    alice someMessage "Like" ""
    (requestedResponse 201 alice someMessage "Like" "")
    rfl (by decide) rfl rfl

/-- C14: with an empty requested type, when the lookup finds a Response with a
non-empty type and no call fails, `SetResponse` returns success; its calls are
the lookup, the marker write, the hard delete of that Response and one
UnPublish; there is no save and no Publish, and the Response is gone from the
storage. -/
theorem C14_delete_only (env : ResponseEnv) (w : ResponseWorld)
    (actor : PersonLink) (message : DocumentLink) (value : String) (old : Response)
    (hload : env.loadErr actor.UserID message.ID = none)
    (hfound : w.responses.find? (matchesMessage actor.UserID message.ID) = some old)
    (htype : old.ResponseType ≠ "")
    (hmark : env.markerErr actor.UserID message.ID "" = none)
    (hdel : env.deleteErr old.ResponseID = none)
    (hun : env.unPublishErr actor.UserID old.ResponseID = none) :
    (Response.SetResponse env w actor message "" value).1 = none
    ∧ (Response.SetResponse env w actor message "" value).2.trace
        = w.trace ++ [.load actor.UserID message.ID,
            .setResponse actor.UserID message.ID "",
            .hardDelete old.ResponseID,
            .unPublish actor.UserID old.ResponseID (pub.Undo old.GetJSONLD)]
    ∧ (Response.SetResponse env w actor message "" value).2.responses
        = w.responses.filter (fun r => r.ResponseID != old.ResponseID)
    ∧ old ∉ (Response.SetResponse env w actor message "" value).2.responses := by
  obtain ⟨hu, hm, _⟩ := found_matches w _ _ old hfound
  have hdiff : ¬ (old.ResponseType = "" ∧ old.Value = value) := fun h => htype h.1
  have hrun := Response_Delete_run env
    (({ w with nextID := w.nextID + 1 }).log (.load actor.UserID message.ID)) old
    (by rw [hu, hm]; exact hmark) hdel
  rw [hu, hm, hun] at hrun
  have key : Response.SetResponse env w actor message "" value
      = (none,
         { responses := w.responses.filter (fun r => r.ResponseID != old.ResponseID)
           markers := fun u m =>
             if u = actor.UserID ∧ m = message.ID then "" else w.markers u m
           nextID := w.nextID + 1
           trace := w.trace ++ [.load actor.UserID message.ID] ++
             [.setResponse actor.UserID message.ID "",
              .hardDelete old.ResponseID,
              .unPublish actor.UserID old.ResponseID (pub.Undo old.GetJSONLD)] }) := by
    simp only [Response.SetResponse, LoadByMessageID_found env w _ _ old hload hfound, hdiff,
      if_false, hrun, derp.Wrap, createResponse, if_true]
    rfl
  rw [key]
  refine ⟨rfl, ?_, rfl, ?_⟩
  · simp
  · simp [List.mem_filter]

/-- C14 (witness): the Like of the examples is withdrawn. -/
theorem C14_delete_only_witness :
    aliceLike.ResponseType ≠ ""
    ∧ (Response.SetResponse responseEnv likedWorld alice someMessage "" "").1 = none
    ∧ (Response.SetResponse responseEnv likedWorld alice someMessage "" "").2.trace
        = likedWorld.trace ++ [.load alice.UserID someMessage.ID,
            .setResponse alice.UserID someMessage.ID "",
            .hardDelete aliceLike.ResponseID,
            .unPublish alice.UserID aliceLike.ResponseID (pub.Undo aliceLike.GetJSONLD)]
    ∧ (Response.SetResponse responseEnv likedWorld alice someMessage "" "").2.responses
        = likedWorld.responses.filter (fun r => r.ResponseID != aliceLike.ResponseID)
    ∧ aliceLike ∉ (Response.SetResponse responseEnv likedWorld alice someMessage "" "").2.responses :=
  ⟨by decide, C14_delete_only responseEnv likedWorld alice someMessage "" aliceLike rfl
    (by decide) (by decide) rfl rfl rfl⟩

end Emissary

namespace Emissary

/-- C15: when the lookup finds the one Response of (actor, message), it differs
from the request in type or value, the requested type is not empty and no call
fails, `SetResponse` returns success; it first deletes the old Response (marker
cleared, hard delete, one UnPublish) and only then saves the new one (marker
written, save, one Publish); afterwards the storage holds exactly one Response
for (actor, message), with the requested type, value, actor and message. -/
theorem C15_supersession (env : ResponseEnv) (w : ResponseWorld)
    (actor : PersonLink) (message : DocumentLink) (responseType value : String)
    (old : Response)
    (hwf : w.WF = true)
    (hone : responsesFor w actor.UserID message.ID = [old])
    (hload : env.loadErr actor.UserID message.ID = none)
    (hdiff : ¬ (old.ResponseType = responseType ∧ old.Value = value))
    (htype : responseType ≠ "")
    (hmark0 : env.markerErr actor.UserID message.ID "" = none)
    (hdel : env.deleteErr old.ResponseID = none)
    (hun : env.unPublishErr actor.UserID old.ResponseID = none)
    (hclean : ∀ r, env.cleanErr r = none)
    (hmark1 : env.markerErr actor.UserID message.ID responseType = none)
    (hsave : ∀ r, env.saveErr r = none)
    (hpub : env.publishErr (w.nextID + 1) actor.UserID = none) :
    ∃ new : Response,
      new.ResponseType = responseType ∧ new.Value = value ∧ new.Actor = actor
      ∧ new.Message = message
      ∧ (Response.SetResponse env w actor message responseType value).1 = none
      ∧ (Response.SetResponse env w actor message responseType value).2.trace
          = w.trace ++ [.load actor.UserID message.ID,
              .setResponse actor.UserID message.ID "",
              .hardDelete old.ResponseID,
              .unPublish actor.UserID old.ResponseID (pub.Undo old.GetJSONLD),
              .setResponse actor.UserID message.ID responseType,
              .save new,
              .publish "RESPONSE" new.ResponseID actor.UserID new.GetJSONLD]
      ∧ responsesFor (Response.SetResponse env w actor message responseType value).2
          actor.UserID message.ID = [new] := by
  have hfound : w.responses.find? (matchesMessage actor.UserID message.ID) = some old :=
    find_of_filter_singleton _ _ _ hone
  obtain ⟨hu, hm, _⟩ := found_matches w _ _ old hfound
  have hclean2 := hclean (requestedResponse (w.nextID + 1) actor message responseType value)
  have hsave2 := hsave (requestedResponse (w.nextID + 1) actor message responseType value)
  have key : Response.SetResponse env w actor message responseType value
      = (none,
         { responses := upsertResponse
             (w.responses.filter (fun r => r.ResponseID != old.ResponseID))
             (requestedResponse (w.nextID + 1) actor message responseType value)
           markers := fun u m =>
             if u = actor.UserID ∧ m = message.ID then responseType
             else if u = actor.UserID ∧ m = message.ID then "" else w.markers u m
           nextID := w.nextID + 1 + 1
           trace := w.trace ++ [.load actor.UserID message.ID,
              .setResponse actor.UserID message.ID "",
              .hardDelete old.ResponseID,
              .unPublish actor.UserID old.ResponseID (pub.Undo old.GetJSONLD),
              .setResponse actor.UserID message.ID responseType,
              .save (requestedResponse (w.nextID + 1) actor message responseType value),
              .publish "RESPONSE" (w.nextID + 1) actor.UserID
                (requestedResponse (w.nextID + 1) actor message responseType value).GetJSONLD] }) := by
    have hD := Response_Delete_run env
      { responses := w.responses, markers := w.markers, nextID := w.nextID + 1,
        trace := w.trace ++ [.load actor.UserID message.ID] } old
      (by rw [hu, hm]; exact hmark0) hdel
    rw [hu, hm, hun] at hD
    have hS := Response_Save_run env
      { responses := w.responses.filter (fun r => r.ResponseID != old.ResponseID)
        markers := fun u m => if u = actor.UserID ∧ m = message.ID then "" else w.markers u m
        nextID := w.nextID + 1 + 1
        trace := w.trace ++ [.load actor.UserID message.ID] ++
          [.setResponse actor.UserID message.ID "",
           .hardDelete old.ResponseID,
           .unPublish actor.UserID old.ResponseID (pub.Undo old.GetJSONLD)] }
      (requestedResponse (w.nextID + 1) actor message responseType value)
      hclean2 hmark1 hsave2
    have hpub2 : env.publishErr
        (requestedResponse (w.nextID + 1) actor message responseType value).ResponseID
        (requestedResponse (w.nextID + 1) actor message responseType value).Actor.UserID
        = none := hpub
    rw [hpub2] at hS
    simp only [Response.SetResponse, LoadByMessageID_found env w _ _ old hload hfound, hdiff,
      if_false, ResponseWorld.log, createResponse, htype]
    rw [hD]
    simp only [derp.Wrap]
    rw [hS]
    simp only [derp.Wrap, List.append_assoc, List.cons_append, List.nil_append]
    rfl
  refine ⟨requestedResponse (w.nextID + 1) actor message responseType value,
    rfl, rfl, rfl, rfl, ?_, ?_, ?_⟩
  · rw [key]
  · rw [key]
    rfl
  · rw [key]
    apply responsesFor_after_replace w.responses actor.UserID message.ID old _ hone
    · intro x hx
      simp only [ResponseWorld.WF, List.all_eq_true, decide_eq_true_eq] at hwf
      have := hwf x hx
      show x.ResponseID ≠ w.nextID + 1
      omega
    · simp [matchesMessage, requestedResponse, NewResponse]

/-- C15 (witness): the Like of the examples is replaced by a Dislike. -/
theorem C15_supersession_witness :
    likedWorld.WF = true ∧ responsesFor likedWorld alice.UserID someMessage.ID = [aliceLike]
    ∧ ∃ new : Response,
      new.ResponseType = "Dislike" ∧ new.Value = "" ∧ new.Actor = alice
      ∧ new.Message = someMessage
      ∧ (Response.SetResponse responseEnv likedWorld alice someMessage "Dislike" "").1 = none
      ∧ (Response.SetResponse responseEnv likedWorld alice someMessage "Dislike" "").2.trace
          = likedWorld.trace ++ [.load alice.UserID someMessage.ID,
              .setResponse alice.UserID someMessage.ID "",
              .hardDelete aliceLike.ResponseID,
              .unPublish alice.UserID aliceLike.ResponseID (pub.Undo aliceLike.GetJSONLD),
              .setResponse alice.UserID someMessage.ID "Dislike",
              .save new,
              .publish "RESPONSE" new.ResponseID alice.UserID new.GetJSONLD]
      ∧ responsesFor (Response.SetResponse responseEnv likedWorld alice someMessage
          "Dislike" "").2 alice.UserID someMessage.ID = [new] :=
  ⟨by decide, by decide,
   C15_supersession responseEnv likedWorld alice someMessage "Dislike" "" aliceLike
    (by decide) (by decide) rfl (by decide) (by decide) rfl rfl rfl (fun _ => rfl) rfl
    (fun _ => rfl) rfl⟩

end Emissary

namespace Emissary

/-- C16 (the code at the failing input): the store holds one Like of the user
for the message, and at most one response for every pair; the lookup of
`SetResponse` fails with a storage error that is not a not-found error;
`SetResponse` with type Dislike deletes nothing, saves a second Response and
returns success, and the store then holds two responses that are not deleted
for the same (actor user, message). -/
theorem C16_lookup_fault_stores_second_response :
    (∀ u m, (responsesFor likedWorld u m).length ≤ 1)
    ∧ responsesFor likedWorld alice.UserID someMessage.ID = [aliceLike]
    ∧ lookupFailsEnv.loadErr alice.UserID someMessage.ID
        = some (Err.base 500 "storage timeout")
    ∧ derp.NotFound (Err.base 500 "storage timeout") = false
    ∧ (Response.SetResponse lookupFailsEnv likedWorld alice someMessage "Dislike" "").1 = none
    ∧ (responsesFor (Response.SetResponse lookupFailsEnv likedWorld alice someMessage
        "Dislike" "").2 alice.UserID someMessage.ID).length = 2 := by
  refine ⟨?_, by decide, rfl, by decide, by decide, by decide⟩
  intro u m
  exact List.length_filter_le _ _

/-- C17: when the marker write and the hard delete succeed, `Response.Delete`
calls UnPublish with the actor user ID and the ResponseID of the deleted
Response and with the Undo of its JSON-LD representation, an activity whose
object is that representation; and when `Response.Save` publishes a Response
it publishes it under the same ResponseID and actor user ID. -/
theorem C17_retraction_references_original (env : ResponseEnv) (w w2 : ResponseWorld)
    (response : Response)
    (hmark : env.markerErr response.Actor.UserID response.Message.ID "" = none)
    (hdel : env.deleteErr response.ResponseID = none)
    (hclean : env.cleanErr response = none)
    (hmark1 : env.markerErr response.Actor.UserID response.Message.ID response.ResponseType
      = none)
    (hsave : env.saveErr response = none) :
    (Response.Delete env w response).2.trace
        = w.trace ++ [.setResponse response.Actor.UserID response.Message.ID "",
            .hardDelete response.ResponseID,
            .unPublish response.Actor.UserID response.ResponseID
              (pub.Undo response.GetJSONLD)]
    ∧ (pub.Undo response.GetJSONLD).object? = some response.GetJSONLD
    ∧ (Response.Save env w2 response).2.trace
        = w2.trace ++ [.setResponse response.Actor.UserID response.Message.ID
              response.ResponseType,
            .save response,
            .publish "RESPONSE" response.ResponseID response.Actor.UserID
              response.GetJSONLD] := by
  rw [Response_Delete_run env w response hmark hdel,
    Response_Save_run env w2 response hclean hmark1 hsave]
  exact ⟨rfl, rfl, rfl⟩

/-- C17 (witness): the Like of the examples is saved and deleted. -/
theorem C17_retraction_references_original_witness :
    (Response.Delete responseEnv likedWorld aliceLike).2.trace
        = likedWorld.trace ++ [.setResponse aliceLike.Actor.UserID aliceLike.Message.ID "",
            .hardDelete aliceLike.ResponseID,
            .unPublish aliceLike.Actor.UserID aliceLike.ResponseID
              (pub.Undo aliceLike.GetJSONLD)]
    ∧ (pub.Undo aliceLike.GetJSONLD).object? = some aliceLike.GetJSONLD
    ∧ (Response.Save responseEnv noResponses aliceLike).2.trace
        = noResponses.trace ++ [.setResponse aliceLike.Actor.UserID aliceLike.Message.ID
              aliceLike.ResponseType,
            .save aliceLike,
            .publish "RESPONSE" aliceLike.ResponseID aliceLike.Actor.UserID
              aliceLike.GetJSONLD] :=
  C17_retraction_references_original responseEnv likedWorld noResponses aliceLike
    rfl rfl rfl rfl rfl

/-- C18: when the marker write and the hard delete succeed and UnPublish fails
inside `Response.Delete`, the method returns the wrapped error of UnPublish,
and at that point the Response is removed from the storage and the marker of
its message is the empty string; UnPublish is the last call, so neither is
rolled back. -/
theorem C18_failed_retraction_keeps_deletion (env : ResponseEnv) (w : ResponseWorld)
    (response : Response) (e : Err)
    (hmark : env.markerErr response.Actor.UserID response.Message.ID "" = none)
    (hdel : env.deleteErr response.ResponseID = none)
    (hun : env.unPublishErr response.Actor.UserID response.ResponseID = some e) :
    (Response.Delete env w response).1
        = some (Err.wrap e "service.Response.Delete" "Error publishing Response")
    ∧ (Response.Delete env w response).2.responses
        = w.responses.filter (fun r => r.ResponseID != response.ResponseID)
    ∧ response ∉ (Response.Delete env w response).2.responses
    ∧ (Response.Delete env w response).2.markers response.Actor.UserID response.Message.ID = ""
    ∧ (Response.Delete env w response).2.trace
        = w.trace ++ [.setResponse response.Actor.UserID response.Message.ID "",
            .hardDelete response.ResponseID,
            .unPublish response.Actor.UserID response.ResponseID
              (pub.Undo response.GetJSONLD)] := by
  rw [Response_Delete_run env w response hmark hdel, hun]
  refine ⟨rfl, rfl, ?_, ?_, rfl⟩
  · simp [List.mem_filter]
  · simp

/-- C18 (witness): the retraction of the Like of the examples cannot be
delivered. -/
theorem C18_failed_retraction_keeps_deletion_witness :
    retractionFailsEnv.unPublishErr aliceLike.Actor.UserID aliceLike.ResponseID
        = some (Err.base 500 "no route to host")
    ∧ (Response.Delete retractionFailsEnv likedWorld aliceLike).1
        = some (Err.wrap (Err.base 500 "no route to host")
            "service.Response.Delete" "Error publishing Response")
    ∧ (Response.Delete retractionFailsEnv likedWorld aliceLike).2.responses
        = likedWorld.responses.filter (fun r => r.ResponseID != aliceLike.ResponseID)
    ∧ aliceLike ∉ (Response.Delete retractionFailsEnv likedWorld aliceLike).2.responses
    ∧ (Response.Delete retractionFailsEnv likedWorld aliceLike).2.markers
        aliceLike.Actor.UserID aliceLike.Message.ID = ""
    ∧ (Response.Delete retractionFailsEnv likedWorld aliceLike).2.trace
        = likedWorld.trace ++ [.setResponse aliceLike.Actor.UserID aliceLike.Message.ID "",
            .hardDelete aliceLike.ResponseID,
            .unPublish aliceLike.Actor.UserID aliceLike.ResponseID
              (pub.Undo aliceLike.GetJSONLD)] :=
  ⟨rfl, C18_failed_retraction_keeps_deletion retractionFailsEnv likedWorld aliceLike
    (Err.base 500 "no route to host") rfl rfl rfl⟩

/-- C19 (counterexample): a `Response.Delete` whose hard delete failed has left
the Like stored with the marker cleared; `SetResponse` with the identical
request (Like) then returns success without any write, and the marker is
still empty while the stored Response has type Like. -/
theorem C19_counterexample :
    responsesFor staleWorld alice.UserID someMessage.ID = [aliceLike]
    ∧ (Response.SetResponse responseEnv staleWorld alice someMessage "Like" "").1 = none
    ∧ responsesFor (Response.SetResponse responseEnv staleWorld alice someMessage "Like" "").2
        alice.UserID someMessage.ID = [aliceLike]
    ∧ aliceLike.ResponseType = "Like"
    ∧ (Response.SetResponse responseEnv staleWorld alice someMessage "Like" "").2.markers
        alice.UserID someMessage.ID = "" := by
  refine ⟨by decide, by decide, by decide, rfl, by decide⟩

/-- C19 (amended): the marker is written through by the mutations.  A
`Response.Save` whose writes succeed leaves the marker of (actor user, target
message) at the type of the Response, and a `Response.Delete` whose writes
succeed leaves it empty.  A `SetResponse` whose lookup does not fail and whose
writes succeed, on a well-formed store with at most one Response for the pair,
returns success, and: when it changes nothing (the identical request, or an
empty type with nothing found) its only call is the lookup and the markers and
the stored Responses are as they were; in every other case it deletes or saves
a Response and the marker equals the requested type, which is the type of the
one stored Response, or is empty with none stored when the requested type is
empty. -/
theorem C19_marker_written_through (env : ResponseEnv) (w w2 w3 : ResponseWorld)
    (response : Response)
    (actor : PersonLink) (message : DocumentLink) (responseType value : String)
    (hok : env.noWriteFault)
    (hwf : w.WF = true)
    (hinv : (responsesFor w actor.UserID message.ID).length ≤ 1)
    (hload : env.loadErr actor.UserID message.ID = none) :
    ((Response.Save env w2 response).1 = none
      ∧ (Response.Save env w2 response).2.markers response.Actor.UserID response.Message.ID
          = response.ResponseType)
    ∧ ((Response.Delete env w3 response).1 = none
      ∧ (Response.Delete env w3 response).2.markers response.Actor.UserID response.Message.ID
          = "")
    ∧ (Response.SetResponse env w actor message responseType value).1 = none
    ∧ ((∃ old, w.responses.find? (matchesMessage actor.UserID message.ID) = some old
          ∧ old.ResponseType = responseType ∧ old.Value = value) →
        (Response.SetResponse env w actor message responseType value).2.trace
          = w.trace ++ [.load actor.UserID message.ID]
        ∧ (Response.SetResponse env w actor message responseType value).2.markers = w.markers
        ∧ (Response.SetResponse env w actor message responseType value).2.responses
            = w.responses)
    ∧ (responseType = "" →
        w.responses.find? (matchesMessage actor.UserID message.ID) = none →
        (Response.SetResponse env w actor message responseType value).2.trace
          = w.trace ++ [.load actor.UserID message.ID]
        ∧ (Response.SetResponse env w actor message responseType value).2.markers = w.markers
        ∧ (Response.SetResponse env w actor message responseType value).2.responses
            = w.responses)
    ∧ ((¬ ∃ old, w.responses.find? (matchesMessage actor.UserID message.ID) = some old
          ∧ old.ResponseType = responseType ∧ old.Value = value) →
        (responseType ≠ ""
          ∨ ∃ old, w.responses.find? (matchesMessage actor.UserID message.ID) = some old) →
        (Response.SetResponse env w actor message responseType value).2.markers
            actor.UserID message.ID = responseType
        ∧ (responsesFor (Response.SetResponse env w actor message responseType value).2
            actor.UserID message.ID).map (fun r => r.ResponseType)
            = (if responseType = "" then [] else [responseType])) := by
  obtain ⟨hclean, hmark, hsave, hdel, hpub, hun⟩ := hok
  have hS : ∀ (w0 : ResponseWorld) (r : Response), Response.Save env w0 r
      = (none,
         { responses := upsertResponse w0.responses r
           markers := fun u m =>
             if u = r.Actor.UserID ∧ m = r.Message.ID then r.ResponseType else w0.markers u m
           nextID := w0.nextID
           trace := w0.trace ++ [.setResponse r.Actor.UserID r.Message.ID r.ResponseType,
             .save r, .publish "RESPONSE" r.ResponseID r.Actor.UserID r.GetJSONLD] }) := by
    intro w0 r
    rw [Response_Save_run env w0 r (hclean _) (hmark _ _ _) (hsave _), hpub]
    rfl
  have hD : ∀ (w0 : ResponseWorld) (r : Response), Response.Delete env w0 r
      = (none,
         { responses := w0.responses.filter (fun x => x.ResponseID != r.ResponseID)
           markers := fun u m =>
             if u = r.Actor.UserID ∧ m = r.Message.ID then "" else w0.markers u m
           nextID := w0.nextID
           trace := w0.trace ++ [.setResponse r.Actor.UserID r.Message.ID "",
             .hardDelete r.ResponseID,
             .unPublish r.Actor.UserID r.ResponseID (pub.Undo r.GetJSONLD)] }) := by
    intro w0 r
    rw [Response_Delete_run env w0 r (hmark _ _ _) (hdel _), hun]
    rfl
  refine ⟨?_, ?_, ?_⟩
  · rw [hS]; exact ⟨rfl, by simp⟩
  · rw [hD]; exact ⟨rfl, by simp⟩
  · have hfreshw : ∀ x ∈ w.responses, x.ResponseID ≠
        (requestedResponse (w.nextID + 1) actor message responseType value).ResponseID := by
      intro x hx
      simp only [ResponseWorld.WF, List.all_eq_true, decide_eq_true_eq] at hwf
      have := hwf x hx
      show x.ResponseID ≠ w.nextID + 1
      omega
    have hnewm : matchesMessage actor.UserID message.ID
        (requestedResponse (w.nextID + 1) actor message responseType value) = true := by
      simp [matchesMessage, requestedResponse, NewResponse]
    cases hfind : w.responses.find? (matchesMessage actor.UserID message.ID) with
    | none =>
      by_cases htype : responseType = ""
      · have key : Response.SetResponse env w actor message responseType value
            = (none,
               { responses := w.responses
                 markers := w.markers
                 nextID := w.nextID + 1
                 trace := w.trace ++ [.load actor.UserID message.ID] }) := by
          simp only [Response.SetResponse, Response.LoadByMessageID, hload, hfind,
            createResponse, htype, if_true, ResponseWorld.log]
        rw [key]
        refine ⟨rfl, ?_, ?_, ?_⟩
        · rintro ⟨old, h, _⟩
          cases h
        · intro _ _
          exact ⟨rfl, rfl, rfl⟩
        · intro _ hmut
          rcases hmut with h | ⟨old, h⟩
          · exact absurd htype h
          · cases h
      · have hnil : w.responses.filter (matchesMessage actor.UserID message.ID) = [] := by
          rw [List.filter_eq_nil_iff]
          intro x hx
          exact (List.find?_eq_none.mp hfind) x hx
        have key : Response.SetResponse env w actor message responseType value
            = (none,
               { responses := upsertResponse w.responses
                   (requestedResponse (w.nextID + 1) actor message responseType value)
                 markers := fun u m =>
                   if u = actor.UserID ∧ m = message.ID then responseType else w.markers u m
                 nextID := w.nextID + 1 + 1
                 trace := w.trace ++ [.load actor.UserID message.ID] ++
                   [.setResponse actor.UserID message.ID responseType,
                    .save (requestedResponse (w.nextID + 1) actor message responseType value),
                    .publish "RESPONSE" (w.nextID + 1) actor.UserID
                      (requestedResponse (w.nextID + 1) actor message responseType
                        value).GetJSONLD] }) := by
          simp only [Response.SetResponse, Response.LoadByMessageID, hload, hfind,
            createResponse, htype, if_false, ResponseWorld.log]
          rw [hS]
          rfl
        rw [key]
        refine ⟨rfl, ?_, ?_, ?_⟩
        · rintro ⟨old, h, _⟩
          cases h
        · intro h _
          exact absurd h htype
        · intro _ _
          refine ⟨by simp, ?_⟩
          simp only [responsesFor]
          rw [upsertResponse_fresh _ _ hfreshw, List.filter_append, hnil,
            List.filter_cons_of_pos hnewm]
          simp [htype, requestedResponse]
    | some old =>
      obtain ⟨hu, hm, _⟩ := found_matches w _ _ old hfind
      by_cases hsame : old.ResponseType = responseType ∧ old.Value = value
      · have key : Response.SetResponse env w actor message responseType value
            = (none,
               { responses := w.responses
                 markers := w.markers
                 nextID := w.nextID + 1
                 trace := w.trace ++ [.load actor.UserID message.ID] }) := by
          simp only [Response.SetResponse, LoadByMessageID_found env w _ _ old hload hfind,
            hsame, and_self, if_true, ResponseWorld.log]
        rw [key]
        refine ⟨rfl, ?_, ?_, ?_⟩
        · intro _
          exact ⟨rfl, rfl, rfl⟩
        · intro _ h
          cases h
        · intro hchange _
          exact absurd ⟨old, rfl, hsame.1, hsame.2⟩ hchange
      · have hdiff : ¬ (old.ResponseType = responseType ∧ old.Value = value) := hsame
        have hone : w.responses.filter (matchesMessage actor.UserID message.ID) = [old] := by
          have hmem : old ∈ w.responses.filter (matchesMessage actor.UserID message.ID) :=
            List.mem_filter.mpr ⟨List.mem_of_find?_eq_some hfind, List.find?_some hfind⟩
          simp only [responsesFor] at hinv
          match hl : w.responses.filter (matchesMessage actor.UserID message.ID), hmem, hinv with
          | [x], hmem, _ =>
            simp only [List.mem_singleton] at hmem
            rw [hmem]
        by_cases htype : responseType = ""
        · subst htype
          have key : Response.SetResponse env w actor message "" value
              = (none,
                 { responses := w.responses.filter (fun x => x.ResponseID != old.ResponseID)
                   markers := fun u m =>
                     if u = actor.UserID ∧ m = message.ID then "" else w.markers u m
                   nextID := w.nextID + 1
                   trace := w.trace ++ [.load actor.UserID message.ID] ++
                     [.setResponse actor.UserID message.ID "",
                      .hardDelete old.ResponseID,
                      .unPublish actor.UserID old.ResponseID (pub.Undo old.GetJSONLD)] }) := by
            simp only [Response.SetResponse, LoadByMessageID_found env w _ _ old hload hfind,
              hdiff, if_false, ResponseWorld.log, createResponse, ↓reduceIte]
            rw [hD]
            simp only [hu, hm]
          rw [key]
          refine ⟨rfl, ?_, ?_, ?_⟩
          · rintro ⟨old2, h, ht, hv⟩
            cases h
            exact absurd ⟨ht, hv⟩ hdiff
          · intro _ h
            cases h
          · intro _ _
            refine ⟨by simp, ?_⟩
            simp only [responsesFor, ↓reduceIte]
            have h0 := responsesFor_after_replace w.responses actor.UserID message.ID old
              (requestedResponse (w.nextID + 1) actor message "" value) hone hfreshw hnewm
            rw [upsertResponse_fresh _ _
              (fun x hx => hfreshw x (List.mem_filter.mp hx).1), List.filter_append,
              List.filter_cons_of_pos hnewm] at h0
            have h1 : (w.responses.filter (fun r => r.ResponseID != old.ResponseID)).filter
                (matchesMessage actor.UserID message.ID) = [] := by
              cases hq : (w.responses.filter (fun r => r.ResponseID != old.ResponseID)).filter
                  (matchesMessage actor.UserID message.ID) with
              | nil => rfl
              | cons y ys =>
                rw [hq] at h0
                simp at h0
            rw [h1]
            rfl
        · have key : Response.SetResponse env w actor message responseType value
              = (none,
                 { responses := upsertResponse
                     (w.responses.filter (fun x => x.ResponseID != old.ResponseID))
                     (requestedResponse (w.nextID + 1) actor message responseType value)
                   markers := fun u m =>
                     if u = actor.UserID ∧ m = message.ID then responseType
                     else if u = actor.UserID ∧ m = message.ID then "" else w.markers u m
                   nextID := w.nextID + 1 + 1
                   trace := w.trace ++ [.load actor.UserID message.ID] ++
                     [.setResponse actor.UserID message.ID "",
                      .hardDelete old.ResponseID,
                      .unPublish actor.UserID old.ResponseID (pub.Undo old.GetJSONLD)] ++
                     [.setResponse actor.UserID message.ID responseType,
                      .save (requestedResponse (w.nextID + 1) actor message responseType value),
                      .publish "RESPONSE" (w.nextID + 1) actor.UserID
                        (requestedResponse (w.nextID + 1) actor message responseType
                          value).GetJSONLD] }) := by
            simp only [Response.SetResponse, LoadByMessageID_found env w _ _ old hload hfind,
              hdiff, if_false, ResponseWorld.log, createResponse, htype]
            rw [hD]
            simp only [hu, hm]
            rw [hS]
            rfl
          rw [key]
          refine ⟨rfl, ?_, ?_, ?_⟩
          · rintro ⟨old2, h, ht, hv⟩
            cases h
            exact absurd ⟨ht, hv⟩ hdiff
          · intro h _
            exact absurd h htype
          · intro _ _
            refine ⟨by simp, ?_⟩
            simp only [responsesFor]
            rw [responsesFor_after_replace w.responses actor.UserID message.ID old _ hone
              hfreshw hnewm]
            simp [htype, requestedResponse]

/-- C19 (witness): the Like of the examples is replaced by a Dislike, and the
marker follows; the identical request on the same store calls the lookup only
and leaves the marker at Like. -/
theorem C19_marker_written_through_witness :
    likedWorld.WF = true
    ∧ ((Response.Save responseEnv noResponses aliceLike).1 = none
      ∧ (Response.Save responseEnv noResponses aliceLike).2.markers aliceLike.Actor.UserID
          aliceLike.Message.ID = aliceLike.ResponseType)
    ∧ ((Response.Delete responseEnv likedWorld aliceLike).1 = none
      ∧ (Response.Delete responseEnv likedWorld aliceLike).2.markers aliceLike.Actor.UserID
          aliceLike.Message.ID = "")
    ∧ (Response.SetResponse responseEnv likedWorld alice someMessage "Dislike" "").1 = none
    ∧ (Response.SetResponse responseEnv likedWorld alice someMessage "Dislike" "").2.markers
        alice.UserID someMessage.ID = "Dislike"
    ∧ (responsesFor (Response.SetResponse responseEnv likedWorld alice someMessage
        "Dislike" "").2 alice.UserID someMessage.ID).map (fun r => r.ResponseType)
        = (if "Dislike" = "" then [] else ["Dislike"])
    ∧ (Response.SetResponse responseEnv likedWorld alice someMessage "Like" "").2.trace
        = likedWorld.trace ++ [.load alice.UserID someMessage.ID]
    ∧ (Response.SetResponse responseEnv likedWorld alice someMessage "Like" "").2.markers
        = likedWorld.markers := by
  have hfound : likedWorld.responses.find? (matchesMessage alice.UserID someMessage.ID)
      = some aliceLike := by decide
  have hok : responseEnv.noWriteFault :=
    ⟨fun _ => rfl, fun _ _ _ => rfl, fun _ => rfl, fun _ => rfl, fun _ _ => rfl,
      fun _ _ => rfl⟩
  have h := C19_marker_written_through responseEnv likedWorld noResponses likedWorld aliceLike
    alice someMessage "Dislike" "" hok (by decide) (by decide) rfl
  have h2 := C19_marker_written_through responseEnv likedWorld noResponses likedWorld aliceLike
    alice someMessage "Like" "" hok (by decide) (by decide) rfl
  have hmut := h.2.2.2.2.2
    (by
      rintro ⟨old, hold, ht, _⟩
      rw [hfound] at hold
      cases hold
      exact absurd ht (by decide))
    (Or.inl (by decide))
  have hnoop := h2.2.2.2.1 ⟨aliceLike, hfound, rfl, rfl⟩
  exact ⟨by decide, h.1, h.2.1, h.2.2.1, hmut.1, hmut.2, hnoop.1, hnoop.2.1⟩

end Emissary

namespace Emissary

/-! ## The claim about the status after a failing write -/

/-- C20 (counterexample): the Following was persisted with status Loading, the
activity of the second item of the feed cannot be saved, and after `import_RSS`
the last persisted status is Failure, not the status that was set before the
failing write. -/
theorem C20_counterexample :
    (loadingWorld.persisted.map (fun f => f.Status)).getLast? = some .Loading
    ∧ secondItemFailsRSS.saveActivityErr (loadingRecord exampleFollowing)
        { Title := "Second", Link := "https://remote.example/p/2" }
        = some (Err.base 500 "disk full")
    ∧ ((import_RSS exampleEnv secondItemFailsRSS loadingWorld (loadingRecord exampleFollowing)
        "<rss/>").2.persisted.map (fun f => f.Status)).getLast? = some .Failure := by
  refine ⟨by decide, by decide, by decide⟩

/-- C20 (amended): a write failure inside the loop of `Connect` leaves the
status of the Following alone: whatever the writes of the messages do, the
records persisted by a `Connect` that got past the Success persist are Loading
and Success, so the last persisted status is the Success set before the loop.
In `import_RSS` the failure is recorded: when the activity of an item cannot be
saved, `saveError` persists status Failure with the text of the wrapped error
(when the storage accepts that record) and the wrapped error is returned. -/
theorem C20_status_after_failing_write (env : Env) (rss : RSSEnv) (w w2 : World)
    (following following2 : Following) (actor : Actor) (body : String) (feed : RSSFeed)
    (pre : List RSSItem) (item : RSSItem) (rest : List RSSItem) (e : Err)
    (hL : env.followingSaveErr (loadingRecord following) = none)
    (hA : env.LoadActor following.URL = .ok actor)
    (hS : env.followingSaveErr (successRecord following actor) = none)
    (hparse : rss.ParseString body = .ok feed)
    (hitems : feed.Items = pre ++ item :: rest)
    (hpre : ∀ p ∈ pre, rss.saveActivityErr
      { following2 with Label := feed.Title, Links := rss.discoverLinks_RSS body } p = none)
    (hitem : rss.saveActivityErr
      { following2 with Label := feed.Title, Links := rss.discoverLinks_RSS body } item = some e)
    (hF : env.followingSaveErr
      { following2 with
        Label := feed.Title, Links := rss.discoverLinks_RSS body, Status := .Failure,
        StatusMessage :=
          (Err.wrap e "service.Following.importRSS" "Error updating local activity").Error }
      = none) :
    (Connect env w following).2.persisted
        = w.persisted ++ [loadingRecord following, successRecord following actor]
    ∧ (successRecord following actor).Status = .Success
    ∧ (import_RSS env rss w2 following2 body).1
        = some (Err.wrap e "service.Following.importRSS" "Error updating local activity")
    ∧ (import_RSS env rss w2 following2 body).2.persisted
        = w2.persisted ++ [{ following2 with
            Label := feed.Title, Links := rss.discoverLinks_RSS body, Status := .Failure,
            StatusMessage :=
              (Err.wrap e "service.Following.importRSS" "Error updating local activity").Error }]
    := by
  have hc : (Connect env w following).2.persisted
      = w.persisted ++ [loadingRecord following, successRecord following actor] := by
    rw [Connect_resolved env w following actor hL hA hS]
    have hp := ingest_persisted env (decide (following.Status = .New))
      (successRecord following actor) actor.Outbox 0
      { w with
        trace := w.trace ++ [.saveFollowing (loadingRecord following),
          .loadActor following.URL, .saveFollowing (successRecord following actor)]
        persisted := w.persisted ++ [loadingRecord following,
          successRecord following actor] }
    cases env.recalcErr following.UserID following.FolderID with
    | some err => exact hp
    | none =>
      obtain ⟨_, _, _, _, hbp⟩ := connect_PushServices_events env
        ((ingest env (decide (following.Status = .New)) (successRecord following actor)
          actor.Outbox 0
          { w with
            trace := w.trace ++ [.saveFollowing (loadingRecord following),
              .loadActor following.URL, .saveFollowing (successRecord following actor)]
            persisted := w.persisted ++ [loadingRecord following,
              successRecord following actor] }).log
         (.recalculateUnread following.UserID following.FolderID))
        (successRecord following actor) actor (fun _ => True) trivial (fun _ => trivial)
        (fun _ => trivial)
      show (connect_PushServices env _ _ _).persisted = _
      rw [hbp]
      exact hp
  have hi : import_RSS env rss w2 following2 body
      = saveError env
          { w2 with
            trace := w2.trace ++ (pre ++ [item]).map (Event.saveActivity
              { following2 with Label := feed.Title, Links := rss.discoverLinks_RSS body }) }
          { following2 with Label := feed.Title, Links := rss.discoverLinks_RSS body }
          (Err.wrap e "service.Following.importRSS" "Error updating local activity") := by
    simp only [import_RSS, hparse, hitems]
    exact importItems_failing_item env rss _ item rest e hitem pre w2 hpre
  refine ⟨hc, rfl, ?_, ?_⟩
  · rw [hi]
    simp only [saveError, SetStatus, hF]
  · rw [hi]
    simp only [saveError, SetStatus, hF]
    rfl

/-- C20 (witness): the ten notes through `Connect` with every message write
failing, and the feed whose second item cannot be saved through `import_RSS`. -/
theorem C20_status_after_failing_write_witness :
    (Connect diskFullEnv emptyWorld exampleFollowing).2.persisted
        = emptyWorld.persisted ++ [loadingRecord exampleFollowing,
            successRecord exampleFollowing exampleActor]
    ∧ (successRecord exampleFollowing exampleActor).Status = .Success
    ∧ (import_RSS diskFullEnv secondItemFailsRSS loadingWorld (loadingRecord exampleFollowing)
        "<rss/>").1
        = some (Err.wrap (Err.base 500 "disk full")
            "service.Following.importRSS" "Error updating local activity")
    ∧ (import_RSS diskFullEnv secondItemFailsRSS loadingWorld (loadingRecord exampleFollowing)
        "<rss/>").2.persisted
        = loadingWorld.persisted ++ [{ loadingRecord exampleFollowing with
            Label := exampleFeed.Title, Links := secondItemFailsRSS.discoverLinks_RSS "<rss/>",
            Status := .Failure,
            StatusMessage := (Err.wrap (Err.base 500 "disk full")
              "service.Following.importRSS" "Error updating local activity").Error }] :=
  C20_status_after_failing_write diskFullEnv secondItemFailsRSS emptyWorld loadingWorld
    exampleFollowing (loadingRecord exampleFollowing) exampleActor "<rss/>" exampleFeed
    [{ Title := "Third", Link := "https://remote.example/p/3" }]
    { Title := "Second", Link := "https://remote.example/p/2" }
    [{ Title := "First", Link := "https://remote.example/p/1" }]
    (Err.base 500 "disk full") rfl rfl rfl rfl rfl (by decide) (by decide) rfl

end Emissary

namespace Emissary

/-! ## Wrapper activities, push subscription, and the remaining claims about
responses and the RSS import -/

/-- C23: `getActualDocument` returns the object of the loaded document when the
loaded document is a `Create` or an `Update`, and the loaded document itself
for every other type; so for a `Create` or `Update` activity (and a lookup that
does not fail) the one message that `saveMessage` saves has the URL, label,
summary, content and publish date of the inner object. -/
theorem C23_wrapper_dereferenced (env : Env) (w : World) (following : Following)
    (d : Document) (markRead : Bool)
    (hwrap : (env.Load d).docType = "Create" ∨ (env.Load d).docType = "Update")
    (hload : env.messageLoadErr following.UserID (env.Load d).Object.ID = none) :
    (∀ x : Document, getActualDocument env x
        = if (env.Load x).docType = "Create" ∨ (env.Load x).docType = "Update"
          then (env.Load x).Object else env.Load x)
    ∧ getActualDocument env d = (env.Load d).Object
    ∧ ∃ m, (saveMessage env w following d markRead).2.trace
          = w.trace ++ [.document d, .loadByURL following.UserID (env.Load d).Object.ID,
              .saveMessage m]
        ∧ m.URL = (env.Load d).Object.ID
        ∧ m.Label = (env.Load d).Object.Name
        ∧ m.Summary = (env.Load d).Object.Summary
        ∧ m.ContentHTML = (env.Load d).Object.Content
        ∧ m.PublishDate = (env.Load d).Object.PublishedUnix := by
  have hg : getActualDocument env d = (env.Load d).Object := by
    simp only [getActualDocument, hwrap, if_true]
  refine ⟨fun x => rfl, hg, ?_⟩
  have ht := saveMessage_trace env w following d markRead
  rw [hg] at ht
  cases hl : loadOrNew env w following.UserID (env.Load d).Object.ID (NewMessage w.nextID) with
  | error err =>
    exfalso
    simp only [loadOrNew, LoadByURL, hload] at hl
    cases hf : w.messages.find? (matchesURL following.UserID (env.Load d).Object.ID) with
    | some found => rw [hf] at hl; cases hl
    | none =>
      rw [hf] at hl
      simp [derp.NotFound, Err.ErrorCode] at hl
  | ok message =>
    rw [hl] at ht
    refine ⟨updateMessage env (env.Load d).Object
      (if message.IsNew then initMessage following markRead message else message),
      ?_, rfl, rfl, rfl, rfl, rfl⟩
    rw [ht]
    simp

/-- C23 (witness): a `Create` around the article; the saved message carries
the fields of the article, not those of the wrapper. -/
theorem C23_wrapper_dereferenced_witness :
    (createOf article).ID ≠ article.ID ∧ (createOf article).Name ≠ article.Name
    ∧ (∀ x : Document, getActualDocument exampleEnv x
        = if (exampleEnv.Load x).docType = "Create" ∨ (exampleEnv.Load x).docType = "Update"
          then (exampleEnv.Load x).Object else exampleEnv.Load x)
    ∧ getActualDocument exampleEnv (createOf article) = article
    ∧ ∃ m, (saveMessage exampleEnv emptyWorld exampleFollowing (createOf article) false).2.trace
          = emptyWorld.trace ++ [.document (createOf article),
              .loadByURL exampleFollowing.UserID article.ID, .saveMessage m]
        ∧ m.URL = article.ID
        ∧ m.Label = article.Name
        ∧ m.Summary = article.Summary
        ∧ m.ContentHTML = article.Content
        ∧ m.PublishDate = article.PublishedUnix :=
  ⟨by decide, by decide,
   C23_wrapper_dereferenced exampleEnv emptyWorld exampleFollowing (createOf article) false
    (Or.inl rfl) rfl⟩

/-- C25: `connect_PushServices` attempts the ActivityPub subscription first, and
only for an actor of format ActivityPub; when that attempt reports success
nothing else happens; in every other case the WebSub subscription is attempted
exactly when the hub of the actor is not empty.  A failure of either attempt
adds one report of the wrapped error right after the attempt and nothing else:
the stored records are untouched.  `Connect`, once the recount has succeeded,
ends with exactly this call on the Success record and returns nil whatever the
two attempts return. -/
theorem C25_push_order (env : Env) (w w0 : World) (following following0 : Following)
    (actor : Actor)
    (hL : env.followingSaveErr (loadingRecord following0) = none)
    (hA : env.LoadActor following0.URL = .ok actor)
    (hS : env.followingSaveErr (successRecord following0 actor) = none)
    (hR : env.recalcErr following0.UserID following0.FolderID = none) :
    connect_PushServices env w following actor
      = { w with
          trace := w.trace
            ++ (if actor.Format = "ActivityPub" then
                  Event.connectActivityPub ::
                    (match env.connect_ActivityPub following actor with
                     | (false, some err) =>
                       [Event.report (Err.wrap err "service.Following.connect_PushServices"
                         "Error connecting to ActivityPub")]
                     | _ => [])
                else [])
            ++ (if actor.Format = "ActivityPub"
                  ∧ (env.connect_ActivityPub following actor).1 = true then []
                else if actor.HubWebSub ≠ "" then
                  Event.connectWebSub actor.HubWebSub ::
                    (match env.connect_WebSub following actor.HubWebSub with
                     | some err =>
                       [Event.report (Err.wrap err "service.Following.connect_PushServices"
                         "Error connecting to WebSub")]
                     | none => [])
                else []) }
    ∧ Connect env w0 following0
      = (none,
         connect_PushServices env
          ((ingest env (decide (following0.Status = .New)) (successRecord following0 actor)
            actor.Outbox 0
            { w0 with
              trace := w0.trace ++ [.saveFollowing (loadingRecord following0),
                .loadActor following0.URL, .saveFollowing (successRecord following0 actor)]
              persisted := w0.persisted ++ [loadingRecord following0,
                successRecord following0 actor] }).log
            (.recalculateUnread following0.UserID following0.FolderID))
          (successRecord following0 actor) actor) := by
  refine ⟨?_, ?_⟩
  · unfold connect_PushServices
    by_cases hf : actor.Format = "ActivityPub"
    · rcases hc : env.connect_ActivityPub following actor with ⟨ok, err⟩
      cases ok with
      | true => simp [hf, World.log]
      | false =>
        cases err with
        | none =>
          by_cases hh : actor.HubWebSub = ""
          · simp [hf, hh, World.log]
          · cases hw : env.connect_WebSub following actor.HubWebSub <;>
              simp [hf, hh, World.log]
        | some e0 =>
          by_cases hh : actor.HubWebSub = ""
          · simp [hf, hh, World.log]
          · cases hw : env.connect_WebSub following actor.HubWebSub <;>
              simp [hf, hh, World.log]
    · by_cases hh : actor.HubWebSub = ""
      · simp [hf, hh]
      · cases hw : env.connect_WebSub following actor.HubWebSub <;>
          simp [hf, hh, World.log]
  · rw [Connect_resolved env w0 following0 actor hL hA hS, hR]

/-- C25 (witness): both subscriptions fail for an ActivityPub actor with a hub;
both are attempted in order, each failure is reported, and `Connect` returns
nil with exactly these four events after the recount. -/
theorem C25_push_order_witness :
    pushFailsEnv.connect_ActivityPub exampleFollowing hubActor
        = (false, some (Err.base 500 "inbox refused"))
    ∧ pushFailsEnv.connect_WebSub exampleFollowing hubActor.HubWebSub
        = some (Err.base 500 "hub refused")
    ∧ (connect_PushServices pushFailsEnv emptyWorld exampleFollowing hubActor).trace
        = emptyWorld.trace ++ [.connectActivityPub,
            .report (Err.wrap (Err.base 500 "inbox refused")
              "service.Following.connect_PushServices" "Error connecting to ActivityPub"),
            .connectWebSub "https://hub.example/",
            .report (Err.wrap (Err.base 500 "hub refused")
              "service.Following.connect_PushServices" "Error connecting to WebSub")]
    ∧ (Connect pushFailsEnv emptyWorld exampleFollowing).1 = none
    ∧ (Connect pushFailsEnv emptyWorld exampleFollowing).2.trace
        = [.saveFollowing (loadingRecord exampleFollowing),
            .loadActor exampleFollowing.URL,
            .saveFollowing (successRecord exampleFollowing hubActor),
            .recalculateUnread exampleFollowing.UserID exampleFollowing.FolderID,
            .connectActivityPub,
            .report (Err.wrap (Err.base 500 "inbox refused")
              "service.Following.connect_PushServices" "Error connecting to ActivityPub"),
            .connectWebSub "https://hub.example/",
            .report (Err.wrap (Err.base 500 "hub refused")
              "service.Following.connect_PushServices" "Error connecting to WebSub")] := by
  have h := C25_push_order pushFailsEnv emptyWorld emptyWorld exampleFollowing exampleFollowing
    hubActor rfl rfl rfl rfl
  refine ⟨rfl, rfl, ?_, ?_, ?_⟩
  · rw [h.1]; rfl
  · rw [h.2]
  · decide

end Emissary

namespace Emissary

/-- C27 (the code at the failing input): the feed has three items and the
activity of the second cannot be saved; `import_RSS` saves the first, tries
the second, persists the Failure status and returns: the third item is never
attempted. -/
theorem C27_import_stops_at_failing_item :
    exampleFeed.Items.map (fun i => i.Link)
      = ["https://remote.example/p/3", "https://remote.example/p/2",
         "https://remote.example/p/1"]
    ∧ ((import_RSS exampleEnv secondItemFailsRSS loadingWorld (loadingRecord exampleFollowing)
        "<rss/>").2.trace.filterMap
          (fun e => match e with
            | .saveActivity _ item => some item.Link
            | _ => none))
      = ["https://remote.example/p/3", "https://remote.example/p/2"]
    ∧ (import_RSS exampleEnv secondItemFailsRSS loadingWorld (loadingRecord exampleFollowing)
        "<rss/>").1
      = some (Err.wrap (Err.base 500 "disk full")
          "service.Following.importRSS" "Error updating local activity") := by
  refine ⟨by decide, by decide, by decide⟩

/-- C29: when `LoadByMessageID` returns an error, whatever the error, and no
write fails, `SetResponse` deletes nothing; for an empty requested type its
only call is the lookup and it returns success; for any other requested type
it writes the marker, saves a new Response with the requested fields,
publishes it and returns success, and the stored responses are the old ones
with the new one put in. -/
theorem C29_load_error_means_no_response (env : ResponseEnv) (w : ResponseWorld)
    (actor : PersonLink) (message : DocumentLink) (responseType value : String) (e : Err)
    (hok : env.noWriteFault)
    (herr : Response.LoadByMessageID env w actor.UserID message.ID = .error e) :
    (Response.SetResponse env w actor message responseType value).1 = none
    ∧ (Response.SetResponse env w actor message responseType value).2.trace
        = w.trace ++ [.load actor.UserID message.ID]
          ++ (if responseType = "" then []
              else [.setResponse actor.UserID message.ID responseType,
                .save (requestedResponse (w.nextID + 1) actor message responseType value),
                .publish "RESPONSE" (w.nextID + 1) actor.UserID
                  (requestedResponse (w.nextID + 1) actor message responseType
                    value).GetJSONLD])
    ∧ (Response.SetResponse env w actor message responseType value).2.responses
        = (if responseType = "" then w.responses
           else upsertResponse w.responses
             (requestedResponse (w.nextID + 1) actor message responseType value)) := by
  obtain ⟨hclean, hmark, hsave, _, hpub, _⟩ := hok
  by_cases htype : responseType = ""
  · subst htype
    have key : Response.SetResponse env w actor message "" value
        = (none, ({ w with nextID := w.nextID + 1 }).log (.load actor.UserID message.ID)) := by
      simp only [Response.SetResponse, herr, createResponse, ↓reduceIte]
    rw [key]
    refine ⟨rfl, ?_, rfl⟩
    simp [ResponseWorld.log]
  · have hS := Response_Save_run env
      { responses := w.responses, markers := w.markers, nextID := w.nextID + 1 + 1,
        trace := w.trace ++ [.load actor.UserID message.ID] }
      (requestedResponse (w.nextID + 1) actor message responseType value)
      (hclean _) (hmark _ _ _) (hsave _)
    rw [hpub] at hS
    have key : Response.SetResponse env w actor message responseType value
        = (none,
           { responses := upsertResponse w.responses
               (requestedResponse (w.nextID + 1) actor message responseType value)
             markers := fun u m =>
               if u = actor.UserID ∧ m = message.ID then responseType else w.markers u m
             nextID := w.nextID + 1 + 1
             trace := w.trace ++ [.load actor.UserID message.ID] ++
               [.setResponse actor.UserID message.ID responseType,
                .save (requestedResponse (w.nextID + 1) actor message responseType value),
                .publish "RESPONSE" (w.nextID + 1) actor.UserID
                  (requestedResponse (w.nextID + 1) actor message responseType
                    value).GetJSONLD] }) := by
      simp only [Response.SetResponse, herr, createResponse, htype, if_false,
        ResponseWorld.log]
      rw [hS]
      rfl
    rw [key]
    refine ⟨rfl, ?_, ?_⟩
    · simp [htype]
    · simp [htype]

/-- C29 (witness): the lookup fails with a storage error while a Like is
stored; the Like is not deleted and a Dislike is saved and published. -/
theorem C29_load_error_means_no_response_witness :
    Response.LoadByMessageID lookupFailsEnv likedWorld alice.UserID someMessage.ID
        = .error (Err.wrap (Err.wrap (Err.base 500 "storage timeout")
            "service.Response.Load" "Error loading Response")
            "service.Response.LoadByID" "Error loading Response")
    ∧ (Response.SetResponse lookupFailsEnv likedWorld alice someMessage "Dislike" "").1 = none
    ∧ (Response.SetResponse lookupFailsEnv likedWorld alice someMessage "Dislike" "").2.trace
        = likedWorld.trace ++ [.load alice.UserID someMessage.ID]
          ++ (if "Dislike" = "" then []
              else [.setResponse alice.UserID someMessage.ID "Dislike",
                .save (requestedResponse (likedWorld.nextID + 1) alice someMessage "Dislike" ""),
                .publish "RESPONSE" (likedWorld.nextID + 1) alice.UserID
                  (requestedResponse (likedWorld.nextID + 1) alice someMessage "Dislike"
                    "").GetJSONLD])
    ∧ (Response.SetResponse lookupFailsEnv likedWorld alice someMessage "Dislike" "").2.responses
        = (if "Dislike" = "" then likedWorld.responses
           else upsertResponse likedWorld.responses
             (requestedResponse (likedWorld.nextID + 1) alice someMessage "Dislike" "")) :=
  ⟨rfl,
   C29_load_error_means_no_response lookupFailsEnv likedWorld alice someMessage "Dislike" ""
    (Err.wrap (Err.wrap (Err.base 500 "storage timeout")
      "service.Response.Load" "Error loading Response")
      "service.Response.LoadByID" "Error loading Response")
    ⟨fun _ => rfl, fun _ _ _ => rfl, fun _ => rfl, fun _ => rfl, fun _ _ => rfl,
      fun _ _ => rfl⟩
    rfl⟩

/-- C30: after the cleaning of the Response, `Response.Save` writes the marker,
then stores the Response, then publishes, and stops at the first failure.  If
the marker write fails, nothing is stored or published and the marker is
unchanged.  If the storage write fails, nothing is published, the marker
already carries the new type and the stored responses are unchanged.  If the
storage write succeeds, the Response is stored, and the result is the wrapped
error of the publication or nil. -/
theorem C30_save_order (env : ResponseEnv) (w : ResponseWorld) (response : Response)
    (hclean : env.cleanErr response = none) :
    match env.markerErr response.Actor.UserID response.Message.ID response.ResponseType with
    | some e =>
      (Response.Save env w response).1
          = some (Err.wrap e "service.Response.Save" "Error updating original message")
        ∧ (Response.Save env w response).2.trace
          = w.trace ++ [.setResponse response.Actor.UserID response.Message.ID
              response.ResponseType]
        ∧ (Response.Save env w response).2.responses = w.responses
        ∧ (Response.Save env w response).2.markers = w.markers
    | none =>
      match env.saveErr response with
      | some e =>
        (Response.Save env w response).1
            = some (Err.wrap e "service.Response.Save" "Error saving Response")
          ∧ (Response.Save env w response).2.trace
            = w.trace ++ [.setResponse response.Actor.UserID response.Message.ID
                response.ResponseType, .save response]
          ∧ (Response.Save env w response).2.responses = w.responses
          ∧ (Response.Save env w response).2.markers response.Actor.UserID response.Message.ID
            = response.ResponseType
      | none =>
        (Response.Save env w response).1
            = derp.Wrap (env.publishErr response.ResponseID response.Actor.UserID)
                "service.Response.Save" "Error publishing Response"
          ∧ (Response.Save env w response).2.trace
            = w.trace ++ [.setResponse response.Actor.UserID response.Message.ID
                response.ResponseType, .save response,
                .publish "RESPONSE" response.ResponseID response.Actor.UserID
                  response.GetJSONLD]
          ∧ (Response.Save env w response).2.responses
            = upsertResponse w.responses response
          ∧ (Response.Save env w response).2.markers response.Actor.UserID response.Message.ID
            = response.ResponseType := by
  cases hm : env.markerErr response.Actor.UserID response.Message.ID response.ResponseType with
  | some e =>
    simp only
    have key : Response.Save env w response
        = (some (Err.wrap e "service.Response.Save" "Error updating original message"),
           w.log (.setResponse response.Actor.UserID response.Message.ID
             response.ResponseType)) := by
      simp [Response.Save, Inbox.SetResponse, hclean, hm, derp.Wrap]
    rw [key]
    exact ⟨rfl, rfl, rfl, rfl⟩
  | none =>
    simp only
    cases hs : env.saveErr response with
    | some e =>
      simp only
      have key : Response.Save env w response
          = (some (Err.wrap e "service.Response.Save" "Error saving Response"),
             { responses := w.responses
               markers := fun u m =>
                 if u = response.Actor.UserID ∧ m = response.Message.ID
                 then response.ResponseType else w.markers u m
               nextID := w.nextID
               trace := w.trace ++ [.setResponse response.Actor.UserID response.Message.ID
                 response.ResponseType, .save response] }) := by
        simp [Response.Save, Inbox.SetResponse, hclean, hm, hs, derp.Wrap, ResponseWorld.log]
      rw [key]
      refine ⟨rfl, rfl, rfl, ?_⟩
      simp
    | none =>
      simp only
      rw [Response_Save_run env w response hclean hm hs]
      refine ⟨rfl, rfl, rfl, ?_⟩
      simp

/-- C30 (witness): the publication of the Like fails; the Like is stored and
the error is returned. -/
theorem C30_save_order_witness :
    ({ responseEnv with publishErr := fun _ _ => some (Err.base 500 "outbox down") }
        : ResponseEnv).cleanErr aliceLike = none
    ∧ (Response.Save { responseEnv with
          publishErr := fun _ _ => some (Err.base 500 "outbox down") } noResponses aliceLike).1
        = some (Err.wrap (Err.base 500 "outbox down")
            "service.Response.Save" "Error publishing Response")
    ∧ (Response.Save { responseEnv with
          publishErr := fun _ _ => some (Err.base 500 "outbox down") } noResponses
          aliceLike).2.responses = [aliceLike] :=
  ⟨rfl,
   (C30_save_order { responseEnv with
      publishErr := fun _ _ => some (Err.base 500 "outbox down") } noResponses aliceLike rfl).1,
   (C30_save_order { responseEnv with
      publishErr := fun _ _ => some (Err.base 500 "outbox down") } noResponses aliceLike
      rfl).2.2.1⟩

end Emissary

namespace Emissary

/-! ## Permissions and the database upgrade -/

/-- C24: `ActionConfig.UserCan` returns true if and only if (States is empty or
the StateID of the stream is an element of States) and (Roles is empty or at
least one role that the authorization holds on the stream is an element of
Roles). -/
theorem C24_UserCan_iff {Authorization : Type} (roles : Stream → Authorization → List String)
    (actionConfig : ActionConfig) (stream : Stream) (authorization : Authorization) :
    ActionConfig.UserCan roles actionConfig stream authorization = true
      ↔ (actionConfig.States = [] ∨ stream.StateID ∈ actionConfig.States)
        ∧ (actionConfig.Roles = []
          ∨ ∃ r ∈ roles stream authorization, r ∈ actionConfig.Roles) := by
  unfold ActionConfig.UserCan
  have hs : ∀ l : List String, l.length > 0 ↔ l ≠ [] := by
    intro l
    cases l <;> simp
  by_cases h1 : actionConfig.States = []
  · by_cases h2 : actionConfig.Roles = []
    · simp [h1, h2]
    · by_cases h3 : matchAny (roles stream authorization) actionConfig.Roles = true
      · have h4 := (matchAny_iff _ _).mp h3
        simp [h1, h3, h4]
      · have h4 : ¬ ∃ r ∈ roles stream authorization, r ∈ actionConfig.Roles :=
          fun h5 => h3 ((matchAny_iff _ _).mpr h5)
        have h3f : matchAny (roles stream authorization) actionConfig.Roles = false := by
          simpa using h3
        simp only [h1, List.length_nil, gt_iff_lt, Nat.lt_irrefl, false_and, if_false,
          h3f, Bool.not_false, and_true, true_or, true_and]
        have hlen : 0 < actionConfig.Roles.length := (hs _).mpr h2
        simp [hlen, h2, h4]
  · have hlen1 : 0 < actionConfig.States.length := (hs _).mpr h1
    by_cases h0 : matchOne actionConfig.States stream.StateID = true
    · have h0m := (matchOne_iff _ _).mp h0
      by_cases h2 : actionConfig.Roles = []
      · simp [h0, h0m, h2]
      · have hlen : 0 < actionConfig.Roles.length := (hs _).mpr h2
        by_cases h3 : matchAny (roles stream authorization) actionConfig.Roles = true
        · have h4 := (matchAny_iff _ _).mp h3
          simp [h0, h0m, h3, h4]
        · have h4 : ¬ ∃ r ∈ roles stream authorization, r ∈ actionConfig.Roles :=
            fun h5 => h3 ((matchAny_iff _ _).mpr h5)
          have h3f : matchAny (roles stream authorization) actionConfig.Roles = false := by
            simpa using h3
          simp [h0, h0m, h3f, hlen, h2, h4]
    · have h0m : ¬ stream.StateID ∈ actionConfig.States :=
        fun h5 => h0 ((matchOne_iff _ _).mpr h5)
      have h0f : matchOne actionConfig.States stream.StateID = false := by simpa using h0
      simp [h0f, hlen1, h1, h0m]

/-- C28: `UpgradeMongoDB` on a domain at version 3 does nothing and returns
nil.  On a domain at a version v < 3 (the client being created and connected)
the steps it runs are the steps K with v < K <= 3 in ascending order, up to
and including the first that fails; when a step fails its wrapped error is
returned and no version is recorded; when all succeed, version 3 is recorded
after them and the result is that of the update of the domain record. -/
theorem C28_upgrade_steps (env : UpgradeEnv) (v : Int)
    (hclient : env.newClientErr = none) (hconn : env.connectErr = none) (hv : v < 3) :
    UpgradeMongoDB env 3 = (none, [])
    ∧ (∀ k : Nat, k ∈ stepsFrom v ↔ (v < (k : Int) ∧ 1 ≤ k ∧ k ≤ 3))
    ∧ (stepsFrom v).Pairwise (fun a b => a < b)
    ∧ (UpgradeMongoDB env v).2
        = [.newClient, .connect]
          ++ (runUntilFailure env.Version (stepsFrom v)).1.map UpgradeEvent.version
          ++ (match (runUntilFailure env.Version (stepsFrom v)).2 with
              | none => [.recordVersion 3]
              | some _ => [])
    ∧ (UpgradeMongoDB env v).1
        = (match (runUntilFailure env.Version (stepsFrom v)).2 with
           | some (k, e) => some (Err.wrap e "queries.UpgradeMongoDB" (versionMessage k))
           | none => derp.Wrap env.updateErr "queries.UpgradeMongoDB"
               "Error updating domain record") := by
  have hcases : v < 1 ∨ v = 1 ∨ v = 2 := by omega
  refine ⟨by simp [UpgradeMongoDB], ?_, ?_, ?_, ?_⟩
  · intro k
    simp only [stepsFrom, List.mem_filter, List.mem_cons, List.mem_singleton,
      List.not_mem_nil, or_false, decide_eq_true_eq]
    constructor
    · rintro ⟨h | h | h, hk⟩ <;> subst h <;> exact ⟨hk, by omega, by omega⟩
    · rintro ⟨hk, h1, h3⟩
      refine ⟨?_, hk⟩
      omega
  · rcases hcases with h | h | h
    · have h2 : v < 2 := by omega
      simp [stepsFrom, List.filter, h, h2, hv]
    · subst h
      simp [stepsFrom, List.filter]
    · subst h
      simp [stepsFrom, List.filter]
  · rcases hcases with h | h | h
    · have h2 : v < 2 := by omega
      have hne : v ≠ 3 := by omega
      cases h1e : env.Version 1 <;> cases h2e : env.Version 2 <;> cases h3e : env.Version 3 <;>
        cases hu : env.updateErr <;>
        simp [UpgradeMongoDB, upgradeStep, hclient, hconn, stepsFrom, List.filter,
          runUntilFailure, h, h2, hv, hne, h1e, h2e, h3e, hu, derp.Wrap]
    · subst h
      cases h2e : env.Version 2 <;> cases h3e : env.Version 3 <;> cases hu : env.updateErr <;>
        simp [UpgradeMongoDB, upgradeStep, hclient, hconn, stepsFrom, List.filter,
          runUntilFailure, h2e, h3e, hu, derp.Wrap]
    · subst h
      cases h3e : env.Version 3 <;> cases hu : env.updateErr <;>
        simp [UpgradeMongoDB, upgradeStep, hclient, hconn, stepsFrom, List.filter,
          runUntilFailure, h3e, hu, derp.Wrap]
  · rcases hcases with h | h | h
    · have h2 : v < 2 := by omega
      have hne : v ≠ 3 := by omega
      cases h1e : env.Version 1 <;> cases h2e : env.Version 2 <;> cases h3e : env.Version 3 <;>
        cases hu : env.updateErr <;>
        simp [UpgradeMongoDB, upgradeStep, hclient, hconn, stepsFrom, List.filter,
          runUntilFailure, h, h2, hv, hne, h1e, h2e, h3e, hu, derp.Wrap, versionMessage]
    · subst h
      cases h2e : env.Version 2 <;> cases h3e : env.Version 3 <;> cases hu : env.updateErr <;>
        simp [UpgradeMongoDB, upgradeStep, hclient, hconn, stepsFrom, List.filter,
          runUntilFailure, h2e, h3e, hu, derp.Wrap, versionMessage]
    · subst h
      cases h3e : env.Version 3 <;> cases hu : env.updateErr <;>
        simp [UpgradeMongoDB, upgradeStep, hclient, hconn, stepsFrom, List.filter,
          runUntilFailure, h3e, hu, derp.Wrap, versionMessage]

/-- C28 (witness): a domain at version 0 whose second upgrade step fails:
steps 1 and 2 run, the error of step 2 is returned, no version is recorded. -/
theorem C28_upgrade_steps_witness :
    (0 : Int) < 3
    ∧ UpgradeMongoDB secondStepFails 0
        = (some (Err.wrap (Err.base 500 "index build failed") "queries.UpgradeMongoDB"
            "Error upgrading database to version 2"),
           [.newClient, .connect, .version 1, .version 2])
    ∧ (UpgradeMongoDB secondStepFails 0).2
        = [.newClient, .connect]
          ++ (runUntilFailure secondStepFails.Version (stepsFrom 0)).1.map UpgradeEvent.version
          ++ (match (runUntilFailure secondStepFails.Version (stepsFrom 0)).2 with
              | none => [.recordVersion 3]
              | some _ => []) :=
  ⟨by decide, by decide,
   (C28_upgrade_steps secondStepFails 0 rfl rfl (by decide)).2.2.2.1⟩

end Emissary

namespace Emissary

/-! ## The Activity service -/

/-- C21 (the code at the failing input): the store holds a read inbox activity
of the Following and a read inbox activity of another user from another
Following; `QueryPurgeable` for the Following returns both: its criteria name
the box and the read date only, so it returns an activity that does not
originate from that Following. -/
theorem C21_purgeable_ignores_origin :
    (Activity.QueryPurgeable activityEnv activityWorld purgingFollowing).1.1
      = [ownActivity, foreignActivity]
    ∧ foreignActivity.Origin.InternalID ≠ purgingFollowing.FollowingID
    ∧ foreignActivity.UserID ≠ purgingFollowing.UserID
    ∧ foreignActivity.Origin ≠ purgingFollowing.Origin := by
  refine ⟨by decide, by decide, by decide, by decide⟩

/-- C22: `SetReadDate` with a token that is not an ObjectID returns an error
and makes no call.  With a token that is an ObjectID and an inbox activity of
the user loaded for it: when the activity is already read, the only call is
the load, the result is success and the stored activities are unchanged;
otherwise (and with no fault in cleaning or storage) the activity is saved with
the given read date and the result is success. -/
theorem C22_SetReadDate (env : ActivityEnv) (w : ActivityWorld) (userID : Nat)
    (token bad : String) (readDate : Int) (activityID : Nat) (activity : Activity) (e : Err)
    (hbad : ObjectIDFromHex bad = .error e)
    (htoken : ObjectIDFromHex token = .ok activityID)
    (hload : env.loadErr userID activityID = none)
    (hfound : w.activities.find? (matchesActivity userID .Inbox activityID) = some activity)
    (hclean : ∀ a, env.cleanErr a = none) (hsave : ∀ a, env.saveErr a = none) :
    (Activity.SetReadDate env w userID bad readDate).1
        = some (Err.wrap e "service.Activity.SetReadDate" "Cannot parse activityID")
    ∧ (Activity.SetReadDate env w userID bad readDate).2 = w
    ∧ (Activity.SetReadDate env w userID token readDate).1 = none
    ∧ (if activity.ReadDate > 0 then
        (Activity.SetReadDate env w userID token readDate).2.trace
            = w.trace ++ [.load userID activityID]
          ∧ (Activity.SetReadDate env w userID token readDate).2.activities = w.activities
       else
        (Activity.SetReadDate env w userID token readDate).2.trace
            = w.trace ++ [.load userID activityID,
                .save { activity with ReadDate := readDate }]
          ∧ (Activity.SetReadDate env w userID token readDate).2.activities
            = upsertActivity w.activities { activity with ReadDate := readDate }) := by
  have hl : Activity.LoadFromInbox env w userID activityID = .ok activity := by
    simp [Activity.LoadFromInbox, hload, hfound]
  refine ⟨?_, ?_, ?_, ?_⟩
  · simp [Activity.SetReadDate, hbad, derp.Wrap]
  · simp [Activity.SetReadDate, hbad]
  · by_cases hr : activity.ReadDate > 0
    · simp [Activity.SetReadDate, htoken, hl, hr]
    · simp [Activity.SetReadDate, htoken, hl, hr, Activity.Save, hclean, hsave]
  · by_cases hr : activity.ReadDate > 0
    · simp [Activity.SetReadDate, htoken, hl, hr, ActivityWorld.log]
    · simp [Activity.SetReadDate, htoken, hl, hr, Activity.Save, hclean, hsave,
        ActivityWorld.log]

/-- C22 (witness): a token that is no ObjectID, and the token of the unread
activity of user 1. -/
theorem C22_SetReadDate_witness :
    (Activity.SetReadDate activityEnv activityWorld 1 "not-an-object-id" 1700000000).1
        = some (Err.wrap (Err.base 500 "the provided hex string is not a valid ObjectID")
            "service.Activity.SetReadDate" "Cannot parse activityID")
    ∧ (Activity.SetReadDate activityEnv activityWorld 1 "not-an-object-id" 1700000000).2
        = activityWorld
    ∧ (Activity.SetReadDate activityEnv activityWorld 1 "000000000000000000000003"
        1700000000).1 = none
    ∧ (if unreadActivity.ReadDate > 0 then
        (Activity.SetReadDate activityEnv activityWorld 1 "000000000000000000000003"
            1700000000).2.trace
            = activityWorld.trace ++ [.load 1 3]
          ∧ (Activity.SetReadDate activityEnv activityWorld 1 "000000000000000000000003"
            1700000000).2.activities = activityWorld.activities
       else
        (Activity.SetReadDate activityEnv activityWorld 1 "000000000000000000000003"
            1700000000).2.trace
            = activityWorld.trace ++ [.load 1 3,
                .save { unreadActivity with ReadDate := 1700000000 }]
          ∧ (Activity.SetReadDate activityEnv activityWorld 1 "000000000000000000000003"
            1700000000).2.activities
            = upsertActivity activityWorld.activities
                { unreadActivity with ReadDate := 1700000000 }) :=
  C22_SetReadDate activityEnv activityWorld 1 "000000000000000000000003" "not-an-object-id"
    1700000000 3 unreadActivity (Err.base 500 "the provided hex string is not a valid ObjectID")
    rfl rfl rfl (by decide) (fun _ => rfl) (fun _ => rfl)

end Emissary

namespace Emissary

/-! ## The inbox handler -/

/-- C26: for a pushed document whose object has an ignored type, the handler
returns nil and the world is unchanged.  For a pushed document whose object
has any other type, when no Following of the user is stored for the id of the
actor of the document, the handler returns an error, its only call is the
lookup of the Following, and no message is loaded, created or saved. -/
theorem C26_only_followed_actors (env : Env) (henv : HandlerEnv) (w : World) (userID : Nat)
    (ignored pushed : Document)
    (hign : ignoredObjectType ignored.Object.docType = true)
    (hnot : ignoredObjectType pushed.Object.docType = false)
    (hnone : henv.followings.find?
      (fun f => f.UserID == userID && f.URL == henv.ActorID pushed) = none) :
    activityPub_CreateOrUpdate env henv w userID ignored = (none, w)
    ∧ (∃ e, (activityPub_CreateOrUpdate env henv w userID pushed).1
        = some (Err.wrap e "handler.activitypub_receive_create"
            "Error loading following record"))
    ∧ (activityPub_CreateOrUpdate env henv w userID pushed).2.trace
        = w.trace ++ [.loadFollowing userID (henv.ActorID pushed)]
    ∧ (activityPub_CreateOrUpdate env henv w userID pushed).2.messages = w.messages := by
  have hl : ∃ e, Following.LoadByURL henv userID (henv.ActorID pushed) = .error e := by
    unfold Following.LoadByURL
    cases henv.followingLoadErr userID (henv.ActorID pushed) with
    | some e => exact ⟨_, rfl⟩
    | none => rw [hnone]; exact ⟨_, rfl⟩
  obtain ⟨e, he⟩ := hl
  have key : activityPub_CreateOrUpdate env henv w userID pushed
      = (some (Err.wrap e "handler.activitypub_receive_create"
            "Error loading following record"),
         ({ w with nextID := w.nextID + 1 }).log
           (.loadFollowing userID (henv.ActorID pushed))) := by
    simp [activityPub_CreateOrUpdate, hnot, he, derp.Wrap]
  refine ⟨by simp [activityPub_CreateOrUpdate, hign], ⟨e, ?_⟩, ?_, ?_⟩
  · rw [key]
  · rw [key]; rfl
  · rw [key]; rfl

/-- C26 (witness): a profile update, and a note pushed by an actor that the
user does not follow. -/
theorem C26_only_followed_actors_witness :
    ignoredObjectType profileUpdate.Object.docType = true
    ∧ ignoredObjectType strangerCreate.Object.docType = false
    ∧ activityPub_CreateOrUpdate exampleEnv handlerEnv emptyWorld 1 profileUpdate
        = (none, emptyWorld)
    ∧ (∃ e, (activityPub_CreateOrUpdate exampleEnv handlerEnv emptyWorld 1 strangerCreate).1
        = some (Err.wrap e "handler.activitypub_receive_create"
            "Error loading following record"))
    ∧ (activityPub_CreateOrUpdate exampleEnv handlerEnv emptyWorld 1 strangerCreate).2.trace
        = emptyWorld.trace ++ [.loadFollowing 1 (handlerEnv.ActorID strangerCreate)]
    ∧ (activityPub_CreateOrUpdate exampleEnv handlerEnv emptyWorld 1 strangerCreate).2.messages
        = emptyWorld.messages :=
  ⟨by decide, by decide,
   C26_only_followed_actors exampleEnv handlerEnv emptyWorld 1 profileUpdate strangerCreate
    (by decide) (by decide) (by decide)⟩

end Emissary
